import Mathlib

/-!
Gree AC serial driver (`components/gree_ac/gree_ac.cpp`).

A shallow embedding of the checksum, the frame reassembler, the frame
validator, the state codec and the session state of `GreeAC`.

Conventions of the embedding.

* Bytes (`uint8_t`) are natural numbers; every place where the C++ narrows a
  wider value to `uint8_t` carries an explicit `% 256`, the `uint16_t` sizes an
  explicit `% 65536`, the `uint32_t` accumulator an explicit `% 4294967296`.
* The C arrays `rx_buffer_` and `tx_buffer_` are lists; `a[i]` is
  `a.getD i 0` and `a[i] = v` is `a.set i v`.
* The constants, enumerations and field types that `gree_ac.h` declares are
  not part of the translated file.  They are collected in `Config` and every
  definition takes the configuration as its first argument.
* `float` temperatures are `FloatVal`: a rational number or one of the three
  non-finite values.  The float operations of the driver are exact in binary32:
  `raw / 16.0f + MIN_TEMPERATURE` and `raw - 40.0f` are multiples of 1/16 below
  512, and `(t - MIN_TEMPERATURE) * 16` is taken only for `t` between the two
  integer bounds, where the difference is representable and the product scales
  it by a power of two.  Rational arithmetic therefore gives the same results.
* The counters and `rx_index_` are natural numbers: their declared widths are in
  the header.
* Calls that leave the driver (`write_array`, `publish_state`,
  `mark_failed`) and the calls of `verify_packet_` and `handle_packet_` are
  recorded in a trace, `trace_`, in the order they happen.
-/

namespace gree_ac

/-! ## Constants of `gree_ac.cpp` -/

def FORCE_UPDATE_BYTE : Nat := 7
def MODE_BYTE : Nat := 8
def MODE_MASK : Nat := 0xF0
def FAN_MASK : Nat := 0x0F
def TEMPERATURE_BYTE : Nat := 9
def PRESET_BYTE : Nat := 10
def SWING_BYTE : Nat := 12
def DISPLAY_BYTE : Nat := 13
def INDOOR_TEMP_BYTE : Nat := 46

/-! ## Constants declared in `gree_ac.h` -/

/-- Values of the names that `gree_ac.cpp` takes from its header. -/
structure Config where
  GREE_START_BYTE : Nat
  GREE_RX_BUFFER_SIZE : Nat
  GREE_TX_BUFFER_SIZE : Nat
  CMD_IN_UNIT_REPORT : Nat
  /-- Value of `sizeof(gree_header_t)`. -/
  HEADER_SIZE : Nat
  MIN_TEMPERATURE : Nat
  MAX_TEMPERATURE : Nat
  /-- The byte `static_cast<uint8_t>(ACMode::OFF)`; likewise the five other modes. -/
  AC_MODE_OFF : Nat
  AC_MODE_AUTO : Nat
  AC_MODE_COOL : Nat
  AC_MODE_DRY : Nat
  AC_MODE_FAN_ONLY : Nat
  AC_MODE_HEAT : Nat
  /-- The byte `static_cast<uint8_t>(ACFanSpeed::S_AUTO)`; likewise the three other speeds. -/
  S_AUTO : Nat
  S_LOW : Nat
  S_MEDIUM : Nat
  S_HIGH : Nat
  PRESET_COOL_NORMAL : Nat
  PRESET_HEAT_NORMAL : Nat
  PRESET_COOL_BOOST : Nat
  PRESET_HEAT_BOOST : Nat
  AC_SWING_OFF : Nat
  AC_SWING_VERTICAL : Nat
  AC_SWING_HORIZONTAL : Nat
  AC_SWING_BOTH : Nat
  HANDSHAKE_RETRY_INTERVAL_MS : Nat
  PACKET_TIMEOUT_MS : Nat
  deriving Repr, DecidableEq

/-! ## Checksum -/

/-- The loop `for (uint16_t i = 2; i < position; i++) sum += message[i];` of
`calculate_checksum_`, entered with `n` iterations left, loop variable `i` and
the `uint32_t` accumulator `sum`. -/
def checksum_loop (message : List Nat) : Nat → Nat → Nat → Nat
  | 0, _, sum => sum
  | n + 1, i, sum => checksum_loop message n (i + 1) ((sum + message.getD i 0) % 4294967296)

/-- The function `GreeAC::calculate_checksum_(message, size)`.  `position` is
the `uint8_t` the code narrows `size - 1` to; the loop runs from 2 while
`i < position`, that is `position - 2` times. -/
def calculate_checksum_ (message : List Nat) (size : Nat) : Nat :=
  if size < 3 then 0
  else
    let position := (size - 1) % 256
    let sum := checksum_loop message (position - 2) 2 0
    sum % 256 % 256

/-- Sum of the bytes of `message` at the indices `lo, lo + 1, ..., lo + n - 1`. -/
def byte_sum (message : List Nat) (lo n : Nat) : Nat :=
  ((List.range' lo n).map (fun i => message.getD i 0)).sum

/-! ## Types of the ESPHome climate interface -/

/-- The enumeration `climate::ClimateMode` (underlying type `uint8_t`). -/
inductive ClimateMode
  | CLIMATE_MODE_OFF
  | CLIMATE_MODE_HEAT_COOL
  | CLIMATE_MODE_COOL
  | CLIMATE_MODE_HEAT
  | CLIMATE_MODE_FAN_ONLY
  | CLIMATE_MODE_DRY
  | CLIMATE_MODE_AUTO
  deriving Repr, DecidableEq

/-- Underlying `uint8_t` value of a `climate::ClimateMode` enumerator. -/
def ClimateMode.toNat : ClimateMode → Nat
  | .CLIMATE_MODE_OFF => 0
  | .CLIMATE_MODE_HEAT_COOL => 1
  | .CLIMATE_MODE_COOL => 2
  | .CLIMATE_MODE_HEAT => 3
  | .CLIMATE_MODE_FAN_ONLY => 4
  | .CLIMATE_MODE_DRY => 5
  | .CLIMATE_MODE_AUTO => 6

/-- The enumeration `climate::ClimateFanMode`. -/
inductive ClimateFanMode
  | CLIMATE_FAN_ON
  | CLIMATE_FAN_OFF
  | CLIMATE_FAN_AUTO
  | CLIMATE_FAN_LOW
  | CLIMATE_FAN_MEDIUM
  | CLIMATE_FAN_HIGH
  | CLIMATE_FAN_MIDDLE
  | CLIMATE_FAN_FOCUS
  | CLIMATE_FAN_DIFFUSE
  | CLIMATE_FAN_QUIET
  deriving Repr, DecidableEq

/-- The enumeration `climate::ClimateSwingMode`. -/
inductive ClimateSwingMode
  | CLIMATE_SWING_OFF
  | CLIMATE_SWING_BOTH
  | CLIMATE_SWING_VERTICAL
  | CLIMATE_SWING_HORIZONTAL
  deriving Repr, DecidableEq

/-- The enumeration `climate::ClimatePreset`. -/
inductive ClimatePreset
  | CLIMATE_PRESET_NONE
  | CLIMATE_PRESET_HOME
  | CLIMATE_PRESET_AWAY
  | CLIMATE_PRESET_BOOST
  | CLIMATE_PRESET_COMFORT
  | CLIMATE_PRESET_ECO
  | CLIMATE_PRESET_SLEEP
  | CLIMATE_PRESET_ACTIVITY
  deriving Repr, DecidableEq

/-- A `float`: a finite value, carried as a rational, or a non-finite one. -/
inductive FloatVal
  | nan
  | negInf
  | posInf
  | num (q : ℚ)
  deriving Repr, DecidableEq

/-- The comparison `x >= c` of a float with a finite constant. -/
def FloatVal.ge_const (x : FloatVal) (c : ℚ) : Bool :=
  match x with
  | .nan => false
  | .negInf => false
  | .posInf => true
  | .num q => decide (c ≤ q)

/-- The comparison `x <= c` of a float with a finite constant. -/
def FloatVal.le_const (x : FloatVal) (c : ℚ) : Bool :=
  match x with
  | .nan => false
  | .negInf => true
  | .posInf => false
  | .num q => decide (q ≤ c)

/-- The command intent `climate::ClimateCall`: five optional fields. -/
structure ClimateCall where
  mode : Option ClimateMode
  fan_mode : Option ClimateFanMode
  preset : Option ClimatePreset
  target_temperature : Option FloatVal
  swing_mode : Option ClimateSwingMode
  deriving Repr, DecidableEq

/-! ## Driver state -/

/-- The enumeration `ACState`. -/
inductive ACState
  | INITIALIZING
  | READY
  deriving Repr, DecidableEq

/-- The enumeration `SerialState`. -/
inductive SerialState
  | WAIT_SYNC
  | RECEIVE
  | COMPLETE
  deriving Repr, DecidableEq

/-- The enumeration `UpdateState`; the code names `NO_UPDATE` only, the other
enumerators are told apart by a tag. -/
inductive UpdateState
  | NO_UPDATE
  | OTHER (tag : Nat)
  deriving Repr, DecidableEq

/-- A call recorded in the trace. -/
inductive Event
  /-- Call `verify_packet_(data, size)`, with the first `size` bytes of `data`. -/
  | verify (frame : List Nat)
  /-- Call `handle_packet_(data, size)`, with the first `size` bytes of `data`. -/
  | handle (frame : List Nat)
  /-- Call `write_array(tx_buffer_, size)`, with the bytes written. -/
  | write (frame : List Nat)
  /-- Call `publish_state()`. -/
  | publish
  /-- Call `mark_failed()`. -/
  | mark_failed
  deriving Repr, DecidableEq

/-- The data members of `GreeAC` that `gree_ac.cpp` reads or writes, the members
inherited from `climate::Climate` among them, and the trace. -/
structure GreeAC where
  state_ : ACState
  serial_state_ : SerialState
  update_state_ : UpdateState
  rx_buffer_ : List Nat
  rx_index_ : Nat
  tx_buffer_ : List Nat
  checksum_errors_ : Nat
  invalid_packet_errors_ : Nat
  packets_received_ : Nat
  packets_sent_ : Nat
  last_packet_received_ : Nat
  last_packet_sent_ : Nat
  last_handshake_attempt_ : Nat
  /-- Member `mode`, as the underlying value of the `climate::ClimateMode` it holds. -/
  mode : Nat
  fan_mode : Option ClimateFanMode
  target_temperature : FloatVal
  current_temperature : FloatVal
  preset : Option ClimatePreset
  swing_mode : ClimateSwingMode
  /-- Set by `mark_failed()`. -/
  failed_ : Bool
  trace_ : List Event
  deriving Repr, DecidableEq

/-- One byte delivered by `read_byte`, with the value `millis()` returns after
the byte has been processed. -/
structure RxByte where
  byte : Nat
  millis : Nat
  deriving Repr, DecidableEq

/-- Subtraction of two `uint32_t` millisecond counts, wrapping. -/
def u32_sub (a b : Nat) : Nat :=
  (a % 4294967296 + 4294967296 - b % 4294967296) % 4294967296

/-! ## Frame validator -/

/-- The function `GreeAC::verify_packet_(data, size)`: the result and the driver after the
call. -/
def GreeAC.verify_packet_ (cfg : Config) (self : GreeAC) (data : List Nat) (size : Nat) :
    Bool × GreeAC :=
  if size < 4 then
    (false, { self with invalid_packet_errors_ := self.invalid_packet_errors_ + 1 })
  else if data.getD 3 0 ≠ cfg.CMD_IN_UNIT_REPORT then
    (false, { self with invalid_packet_errors_ := self.invalid_packet_errors_ + 1 })
  else
    let received_crc := data.getD (size - 1) 0
    let calc_crc := calculate_checksum_ data size
    if received_crc ≠ calc_crc then
      (false, { self with checksum_errors_ := self.checksum_errors_ + 1 })
    else
      (true, self)

/-! ## State codec: decode -/

/-- Target temperature of `parse_state_packet_`:
`(temp_raw / 16.0f) + MIN_TEMPERATURE`, kept when inside the bounds. -/
def GreeAC.parse_target_temperature (cfg : Config) (self : GreeAC) (data : List Nat) : GreeAC :=
  let temp_raw := data.getD TEMPERATURE_BYTE 0
  let target_temp := FloatVal.num ((temp_raw : ℚ) / 16 + cfg.MIN_TEMPERATURE)
  if target_temp.ge_const cfg.MIN_TEMPERATURE && target_temp.le_const cfg.MAX_TEMPERATURE then
    { self with target_temperature := target_temp }
  else self

/-- The conversion `static_cast<int8_t>(b)` of a byte. -/
def to_int8 (b : Nat) : Int :=
  if b % 256 < 128 then (b % 256 : Nat) else ((b % 256 : Nat) : Int) - 256

/-- Indoor temperature of `parse_state_packet_`: `current_temp_raw - 40.0f`, kept
when inside `[-10, 50]`; only read when the frame reaches the byte. -/
def GreeAC.parse_current_temperature (self : GreeAC) (data : List Nat) (size : Nat) : GreeAC :=
  if size > INDOOR_TEMP_BYTE then
    let current_temp_raw := to_int8 (data.getD INDOOR_TEMP_BYTE 0)
    let current_temp := FloatVal.num ((current_temp_raw : ℚ) - 40)
    if current_temp.ge_const (-10) && current_temp.le_const 50 then
      { self with current_temperature := current_temp }
    else self
  else self

/-- The statement `switch (mode_byte & MODE_MASK)` of `parse_state_packet_`. -/
def GreeAC.parse_mode (cfg : Config) (self : GreeAC) (mode_byte : Nat) : GreeAC :=
  let m := mode_byte &&& MODE_MASK
  if m = cfg.AC_MODE_OFF then { self with mode := ClimateMode.CLIMATE_MODE_OFF.toNat }
  else if m = cfg.AC_MODE_AUTO then { self with mode := ClimateMode.CLIMATE_MODE_AUTO.toNat }
  else if m = cfg.AC_MODE_COOL then { self with mode := ClimateMode.CLIMATE_MODE_COOL.toNat }
  else if m = cfg.AC_MODE_DRY then { self with mode := ClimateMode.CLIMATE_MODE_DRY.toNat }
  else if m = cfg.AC_MODE_FAN_ONLY then
    { self with mode := ClimateMode.CLIMATE_MODE_FAN_ONLY.toNat }
  else if m = cfg.AC_MODE_HEAT then { self with mode := ClimateMode.CLIMATE_MODE_HEAT.toNat }
  else self

/-- The statement `switch (mode_byte & FAN_MASK)` of `parse_state_packet_`. -/
def GreeAC.parse_fan (cfg : Config) (self : GreeAC) (mode_byte : Nat) : GreeAC :=
  let f := mode_byte &&& FAN_MASK
  if f = cfg.S_AUTO then { self with fan_mode := some ClimateFanMode.CLIMATE_FAN_AUTO }
  else if f = cfg.S_LOW then { self with fan_mode := some ClimateFanMode.CLIMATE_FAN_LOW }
  else if f = cfg.S_MEDIUM then { self with fan_mode := some ClimateFanMode.CLIMATE_FAN_MEDIUM }
  else if f = cfg.S_HIGH then { self with fan_mode := some ClimateFanMode.CLIMATE_FAN_HIGH }
  else self

/-- Preset of `parse_state_packet_`. -/
def GreeAC.parse_preset (cfg : Config) (self : GreeAC) (data : List Nat) (size : Nat) : GreeAC :=
  if size > PRESET_BYTE then
    let preset_byte := data.getD PRESET_BYTE 0
    if preset_byte = cfg.PRESET_COOL_BOOST ∨ preset_byte = cfg.PRESET_HEAT_BOOST then
      { self with preset := some ClimatePreset.CLIMATE_PRESET_BOOST }
    else
      { self with preset := some ClimatePreset.CLIMATE_PRESET_NONE }
  else
    { self with preset := some ClimatePreset.CLIMATE_PRESET_NONE }

/-- Swing mode of `parse_state_packet_`, with the copy of the byte into
`tx_buffer_`. -/
def GreeAC.parse_swing (cfg : Config) (self : GreeAC) (data : List Nat) (size : Nat) : GreeAC :=
  if size > SWING_BYTE then
    let swing_byte := data.getD SWING_BYTE 0
    let s1 : GreeAC :=
      if swing_byte = cfg.AC_SWING_OFF then
        { self with swing_mode := ClimateSwingMode.CLIMATE_SWING_OFF }
      else if swing_byte = cfg.AC_SWING_VERTICAL then
        { self with swing_mode := ClimateSwingMode.CLIMATE_SWING_VERTICAL }
      else if swing_byte = cfg.AC_SWING_HORIZONTAL then
        { self with swing_mode := ClimateSwingMode.CLIMATE_SWING_HORIZONTAL }
      else if swing_byte = cfg.AC_SWING_BOTH then
        { self with swing_mode := ClimateSwingMode.CLIMATE_SWING_BOTH }
      else self
    { s1 with tx_buffer_ := s1.tx_buffer_.set SWING_BYTE swing_byte }
  else self

/-- The function `GreeAC::parse_state_packet_(data, size)`. -/
def GreeAC.parse_state_packet_ (cfg : Config) (self : GreeAC) (data : List Nat) (size : Nat) :
    GreeAC :=
  let MIN_PACKET_SIZE := (cfg.HEADER_SIZE + 1) % 256
  if size < MIN_PACKET_SIZE + 1 then self
  else
    let data_crc := data.getD (size - 1) 0
    let calculated_crc := calculate_checksum_ data size
    if data_crc ≠ calculated_crc then
      { self with checksum_errors_ := self.checksum_errors_ + 1 }
    else if size ≤ 3 ∨ data.getD 3 0 ≠ cfg.CMD_IN_UNIT_REPORT then
      { self with invalid_packet_errors_ := self.invalid_packet_errors_ + 1 }
    else if size ≤ TEMPERATURE_BYTE then self
    else
      let s1 := self.parse_target_temperature cfg data
      let s2 := s1.parse_current_temperature data size
      let s3 : GreeAC :=
        { s2 with tx_buffer_ := (s2.tx_buffer_.set MODE_BYTE (data.getD MODE_BYTE 0)).set
                    TEMPERATURE_BYTE (data.getD TEMPERATURE_BYTE 0) }
      let mode_byte := data.getD MODE_BYTE 0
      let s4 := s3.parse_mode cfg mode_byte
      let s5 := s4.parse_fan cfg mode_byte
      let s6 := s5.parse_preset cfg data size
      let s7 := s6.parse_swing cfg data size
      { s7 with packets_received_ := s7.packets_received_ + 1 }

/-- The function `GreeAC::handle_packet_(data, size)`. -/
def GreeAC.handle_packet_ (cfg : Config) (self : GreeAC) (data : List Nat) (size : Nat) :
    GreeAC :=
  let s0 : GreeAC := { self with trace_ := self.trace_ ++ [Event.handle (data.take size)] }
  let s1 := s0.parse_state_packet_ cfg data size
  { s1 with state_ := ACState.READY, trace_ := s1.trace_ ++ [Event.publish] }

/-! ## Frame reassembler -/

/-- Body of the loop `while (this->available())` of `read_uart_data_`: the
byte `byte` has been read, `now` is what `millis()` returns at the end of the
iteration.  The `uint16_t full_size` is narrowed to the `uint8_t` parameter
of `verify_packet_` and `handle_packet_`. -/
def GreeAC.read_uart_byte_ (cfg : Config) (self : GreeAC) (byte now : Nat) : GreeAC :=
  let s' : GreeAC :=
    match self.serial_state_ with
    | SerialState.WAIT_SYNC =>
      if byte = cfg.GREE_START_BYTE then
        { self with rx_buffer_ := self.rx_buffer_.set 0 byte, rx_index_ := 1,
                    serial_state_ := SerialState.RECEIVE }
      else self
    | SerialState.RECEIVE =>
      if self.rx_index_ < cfg.GREE_RX_BUFFER_SIZE then
        let s1 : GreeAC :=
          { self with rx_buffer_ := self.rx_buffer_.set self.rx_index_ byte,
                      rx_index_ := self.rx_index_ + 1 }
        if s1.rx_index_ ≥ 3 then
          let data_length := s1.rx_buffer_.getD 2 0
          let full_size := (3 + data_length) % 65536
          if s1.rx_index_ ≥ full_size then
            let size := full_size % 256
            let s2 : GreeAC :=
              { s1 with trace_ := s1.trace_ ++ [Event.verify (s1.rx_buffer_.take size)] }
            let r := s2.verify_packet_ cfg s2.rx_buffer_ size
            let s3 := if r.1 then r.2.handle_packet_ cfg r.2.rx_buffer_ size else r.2
            { s3 with serial_state_ := SerialState.WAIT_SYNC, rx_index_ := 0 }
          else s1
        else s1
      else
        { self with serial_state_ := SerialState.WAIT_SYNC, rx_index_ := 0 }
    | SerialState.COMPLETE =>
      { self with serial_state_ := SerialState.WAIT_SYNC, rx_index_ := 0 }
  { s' with last_packet_received_ := now }

/-- The function `GreeAC::read_uart_data_()`, with the bytes that are available during the
call. -/
def GreeAC.read_uart_data_ (cfg : Config) (self : GreeAC) (input : List RxByte) : GreeAC :=
  input.foldl (fun s b => s.read_uart_byte_ cfg b.byte b.millis) self

/-! ## State codec: encode -/

/-- The statement `switch (mode_val)` of `control`, on the pair `(new_mode, new_fan_speed)`. -/
def control_mode (cfg : Config) (mode_val : ClimateMode) (new_mode new_fan_speed : Nat) :
    Nat × Nat :=
  match mode_val with
  | .CLIMATE_MODE_OFF => (cfg.AC_MODE_OFF, new_fan_speed)
  | .CLIMATE_MODE_AUTO => (cfg.AC_MODE_AUTO, new_fan_speed)
  | .CLIMATE_MODE_COOL => (cfg.AC_MODE_COOL, new_fan_speed)
  | .CLIMATE_MODE_DRY => (cfg.AC_MODE_DRY, cfg.S_LOW)
  | .CLIMATE_MODE_FAN_ONLY => (cfg.AC_MODE_FAN_ONLY, new_fan_speed)
  | .CLIMATE_MODE_HEAT => (cfg.AC_MODE_HEAT, new_fan_speed)
  | .CLIMATE_MODE_HEAT_COOL => (new_mode, new_fan_speed)

/-- The statement `switch (fan_val)` of `control`. -/
def control_fan (cfg : Config) (fan_val : ClimateFanMode) (new_fan_speed : Nat) : Nat :=
  match fan_val with
  | .CLIMATE_FAN_AUTO => cfg.S_AUTO
  | .CLIMATE_FAN_LOW => cfg.S_LOW
  | .CLIMATE_FAN_MEDIUM => cfg.S_MEDIUM
  | .CLIMATE_FAN_HIGH => cfg.S_HIGH
  | _ => new_fan_speed

/-- The statement `switch (preset_val)` of `control`, on `tx_buffer_`. -/
def control_preset (cfg : Config) (preset_val : ClimatePreset) (new_mode : Nat)
    (tx : List Nat) : List Nat :=
  match preset_val with
  | .CLIMATE_PRESET_NONE =>
    if new_mode = cfg.AC_MODE_COOL then tx.set PRESET_BYTE cfg.PRESET_COOL_NORMAL
    else if new_mode = cfg.AC_MODE_HEAT then tx.set PRESET_BYTE cfg.PRESET_HEAT_NORMAL
    else tx
  | .CLIMATE_PRESET_BOOST =>
    if new_mode = cfg.AC_MODE_COOL then tx.set PRESET_BYTE cfg.PRESET_COOL_BOOST
    else if new_mode = cfg.AC_MODE_HEAT then tx.set PRESET_BYTE cfg.PRESET_HEAT_BOOST
    else tx
  | _ => tx

/-- The conversion `static_cast<uint8_t>((target_temp - MIN_TEMPERATURE) * 16)`. -/
def encode_temperature (cfg : Config) (target_temp : FloatVal) : Nat :=
  match target_temp with
  | .num q => Int.toNat ⌊(q - cfg.MIN_TEMPERATURE) * 16⌋ % 256
  | _ => 0

/-- The statement `switch (swing_val)` of `control`: the byte written to `tx_buffer_`. -/
def control_swing (cfg : Config) (swing_val : ClimateSwingMode) : Nat :=
  match swing_val with
  | .CLIMATE_SWING_OFF => cfg.AC_SWING_OFF
  | .CLIMATE_SWING_VERTICAL => cfg.AC_SWING_VERTICAL
  | .CLIMATE_SWING_HORIZONTAL => cfg.AC_SWING_HORIZONTAL
  | .CLIMATE_SWING_BOTH => cfg.AC_SWING_BOTH

/-- Lines 151 to 209 of `control`: the pair `(new_mode, new_fan_speed)` resolved from
the mode byte of `tx_buffer_` and the mode and fan intents, with low fan speed
enforced in DRY mode. -/
def control_mode_fan (cfg : Config) (call : ClimateCall) (mode_byte : Nat) : Nat × Nat :=
  let new_mode0 := mode_byte &&& MODE_MASK
  let new_fan_speed0 := mode_byte &&& FAN_MASK
  let mf :=
    match call.mode with
    | some mode_val => control_mode cfg mode_val new_mode0 new_fan_speed0
    | none => (new_mode0, new_fan_speed0)
  let new_mode := mf.1
  let new_fan_speed1 :=
    match call.fan_mode with
    | some fan_val => control_fan cfg fan_val mf.2
    | none => mf.2
  let new_fan_speed :=
    if new_mode = cfg.AC_MODE_DRY ∧ new_fan_speed1 ≠ cfg.S_LOW then cfg.S_LOW
    else new_fan_speed1
  (new_mode, new_fan_speed)

/-- The outgoing frame size of `control` and `send_packet_`:
`uint16_t size = 3 + tx_buffer_[2]`, clamped to `GREE_TX_BUFFER_SIZE`. -/
def tx_frame_size (cfg : Config) (tx : List Nat) : Nat :=
  let data_length := tx.getD 2 0
  let size0 := (3 + data_length) % 65536
  if size0 > cfg.GREE_TX_BUFFER_SIZE then cfg.GREE_TX_BUFFER_SIZE % 65536 else size0

/-- The function `GreeAC::control(call)`; `now` is what `millis()` returns. -/
def GreeAC.control (cfg : Config) (self : GreeAC) (call : ClimateCall) (now : Nat) : GreeAC :=
  if self.state_ ≠ ACState.READY then self
  else
    let tx0 := (self.tx_buffer_.set FORCE_UPDATE_BYTE 175).set DISPLAY_BYTE 0x20
    let mf := control_mode_fan cfg call (tx0.getD MODE_BYTE 0)
    let new_mode := mf.1
    let new_fan_speed := mf.2
    let tx1 :=
      match call.preset with
      | some preset_val => control_preset cfg preset_val new_mode tx0
      | none => tx0
    let s1 : GreeAC := { self with tx_buffer_ := tx1 }
    let s2 : GreeAC :=
      match call.target_temperature with
      | some target_temp =>
        if target_temp.ge_const cfg.MIN_TEMPERATURE && target_temp.le_const cfg.MAX_TEMPERATURE
        then
          { s1 with tx_buffer_ := s1.tx_buffer_.set TEMPERATURE_BYTE
                      (encode_temperature cfg target_temp),
                    target_temperature := target_temp }
        else s1
      | none => s1
    let s3 : GreeAC :=
      match call.swing_mode with
      | some swing_val =>
        { s2 with tx_buffer_ := s2.tx_buffer_.set SWING_BYTE (control_swing cfg swing_val),
                  swing_mode := swing_val }
      | none => s2
    let s4 : GreeAC :=
      { s3 with tx_buffer_ := s3.tx_buffer_.set MODE_BYTE ((new_mode ||| new_fan_speed) % 256),
                mode := new_mode }
    let size := tx_frame_size cfg s4.tx_buffer_
    let tx5 := s4.tx_buffer_.set (size - 1) (calculate_checksum_ s4.tx_buffer_ size)
    let s5 : GreeAC :=
      { s4 with tx_buffer_ := tx5,
                trace_ := s4.trace_ ++ [Event.write (tx5.take size)],
                packets_sent_ := s4.packets_sent_ + 1,
                last_packet_sent_ := now }
    { s5 with tx_buffer_ := s5.tx_buffer_.set FORCE_UPDATE_BYTE 0,
              update_state_ := UpdateState.NO_UPDATE }

/-! ## Session -/

/-- The function `GreeAC::send_packet_()`; `now` is what `millis()` returns. -/
def GreeAC.send_packet_ (cfg : Config) (self : GreeAC) (now : Nat) : GreeAC :=
  let size := tx_frame_size cfg self.tx_buffer_
  let tx := self.tx_buffer_.set (size - 1) (calculate_checksum_ self.tx_buffer_ size)
  { self with tx_buffer_ := tx,
              trace_ := self.trace_ ++ [Event.write (tx.take size)],
              packets_sent_ := self.packets_sent_ + 1,
              last_packet_sent_ := now }

/-- The function `GreeAC::loop()`: `input` is what the UART delivers during the call, `now`
the value of `millis()` after the bytes are read, `sent` its value inside
`send_packet_`. -/
def GreeAC.loop (cfg : Config) (self : GreeAC) (input : List RxByte) (now sent : Nat) : GreeAC :=
  let s1 := self.read_uart_data_ cfg input
  let s2 : GreeAC :=
    if s1.state_ = ACState.INITIALIZING then
      if u32_sub now s1.last_handshake_attempt_ ≥ cfg.HANDSHAKE_RETRY_INTERVAL_MS then
        GreeAC.send_packet_ cfg { s1 with last_handshake_attempt_ := now } sent
      else s1
    else s1
  if s2.state_ = ACState.READY then
    if u32_sub now s2.last_packet_received_ ≥ cfg.PACKET_TIMEOUT_MS then
      { s2 with state_ := ACState.INITIALIZING, failed_ := true,
                trace_ := s2.trace_ ++ [Event.mark_failed] }
    else s2
  else s2

/-- The function `GreeAC::update()`. -/
def GreeAC.update (cfg : Config) (self : GreeAC) (now : Nat) : GreeAC :=
  if self.state_ = ACState.READY then self.send_packet_ cfg now else self


/-! ## Notions used by the statements -/

/-- The frames that `handle_packet_` has been called with, oldest first. -/
def handled (trace : List Event) : List (List Nat) :=
  trace.filterMap (fun e => match e with
    | Event.handle frame => some frame
    | _ => none)

/-- A well-formed report frame: it starts with the sync byte, its length is 3 plus
its length byte and fits the receive buffer, it has a command byte and that byte
is `CMD_IN_UNIT_REPORT`, and its last byte is its checksum. -/
def valid_report_frame (cfg : Config) (F : List Nat) : Prop :=
  F.getD 0 0 = cfg.GREE_START_BYTE ∧
  F.length = 3 + F.getD 2 0 ∧
  F.length ≤ cfg.GREE_RX_BUFFER_SIZE ∧
  4 ≤ F.length ∧
  F.getD 3 0 = cfg.CMD_IN_UNIT_REPORT ∧
  F.getD (F.length - 1) 0 = calculate_checksum_ F F.length

instance (cfg : Config) (F : List Nat) : Decidable (valid_report_frame cfg F) := by
  unfold valid_report_frame
  infer_instance

/-- The members that the decoder does not write: `s` and `s'` agree on the session
state, the reassembler, the timestamps, the sent counter and the trace. -/
def GreeAC.same_link (s s' : GreeAC) : Prop :=
  s'.state_ = s.state_ ∧ s'.serial_state_ = s.serial_state_ ∧
  s'.update_state_ = s.update_state_ ∧ s'.rx_buffer_ = s.rx_buffer_ ∧
  s'.rx_index_ = s.rx_index_ ∧ s'.packets_sent_ = s.packets_sent_ ∧
  s'.last_packet_received_ = s.last_packet_received_ ∧
  s'.last_packet_sent_ = s.last_packet_sent_ ∧
  s'.last_handshake_attempt_ = s.last_handshake_attempt_ ∧
  s'.failed_ = s.failed_ ∧ s'.trace_ = s.trace_

/-- The content of `tx_buffer_` when `control` reaches the checksum (line 272):
the two fixed bytes, then the preset, temperature and swing bytes that the
intent supplies, then the mode byte. -/
def control_buffer (cfg : Config) (call : ClimateCall) (tx : List Nat) : List Nat :=
  let tx0 := (tx.set FORCE_UPDATE_BYTE 175).set DISPLAY_BYTE 0x20
  let mf := control_mode_fan cfg call (tx0.getD MODE_BYTE 0)
  let tx1 :=
    match call.preset with
    | some preset_val => control_preset cfg preset_val mf.1 tx0
    | none => tx0
  let tx2 :=
    match call.target_temperature with
    | some target_temp =>
      if target_temp.ge_const cfg.MIN_TEMPERATURE && target_temp.le_const cfg.MAX_TEMPERATURE
      then tx1.set TEMPERATURE_BYTE (encode_temperature cfg target_temp)
      else tx1
    | none => tx1
  let tx3 :=
    match call.swing_mode with
    | some swing_val => tx2.set SWING_BYTE (control_swing cfg swing_val)
    | none => tx2
  tx3.set MODE_BYTE ((mf.1 ||| mf.2) % 256)

/-- The target temperature that `control` leaves in the canonical state. -/
def control_target (cfg : Config) (call : ClimateCall) (old : FloatVal) : FloatVal :=
  match call.target_temperature with
  | some target_temp =>
    if target_temp.ge_const cfg.MIN_TEMPERATURE && target_temp.le_const cfg.MAX_TEMPERATURE
    then target_temp else old
  | none => old

/-- The mode and fan codes are nibbles: every `ACMode` code has its bits under
`MODE_MASK`, every `ACFanSpeed` code under `FAN_MASK`; the case labels of each
`switch` are distinct. -/
def Config.codes_ok (cfg : Config) : Prop :=
  (∀ m ∈ [cfg.AC_MODE_OFF, cfg.AC_MODE_AUTO, cfg.AC_MODE_COOL, cfg.AC_MODE_DRY,
      cfg.AC_MODE_FAN_ONLY, cfg.AC_MODE_HEAT], m &&& MODE_MASK = m) ∧
  (∀ f ∈ [cfg.S_AUTO, cfg.S_LOW, cfg.S_MEDIUM, cfg.S_HIGH], f &&& FAN_MASK = f) ∧
  [cfg.AC_MODE_OFF, cfg.AC_MODE_AUTO, cfg.AC_MODE_COOL, cfg.AC_MODE_DRY,
      cfg.AC_MODE_FAN_ONLY, cfg.AC_MODE_HEAT].Nodup ∧
  [cfg.S_AUTO, cfg.S_LOW, cfg.S_MEDIUM, cfg.S_HIGH].Nodup ∧
  [cfg.AC_SWING_OFF, cfg.AC_SWING_VERTICAL, cfg.AC_SWING_HORIZONTAL, cfg.AC_SWING_BOTH].Nodup

instance (cfg : Config) : Decidable cfg.codes_ok := by
  unfold Config.codes_ok
  infer_instance

/-- A target temperature accepted by the range check of `control`. -/
def temperature_in_range (cfg : Config) (t : FloatVal) : Prop :=
  t.ge_const cfg.MIN_TEMPERATURE = true ∧ t.le_const cfg.MAX_TEMPERATURE = true

instance (cfg : Config) (t : FloatVal) : Decidable (temperature_in_range cfg t) := by
  unfold temperature_in_range
  infer_instance

/-- The three counters of the receive path agree in `s` and `s'`. -/
def GreeAC.same_counters (s s' : GreeAC) : Prop :=
  s'.checksum_errors_ = s.checksum_errors_ ∧
  s'.invalid_packet_errors_ = s.invalid_packet_errors_ ∧
  s'.packets_received_ = s.packets_received_

/-- The decoder reaches the field extraction for a frame of `size` bytes: the
size passes both size guards of `parse_state_packet_`. -/
def decodable_size (cfg : Config) (size : Nat) : Prop :=
  (cfg.HEADER_SIZE + 1) % 256 + 1 ≤ size ∧ TEMPERATURE_BYTE < size

instance (cfg : Config) (size : Nat) : Decidable (decodable_size cfg size) := by
  unfold decodable_size
  infer_instance

/-! ## A concrete instance -/

/-- A configuration for evaluating the definitions on concrete inputs: sync byte
`0x7E`, a receive buffer of 52 bytes, a transmit buffer of 47 bytes, report
command `0x31`, temperatures from 16 to 30, modes in the high nibble and fan
speeds in the low nibble. -/
def sample_config : Config where
  GREE_START_BYTE := 0x7E
  GREE_RX_BUFFER_SIZE := 52
  GREE_TX_BUFFER_SIZE := 47
  CMD_IN_UNIT_REPORT := 0x31
  HEADER_SIZE := 3
  MIN_TEMPERATURE := 16
  MAX_TEMPERATURE := 30
  AC_MODE_OFF := 0x10
  AC_MODE_AUTO := 0x80
  AC_MODE_COOL := 0x90
  AC_MODE_DRY := 0xA0
  AC_MODE_FAN_ONLY := 0xB0
  AC_MODE_HEAT := 0xC0
  S_AUTO := 0
  S_LOW := 1
  S_MEDIUM := 2
  S_HIGH := 3
  PRESET_COOL_NORMAL := 2
  PRESET_HEAT_NORMAL := 3
  PRESET_COOL_BOOST := 6
  PRESET_HEAT_BOOST := 7
  AC_SWING_OFF := 0x44
  AC_SWING_VERTICAL := 0x14
  AC_SWING_HORIZONTAL := 0x41
  AC_SWING_BOTH := 0x11
  HANDSHAKE_RETRY_INTERVAL_MS := 3000
  PACKET_TIMEOUT_MS := 10000

/-- A driver that has not received anything yet: both buffers have their full
length, the transmit buffer holds a header with length byte 44. -/
def sample_driver : GreeAC where
  state_ := ACState.INITIALIZING
  serial_state_ := SerialState.WAIT_SYNC
  update_state_ := UpdateState.NO_UPDATE
  rx_buffer_ := List.replicate 52 0
  rx_index_ := 0
  tx_buffer_ := [0x7E, 0x7E, 44, 1] ++ List.replicate 43 0
  checksum_errors_ := 0
  invalid_packet_errors_ := 0
  packets_received_ := 0
  packets_sent_ := 0
  last_packet_received_ := 0
  last_packet_sent_ := 0
  last_handshake_attempt_ := 0
  mode := ClimateMode.CLIMATE_MODE_OFF.toNat
  fan_mode := none
  target_temperature := FloatVal.nan
  current_temperature := FloatVal.nan
  preset := none
  swing_mode := ClimateSwingMode.CLIMATE_SWING_OFF
  failed_ := false
  trace_ := []

/-- A driver in `READY` whose transmit buffer holds mode COOL with low fan (`0x91`)
and the temperature byte `0x80` (24 degrees). -/
def sample_ready : GreeAC :=
  { sample_driver with
    state_ := ACState.READY
    tx_buffer_ := [0x7E, 0x7E, 44, 1, 0, 0, 0, 0, 0x91, 0x80] ++ List.replicate 37 0 }

/-- The intent that sets the target temperature `t` and nothing else. -/
def temperature_call (t : FloatVal) : ClimateCall :=
  { mode := none, fan_mode := none, preset := none, target_temperature := some t,
    swing_mode := none }

/-- A report frame of 14 bytes: COOL with low fan (`0x91`), 24 degrees (`0x80`),
swing off (`0x44`), checksum `0x91`. -/
def sample_frame : List Nat := [0x7E, 0x7E, 11, 0x31, 0, 0, 0, 0, 0x91, 0x80, 0, 0, 0x44, 0x91]

/-- Bytes as they arrive, each stamped with the time 0. -/
def stamp (bytes : List Nat) : List RxByte := bytes.map (fun b => { byte := b, millis := 0 })

/-- The intent COOL, low fan, target temperature `t`, swing off. -/
def cool_call (t : FloatVal) : ClimateCall :=
  { mode := some ClimateMode.CLIMATE_MODE_COOL,
    fan_mode := some ClimateFanMode.CLIMATE_FAN_LOW,
    preset := none,
    target_temperature := some t,
    swing_mode := some ClimateSwingMode.CLIMATE_SWING_OFF }

/-- A report frame of 14 bytes like `sample_frame`, with the mode byte `0xB6`. -/
def sample_frame_b6 : List Nat :=
  [0x7E, 0x7E, 11, 0x31, 0, 0, 0, 0, 0xB6, 0x80, 0, 0, 0x44, 0xB6]

/-! ## What a decoded frame leaves in the driver -/

/-- The target temperature after the decoder has read byte 9, `old` being the value
before. -/
def decoded_target (cfg : Config) (data : List Nat) (old : FloatVal) : FloatVal :=
  if (FloatVal.num ((data.getD TEMPERATURE_BYTE 0 : ℚ) / 16 + cfg.MIN_TEMPERATURE)).ge_const
        cfg.MIN_TEMPERATURE &&
      (FloatVal.num ((data.getD TEMPERATURE_BYTE 0 : ℚ) / 16 + cfg.MIN_TEMPERATURE)).le_const
        cfg.MAX_TEMPERATURE
  then FloatVal.num ((data.getD TEMPERATURE_BYTE 0 : ℚ) / 16 + cfg.MIN_TEMPERATURE)
  else old

/-- The indoor temperature after the decoder has read byte 46 of a frame of `size`
bytes. -/
def decoded_current (data : List Nat) (size : Nat) (old : FloatVal) : FloatVal :=
  if size > INDOOR_TEMP_BYTE then
    if (FloatVal.num ((to_int8 (data.getD INDOOR_TEMP_BYTE 0) : ℚ) - 40)).ge_const (-10) &&
        (FloatVal.num ((to_int8 (data.getD INDOOR_TEMP_BYTE 0) : ℚ) - 40)).le_const 50
    then FloatVal.num ((to_int8 (data.getD INDOOR_TEMP_BYTE 0) : ℚ) - 40)
    else old
  else old

/-- The mode after the mode `switch` of the decoder on the byte `mode_byte`. -/
def decoded_mode (cfg : Config) (mode_byte : Nat) (old : Nat) : Nat :=
  if mode_byte &&& MODE_MASK = cfg.AC_MODE_OFF then ClimateMode.CLIMATE_MODE_OFF.toNat
  else if mode_byte &&& MODE_MASK = cfg.AC_MODE_AUTO then ClimateMode.CLIMATE_MODE_AUTO.toNat
  else if mode_byte &&& MODE_MASK = cfg.AC_MODE_COOL then ClimateMode.CLIMATE_MODE_COOL.toNat
  else if mode_byte &&& MODE_MASK = cfg.AC_MODE_DRY then ClimateMode.CLIMATE_MODE_DRY.toNat
  else if mode_byte &&& MODE_MASK = cfg.AC_MODE_FAN_ONLY then
    ClimateMode.CLIMATE_MODE_FAN_ONLY.toNat
  else if mode_byte &&& MODE_MASK = cfg.AC_MODE_HEAT then ClimateMode.CLIMATE_MODE_HEAT.toNat
  else old

/-- The fan mode after the fan `switch` of the decoder on the byte `mode_byte`. -/
def decoded_fan (cfg : Config) (mode_byte : Nat) (old : Option ClimateFanMode) :
    Option ClimateFanMode :=
  if mode_byte &&& FAN_MASK = cfg.S_AUTO then some ClimateFanMode.CLIMATE_FAN_AUTO
  else if mode_byte &&& FAN_MASK = cfg.S_LOW then some ClimateFanMode.CLIMATE_FAN_LOW
  else if mode_byte &&& FAN_MASK = cfg.S_MEDIUM then some ClimateFanMode.CLIMATE_FAN_MEDIUM
  else if mode_byte &&& FAN_MASK = cfg.S_HIGH then some ClimateFanMode.CLIMATE_FAN_HIGH
  else old

/-- The preset after the decoder has looked for byte 10 in a frame of `size` bytes. -/
def decoded_preset (cfg : Config) (data : List Nat) (size : Nat) : Option ClimatePreset :=
  if size > PRESET_BYTE then
    if data.getD PRESET_BYTE 0 = cfg.PRESET_COOL_BOOST ∨
        data.getD PRESET_BYTE 0 = cfg.PRESET_HEAT_BOOST then
      some ClimatePreset.CLIMATE_PRESET_BOOST
    else some ClimatePreset.CLIMATE_PRESET_NONE
  else some ClimatePreset.CLIMATE_PRESET_NONE

/-- The swing mode after the decoder has looked for byte 12 in a frame of `size`
bytes. -/
def decoded_swing (cfg : Config) (data : List Nat) (size : Nat) (old : ClimateSwingMode) :
    ClimateSwingMode :=
  if size > SWING_BYTE then
    if data.getD SWING_BYTE 0 = cfg.AC_SWING_OFF then ClimateSwingMode.CLIMATE_SWING_OFF
    else if data.getD SWING_BYTE 0 = cfg.AC_SWING_VERTICAL then
      ClimateSwingMode.CLIMATE_SWING_VERTICAL
    else if data.getD SWING_BYTE 0 = cfg.AC_SWING_HORIZONTAL then
      ClimateSwingMode.CLIMATE_SWING_HORIZONTAL
    else if data.getD SWING_BYTE 0 = cfg.AC_SWING_BOTH then ClimateSwingMode.CLIMATE_SWING_BOTH
    else old
  else old

/-- The outgoing buffer after the decoder has copied bytes 8 and 9, and byte 12 when
the frame reaches it. -/
def decoded_tx (data : List Nat) (size : Nat) (tx : List Nat) : List Nat :=
  if size > SWING_BYTE then
    ((tx.set MODE_BYTE (data.getD MODE_BYTE 0)).set TEMPERATURE_BYTE
      (data.getD TEMPERATURE_BYTE 0)).set SWING_BYTE (data.getD SWING_BYTE 0)
  else
    (tx.set MODE_BYTE (data.getD MODE_BYTE 0)).set TEMPERATURE_BYTE
      (data.getD TEMPERATURE_BYTE 0)

/-- A report frame of 48 bytes like `sample_frame`, with the indoor temperature byte
65 at index 46 and the checksum `0xF4`. -/
def sample_frame_indoor : List Nat :=
  [0x7E, 0x7E, 45, 0x31, 0, 0, 0, 0, 0x91, 0x80, 0, 0, 0x44] ++ List.replicate 33 0 ++ [65, 0xF4]

/-! ## Frame reassembler: what one iteration touches -/

/-- Index of the assignment to `rx_buffer_` in one iteration of the loop of
`read_uart_data_` on the byte `byte`: `rx_buffer_[0] = byte` in `WAIT_SYNC` on the
sync byte, `rx_buffer_[rx_index_++] = byte` in `RECEIVE` below the capacity, no
assignment otherwise. -/
def GreeAC.rx_store_index (cfg : Config) (self : GreeAC) (byte : Nat) : Option Nat :=
  match self.serial_state_ with
  | SerialState.WAIT_SYNC => if byte = cfg.GREE_START_BYTE then some 0 else none
  | SerialState.RECEIVE =>
    if self.rx_index_ < cfg.GREE_RX_BUFFER_SIZE then some self.rx_index_ else none
  | SerialState.COMPLETE => none

/-- A call `verify_packet_(rx_buffer_, full_size)` of `read_uart_data_`: the members
`rx_index_` and `rx_buffer_` at the call and the `uint8_t` argument `size`. -/
structure VerifyCall where
  rx_index_ : Nat
  rx_buffer_ : List Nat
  size : Nat
  deriving Repr, DecidableEq

/-- The call of `verify_packet_` that one iteration of the loop of `read_uart_data_`
makes on the byte `byte`, if it makes one: in `RECEIVE`, after the byte is stored
and the index incremented, when the index is at least 3 and at least
`full_size`. -/
def GreeAC.verify_call (cfg : Config) (self : GreeAC) (byte : Nat) : Option VerifyCall :=
  match self.serial_state_ with
  | SerialState.WAIT_SYNC => none
  | SerialState.RECEIVE =>
    if self.rx_index_ < cfg.GREE_RX_BUFFER_SIZE then
      let rx_buffer := self.rx_buffer_.set self.rx_index_ byte
      let rx_index := self.rx_index_ + 1
      if rx_index ≥ 3 then
        let data_length := rx_buffer.getD 2 0
        let full_size := (3 + data_length) % 65536
        if rx_index ≥ full_size then
          some { rx_index_ := rx_index, rx_buffer_ := rx_buffer, size := full_size % 256 }
        else none
      else none
    else none
  | SerialState.COMPLETE => none

/-- The reassembler invariant for the driver `t` that the driver `s` has become after
the bytes `consumed`: the buffer has its capacity, the index is within it, and
either the state is `WAIT_SYNC` with index 0, or it is `RECEIVE` with the sync byte
first in the buffer, the frame announced by the length byte not yet complete,
and the first `rx_index_` bytes of the buffer the last `rx_index_` bytes
received, before which the state was `WAIT_SYNC`. -/
def rx_invariant (cfg : Config) (s : GreeAC) (consumed : List RxByte) (t : GreeAC) : Prop :=
  t.rx_buffer_.length = cfg.GREE_RX_BUFFER_SIZE ∧
  t.rx_index_ ≤ cfg.GREE_RX_BUFFER_SIZE ∧
  ((t.serial_state_ = SerialState.WAIT_SYNC ∧ t.rx_index_ = 0) ∨
   (t.serial_state_ = SerialState.RECEIVE ∧ 1 ≤ t.rx_index_ ∧
     t.rx_buffer_.getD 0 0 = cfg.GREE_START_BYTE ∧
     (3 ≤ t.rx_index_ →
       t.rx_buffer_.getD 2 0 < 256 ∧ t.rx_index_ < 3 + t.rx_buffer_.getD 2 0) ∧
     ∃ pre fr, consumed = pre ++ fr ∧ fr.length = t.rx_index_ ∧
       t.rx_buffer_.take t.rx_index_ = fr.map (fun b => b.byte) ∧
       (s.read_uart_data_ cfg pre).serial_state_ = SerialState.WAIT_SYNC))

/-- The call of `verify_packet_` that the last byte of `sample_frame` brings about in
a buffer of 52 bytes that was all zero: index 14, size 14. -/
def sample_verify_call : VerifyCall :=
  { rx_index_ := 14, rx_buffer_ := sample_frame ++ List.replicate 38 0, size := 14 }

/-! ## Checksum: theorems -/

theorem checksum_loop_mod (message : List Nat) (n i sum : Nat) :
    checksum_loop message n i sum % 256 = (sum + byte_sum message i n) % 256 := by
  induction n generalizing i sum with
  | zero => simp [checksum_loop, byte_sum]
  | succ n ih =>
    have hsum : byte_sum message i (n + 1) = message.getD i 0 + byte_sum message (i + 1) n := by
      simp [byte_sum, List.range'_succ]
    rw [checksum_loop, ih, hsum]
    omega

theorem calculate_checksum_eq (message : List Nat) (size : Nat) (h : 3 ≤ size) :
    calculate_checksum_ message size = byte_sum message 2 ((size - 1) % 256 - 2) % 256 := by
  have h3 : ¬ size < 3 := by omega
  simp only [calculate_checksum_, h3, if_false, Nat.mod_mod]
  rw [checksum_loop_mod]
  simp

/-- Claim C1, as amended: `calculate_checksum_` returns 0 when `size < 3`; when
`size >= 3` it returns the sum modulo 256 of the bytes at the indices from 2
up to, not including, `(size - 1) mod 256`, which for `size <= 256` is the
range `[2, size - 1)`. -/
theorem C1_checksum_sum (message : List Nat) (size : Nat) :
    (size < 3 → calculate_checksum_ message size = 0) ∧
    (3 ≤ size → calculate_checksum_ message size
        = byte_sum message 2 ((size - 1) % 256 - 2) % 256) ∧
    (3 ≤ size → size ≤ 256 → calculate_checksum_ message size
        = byte_sum message 2 (size - 3) % 256) := by
  refine ⟨fun h => by simp [calculate_checksum_, h], calculate_checksum_eq message size, ?_⟩
  intro h3 h256
  rw [calculate_checksum_eq message size h3]
  have : (size - 1) % 256 - 2 = size - 3 := by omega
  rw [this]

/-- Witness of C1: a frame of five bytes. -/
theorem C1_checksum_sum_witness :
    calculate_checksum_ [126, 126, 2, 49, 51] 5 = byte_sum [126, 126, 2, 49, 51] 2 (5 - 3) % 256 :=
  (C1_checksum_sum [126, 126, 2, 49, 51] 5).2.2 (by decide) (by decide)

set_option maxRecDepth 100000 in
/-- Counterexample to C1 as stated: with 257 bytes, all equal to 1, the sum of the
bytes at the indices 2 to 255 is 254, and the code returns 0. -/
theorem C1_counterexample :
    calculate_checksum_ (List.replicate 257 1) 257 = 0 ∧
    byte_sum (List.replicate 257 1) 2 (257 - 3) % 256 = 254 := by
  constructor
  · decide
  · decide


/-! ## Frame validator: theorems -/

theorem verify_packet_small (cfg : Config) (s : GreeAC) (data : List Nat) (size : Nat)
    (h4 : size < 4) :
    s.verify_packet_ cfg data size
      = (false, { s with invalid_packet_errors_ := s.invalid_packet_errors_ + 1 }) := by
  simp only [GreeAC.verify_packet_, h4, if_true]

theorem verify_packet_type (cfg : Config) (s : GreeAC) (data : List Nat) (size : Nat)
    (h4 : ¬ size < 4) (hc : data.getD 3 0 ≠ cfg.CMD_IN_UNIT_REPORT) :
    s.verify_packet_ cfg data size
      = (false, { s with invalid_packet_errors_ := s.invalid_packet_errors_ + 1 }) := by
  simp only [GreeAC.verify_packet_, h4, if_false, hc, ne_eq, not_false_eq_true, if_true]

theorem verify_packet_crc (cfg : Config) (s : GreeAC) (data : List Nat) (size : Nat)
    (h4 : ¬ size < 4) (hc : data.getD 3 0 = cfg.CMD_IN_UNIT_REPORT)
    (hk : data.getD (size - 1) 0 ≠ calculate_checksum_ data size) :
    s.verify_packet_ cfg data size
      = (false, { s with checksum_errors_ := s.checksum_errors_ + 1 }) := by
  simp only [GreeAC.verify_packet_, h4, if_false, hc, ne_eq, not_true_eq_false, hk,
    not_false_eq_true, if_true]

theorem verify_packet_ok (cfg : Config) (s : GreeAC) (data : List Nat) (size : Nat)
    (h4 : ¬ size < 4) (hc : data.getD 3 0 = cfg.CMD_IN_UNIT_REPORT)
    (hk : data.getD (size - 1) 0 = calculate_checksum_ data size) :
    s.verify_packet_ cfg data size = (true, s) := by
  simp only [GreeAC.verify_packet_, h4, if_false, hc, ne_eq, not_true_eq_false, hk]

/-- Claim C2: `verify_packet_` returns true exactly when `size >= 4`, the byte at
index 3 is `CMD_IN_UNIT_REPORT` and the byte at index `size - 1` is the checksum
of the frame.  When it returns true the driver is unchanged.  When it returns
false the only change is one counter going up by one: `invalid_packet_errors_`
if `size < 4` or the command byte is wrong, `checksum_errors_` otherwise. -/
theorem C2_verify_packet (cfg : Config) (s : GreeAC) (data : List Nat) (size : Nat) :
    ((s.verify_packet_ cfg data size).1 = true ↔
      (4 ≤ size ∧ data.getD 3 0 = cfg.CMD_IN_UNIT_REPORT ∧
        data.getD (size - 1) 0 = calculate_checksum_ data size)) ∧
    ((s.verify_packet_ cfg data size).1 = true → (s.verify_packet_ cfg data size).2 = s) ∧
    ((s.verify_packet_ cfg data size).1 = false →
      (size < 4 ∨ data.getD 3 0 ≠ cfg.CMD_IN_UNIT_REPORT) →
      (s.verify_packet_ cfg data size).2
        = { s with invalid_packet_errors_ := s.invalid_packet_errors_ + 1 }) ∧
    ((s.verify_packet_ cfg data size).1 = false →
      ¬ (size < 4 ∨ data.getD 3 0 ≠ cfg.CMD_IN_UNIT_REPORT) →
      (s.verify_packet_ cfg data size).2
        = { s with checksum_errors_ := s.checksum_errors_ + 1 }) := by
  by_cases h4 : size < 4
  · have e := verify_packet_small cfg s data size h4
    rw [e]
    refine ⟨⟨fun h => by simp at h, fun h => by omega⟩, fun h => by simp at h, fun _ _ => rfl,
      fun _ h => absurd (Or.inl h4) h⟩
  · by_cases hc : data.getD 3 0 = cfg.CMD_IN_UNIT_REPORT
    · by_cases hk : data.getD (size - 1) 0 = calculate_checksum_ data size
      · have e := verify_packet_ok cfg s data size h4 hc hk
        rw [e]
        exact ⟨⟨fun _ => ⟨by omega, hc, hk⟩, fun _ => rfl⟩, fun _ => rfl,
          fun h => by simp at h, fun h => by simp at h⟩
      · have e := verify_packet_crc cfg s data size h4 hc hk
        rw [e]
        refine ⟨⟨fun h => by simp at h, fun h => absurd h.2.2 hk⟩, fun h => by simp at h,
          fun _ h => ?_, fun _ _ => rfl⟩
        rcases h with h | h
        · exact absurd h h4
        · exact absurd hc h
    · have e := verify_packet_type cfg s data size h4 hc
      rw [e]
      refine ⟨⟨fun h => by simp at h, fun h => absurd h.2.1 hc⟩, fun h => by simp at h,
        fun _ _ => rfl, fun _ h => absurd (Or.inr hc) h⟩

/-- Witness of C2: a frame of five bytes whose last byte is off by one is counted as a
checksum error. -/
theorem C2_verify_packet_witness :
    (sample_driver.verify_packet_ sample_config [126, 126, 2, 49, 52] 5).2
      = { sample_driver with checksum_errors_ := sample_driver.checksum_errors_ + 1 } :=
  (C2_verify_packet sample_config sample_driver [126, 126, 2, 49, 52] 5).2.2.2
    (by decide) (by decide)

/-! ## Buffers: reading and writing -/

theorem getD_set_eq (l : List Nat) (i a : Nat) (h : i < l.length) :
    (l.set i a).getD i 0 = a := by
  simp [List.getD_eq_getElem?_getD, h]

theorem getD_set_ne (l : List Nat) (i j a : Nat) (h : i ≠ j) :
    (l.set i a).getD j 0 = l.getD j 0 := by
  simp [List.getD_eq_getElem?_getD, List.getElem?_set_ne h]

theorem getD_take (l : List Nat) (i n : Nat) (h : i < n) :
    (l.take n).getD i 0 = l.getD i 0 := by
  simp [List.getD_eq_getElem?_getD, List.getElem?_take_of_lt h]

theorem getD_of_take_eq (l F : List Nat) (m i : Nat) (h : l.take m = F.take m) (hi : i < m) :
    l.getD i 0 = F.getD i 0 := by
  rw [← getD_take l i m hi, h, getD_take F i m hi]

theorem drop_cons_info (F : List Nat) (k a : Nat) (tl : List Nat) (h : F.drop k = a :: tl) :
    k < F.length ∧ F.drop (k + 1) = tl ∧ F.take (k + 1) = F.take k ++ [a] := by
  induction F generalizing k with
  | nil => simp at h
  | cons x xs ih =>
    cases k with
    | zero =>
      simp only [List.drop_zero, List.cons.injEq] at h
      obtain ⟨rfl, rfl⟩ := h
      simp
    | succ k =>
      simp only [List.drop_succ_cons] at h
      obtain ⟨h1, h2, h3⟩ := ih k h
      refine ⟨by simpa using h1, by simpa using h2, ?_⟩
      simp [h3]

theorem take_set_succ (l P : List Nat) (k a : Nat) (hk : k < l.length) (h : l.take k = P) :
    (l.set k a).take (k + 1) = P ++ [a] := by
  induction l generalizing k P with
  | nil => simp at hk
  | cons x xs ih =>
    cases k with
    | zero =>
      simp only [List.take_zero] at h
      subst h
      simp
    | succ k =>
      simp only [List.take_succ_cons] at h
      subst h
      have hk' : k < xs.length := by simpa using hk
      simp [ih (xs.take k) k hk' rfl]

theorem byte_sum_congr (l F : List Nat) (lo n : Nat)
    (h : ∀ i, lo ≤ i → i < lo + n → l.getD i 0 = F.getD i 0) :
    byte_sum l lo n = byte_sum F lo n := by
  unfold byte_sum
  congr 1
  apply List.map_congr_left
  intro i hi
  rw [List.mem_range'_1] at hi
  exact h i hi.1 hi.2

theorem calculate_checksum_congr (l F : List Nat) (size : Nat)
    (h : ∀ i, i < size → l.getD i 0 = F.getD i 0) :
    calculate_checksum_ l size = calculate_checksum_ F size := by
  by_cases h3 : size < 3
  · simp [calculate_checksum_, h3]
  · rw [calculate_checksum_eq l size (by omega), calculate_checksum_eq F size (by omega)]
    rw [byte_sum_congr l F]
    intro i h1 h2
    apply h
    omega

theorem verify_packet_congr (cfg : Config) (s : GreeAC) (l F : List Nat) (size : Nat)
    (h : ∀ i, i < size → l.getD i 0 = F.getD i 0) :
    s.verify_packet_ cfg l size = s.verify_packet_ cfg F size := by
  by_cases h4 : size < 4
  · rw [verify_packet_small cfg s l size h4, verify_packet_small cfg s F size h4]
  · have e3 : l.getD 3 0 = F.getD 3 0 := h 3 (by omega)
    have el : l.getD (size - 1) 0 = F.getD (size - 1) 0 := h (size - 1) (by omega)
    have ec := calculate_checksum_congr l F size h
    simp only [GreeAC.verify_packet_, e3, el, ec]


/-! ## Decoder: members it leaves alone -/

theorem same_link_refl (s : GreeAC) : s.same_link s :=
  ⟨rfl, rfl, rfl, rfl, rfl, rfl, rfl, rfl, rfl, rfl, rfl⟩

theorem same_link_trans (a b c : GreeAC) (h1 : a.same_link b) (h2 : b.same_link c) :
    a.same_link c := by
  obtain ⟨a1, a2, a3, a4, a5, a6, a7, a8, a9, a10, a11⟩ := h1
  obtain ⟨b1, b2, b3, b4, b5, b6, b7, b8, b9, b10, b11⟩ := h2
  exact ⟨b1.trans a1, b2.trans a2, b3.trans a3, b4.trans a4, b5.trans a5, b6.trans a6,
    b7.trans a7, b8.trans a8, b9.trans a9, b10.trans a10, b11.trans a11⟩

theorem same_link_tx (s : GreeAC) (tx : List Nat) : s.same_link { s with tx_buffer_ := tx } :=
  same_link_refl s

theorem parse_target_temperature_link (cfg : Config) (s : GreeAC) (data : List Nat) :
    s.same_link (s.parse_target_temperature cfg data) := by
  unfold GreeAC.parse_target_temperature
  dsimp only
  split_ifs <;> exact same_link_refl s

theorem parse_current_temperature_link (s : GreeAC) (data : List Nat) (size : Nat) :
    s.same_link (s.parse_current_temperature data size) := by
  unfold GreeAC.parse_current_temperature
  dsimp only
  split_ifs <;> exact same_link_refl s

theorem parse_mode_link (cfg : Config) (s : GreeAC) (mode_byte : Nat) :
    s.same_link (s.parse_mode cfg mode_byte) := by
  unfold GreeAC.parse_mode
  dsimp only
  split_ifs <;> exact same_link_refl s

theorem parse_fan_link (cfg : Config) (s : GreeAC) (mode_byte : Nat) :
    s.same_link (s.parse_fan cfg mode_byte) := by
  unfold GreeAC.parse_fan
  dsimp only
  split_ifs <;> exact same_link_refl s

theorem parse_preset_link (cfg : Config) (s : GreeAC) (data : List Nat) (size : Nat) :
    s.same_link (s.parse_preset cfg data size) := by
  unfold GreeAC.parse_preset
  dsimp only
  split_ifs <;> exact same_link_refl s

theorem parse_swing_link (cfg : Config) (s : GreeAC) (data : List Nat) (size : Nat) :
    s.same_link (s.parse_swing cfg data size) := by
  unfold GreeAC.parse_swing
  dsimp only
  split_ifs <;> exact same_link_refl s

theorem parse_state_packet_link (cfg : Config) (s : GreeAC) (data : List Nat) (size : Nat) :
    s.same_link (s.parse_state_packet_ cfg data size) := by
  unfold GreeAC.parse_state_packet_
  dsimp only
  split_ifs
  · exact same_link_refl s
  · exact same_link_refl s
  · exact same_link_refl s
  · exact same_link_refl s
  · refine same_link_trans _ _ _ (parse_target_temperature_link cfg s data) ?_
    refine same_link_trans _ _ _ (parse_current_temperature_link _ data size) ?_
    refine same_link_trans _ _ _ (same_link_tx _ ((((s.parse_target_temperature cfg
      data).parse_current_temperature data size).tx_buffer_.set MODE_BYTE
        (data.getD MODE_BYTE 0)).set TEMPERATURE_BYTE (data.getD TEMPERATURE_BYTE 0))) ?_
    refine same_link_trans _ _ _ (parse_mode_link cfg _ (data.getD MODE_BYTE 0)) ?_
    refine same_link_trans _ _ _ (parse_fan_link cfg _ (data.getD MODE_BYTE 0)) ?_
    refine same_link_trans _ _ _ (parse_preset_link cfg _ data size) ?_
    refine same_link_trans _ _ _ (parse_swing_link cfg _ data size) ?_
    exact same_link_refl _


/-! ## Decoder: the counters -/

theorem same_counters_refl (s : GreeAC) : s.same_counters s := ⟨rfl, rfl, rfl⟩

theorem same_counters_trans (a b c : GreeAC) (h1 : a.same_counters b)
    (h2 : b.same_counters c) : a.same_counters c := by
  obtain ⟨a1, a2, a3⟩ := h1
  obtain ⟨b1, b2, b3⟩ := h2
  exact ⟨b1.trans a1, b2.trans a2, b3.trans a3⟩

theorem parse_target_temperature_counters (cfg : Config) (s : GreeAC) (data : List Nat) :
    s.same_counters (s.parse_target_temperature cfg data) := by
  unfold GreeAC.parse_target_temperature
  dsimp only
  split_ifs <;> exact same_counters_refl s

theorem parse_current_temperature_counters (s : GreeAC) (data : List Nat) (size : Nat) :
    s.same_counters (s.parse_current_temperature data size) := by
  unfold GreeAC.parse_current_temperature
  dsimp only
  split_ifs <;> exact same_counters_refl s

theorem parse_mode_counters (cfg : Config) (s : GreeAC) (mode_byte : Nat) :
    s.same_counters (s.parse_mode cfg mode_byte) := by
  unfold GreeAC.parse_mode
  dsimp only
  split_ifs <;> exact same_counters_refl s

theorem parse_fan_counters (cfg : Config) (s : GreeAC) (mode_byte : Nat) :
    s.same_counters (s.parse_fan cfg mode_byte) := by
  unfold GreeAC.parse_fan
  dsimp only
  split_ifs <;> exact same_counters_refl s

theorem parse_preset_counters (cfg : Config) (s : GreeAC) (data : List Nat) (size : Nat) :
    s.same_counters (s.parse_preset cfg data size) := by
  unfold GreeAC.parse_preset
  dsimp only
  split_ifs <;> exact same_counters_refl s

theorem parse_swing_counters (cfg : Config) (s : GreeAC) (data : List Nat) (size : Nat) :
    s.same_counters (s.parse_swing cfg data size) := by
  unfold GreeAC.parse_swing
  dsimp only
  split_ifs <;> exact same_counters_refl s

/-- On a frame that passes its guards, `parse_state_packet_` runs the field
extraction. -/
theorem parse_state_packet_full (cfg : Config) (s : GreeAC) (data : List Nat) (size : Nat)
    (hsize : decodable_size cfg size)
    (hcmd : data.getD 3 0 = cfg.CMD_IN_UNIT_REPORT)
    (hcrc : data.getD (size - 1) 0 = calculate_checksum_ data size) :
    s.parse_state_packet_ cfg data size =
      { (GreeAC.parse_swing cfg (GreeAC.parse_preset cfg (GreeAC.parse_fan cfg
          (GreeAC.parse_mode cfg
            { (GreeAC.parse_current_temperature (GreeAC.parse_target_temperature cfg s data)
                data size) with
              tx_buffer_ := ((GreeAC.parse_current_temperature
                (GreeAC.parse_target_temperature cfg s data) data size).tx_buffer_.set MODE_BYTE
                  (data.getD MODE_BYTE 0)).set TEMPERATURE_BYTE (data.getD TEMPERATURE_BYTE 0) }
            (data.getD MODE_BYTE 0)) (data.getD MODE_BYTE 0)) data size) data size) with
        packets_received_ := (GreeAC.parse_swing cfg (GreeAC.parse_preset cfg (GreeAC.parse_fan cfg
          (GreeAC.parse_mode cfg
            { (GreeAC.parse_current_temperature (GreeAC.parse_target_temperature cfg s data)
                data size) with
              tx_buffer_ := ((GreeAC.parse_current_temperature
                (GreeAC.parse_target_temperature cfg s data) data size).tx_buffer_.set MODE_BYTE
                  (data.getD MODE_BYTE 0)).set TEMPERATURE_BYTE (data.getD TEMPERATURE_BYTE 0) }
            (data.getD MODE_BYTE 0)) (data.getD MODE_BYTE 0)) data size) data size).packets_received_
            + 1 } := by
  obtain ⟨h1, h9⟩ := hsize
  have g1 : ¬ size < (cfg.HEADER_SIZE + 1) % 256 + 1 := by omega
  have g3 : ¬ (size ≤ 3 ∨ data.getD 3 0 ≠ cfg.CMD_IN_UNIT_REPORT) := by
    simp only [TEMPERATURE_BYTE] at h9
    intro h
    rcases h with h | h
    · omega
    · exact h hcmd
  have g9 : ¬ size ≤ TEMPERATURE_BYTE := by omega
  simp only [GreeAC.parse_state_packet_, g1, if_false, hcrc, ne_eq, not_true_eq_false, g3, g9]

/-- A decoded frame raises the received-frame counter by one and leaves the two
error counters alone. -/
theorem parse_state_packet_full_counters (cfg : Config) (s : GreeAC) (data : List Nat)
    (size : Nat) (hsize : decodable_size cfg size)
    (hcmd : data.getD 3 0 = cfg.CMD_IN_UNIT_REPORT)
    (hcrc : data.getD (size - 1) 0 = calculate_checksum_ data size) :
    (s.parse_state_packet_ cfg data size).packets_received_ = s.packets_received_ + 1 ∧
    (s.parse_state_packet_ cfg data size).checksum_errors_ = s.checksum_errors_ ∧
    (s.parse_state_packet_ cfg data size).invalid_packet_errors_ = s.invalid_packet_errors_ := by
  rw [parse_state_packet_full cfg s data size hsize hcmd hcrc]
  have h := same_counters_trans _ _ _ (parse_target_temperature_counters cfg s data)
    (same_counters_trans _ _ _ (parse_current_temperature_counters _ data size)
    (same_counters_trans _ ({ (GreeAC.parse_current_temperature
        (GreeAC.parse_target_temperature cfg s data) data size) with
          tx_buffer_ := ((GreeAC.parse_current_temperature
            (GreeAC.parse_target_temperature cfg s data) data size).tx_buffer_.set MODE_BYTE
              (data.getD MODE_BYTE 0)).set TEMPERATURE_BYTE (data.getD TEMPERATURE_BYTE 0) })
        _ (same_counters_refl _)
    (same_counters_trans _ _ _ (parse_mode_counters cfg _ (data.getD MODE_BYTE 0))
    (same_counters_trans _ _ _ (parse_fan_counters cfg _ (data.getD MODE_BYTE 0))
    (same_counters_trans _ _ _ (parse_preset_counters cfg _ data size)
      (parse_swing_counters cfg _ data size))))))
  obtain ⟨c1, c2, c3⟩ := h
  exact ⟨by rw [← c3], c1, c2⟩

/-! ## Frame reassembler: one step -/

theorem read_byte_wait_other (cfg : Config) (s : GreeAC) (byte now : Nat)
    (h : s.serial_state_ = SerialState.WAIT_SYNC) (hb : byte ≠ cfg.GREE_START_BYTE) :
    s.read_uart_byte_ cfg byte now = { s with last_packet_received_ := now } := by
  simp only [GreeAC.read_uart_byte_, h, hb, if_false]

theorem read_byte_wait_sync (cfg : Config) (s : GreeAC) (byte now : Nat)
    (h : s.serial_state_ = SerialState.WAIT_SYNC) (hb : byte = cfg.GREE_START_BYTE) :
    s.read_uart_byte_ cfg byte now
      = { s with rx_buffer_ := s.rx_buffer_.set 0 byte, rx_index_ := 1,
                 serial_state_ := SerialState.RECEIVE, last_packet_received_ := now } := by
  simp only [GreeAC.read_uart_byte_, h, hb, if_true]

theorem read_byte_receive_more (cfg : Config) (s : GreeAC) (byte now : Nat)
    (h : s.serial_state_ = SerialState.RECEIVE) (hi : s.rx_index_ < cfg.GREE_RX_BUFFER_SIZE)
    (hmore : s.rx_index_ + 1 < 3 ∨
      s.rx_index_ + 1 < (3 + (s.rx_buffer_.set s.rx_index_ byte).getD 2 0) % 65536) :
    s.read_uart_byte_ cfg byte now
      = { s with rx_buffer_ := s.rx_buffer_.set s.rx_index_ byte, rx_index_ := s.rx_index_ + 1,
                 last_packet_received_ := now } := by
  rcases hmore with h3 | hf
  · have h3' : ¬ (s.rx_index_ + 1 ≥ 3) := by omega
    simp only [GreeAC.read_uart_byte_, h, hi, if_true, h3', if_false]
  · have hf' : ¬ (s.rx_index_ + 1 ≥ (3 + (s.rx_buffer_.set s.rx_index_ byte).getD 2 0) % 65536) := by
      omega
    by_cases h3 : s.rx_index_ + 1 ≥ 3
    · simp only [GreeAC.read_uart_byte_, h, hi, if_true, h3, hf', if_false]
    · simp only [GreeAC.read_uart_byte_, h, hi, if_true, h3, if_false]

theorem read_byte_receive_complete (cfg : Config) (s : GreeAC) (byte now : Nat)
    (h : s.serial_state_ = SerialState.RECEIVE) (hi : s.rx_index_ < cfg.GREE_RX_BUFFER_SIZE)
    (h3 : s.rx_index_ + 1 ≥ 3)
    (hf : s.rx_index_ + 1 ≥ (3 + (s.rx_buffer_.set s.rx_index_ byte).getD 2 0) % 65536) :
    s.read_uart_byte_ cfg byte now
      = let buf := s.rx_buffer_.set s.rx_index_ byte
        let size := (3 + buf.getD 2 0) % 65536 % 256
        let s2 : GreeAC :=
          { s with rx_buffer_ := buf, rx_index_ := s.rx_index_ + 1,
                   trace_ := s.trace_ ++ [Event.verify (buf.take size)] }
        let r := s2.verify_packet_ cfg buf size
        let s3 := if r.1 then r.2.handle_packet_ cfg r.2.rx_buffer_ size else r.2
        { s3 with serial_state_ := SerialState.WAIT_SYNC, rx_index_ := 0,
                  last_packet_received_ := now } := by
  simp only [GreeAC.read_uart_byte_, h, hi, if_true, h3, hf]

theorem read_byte_receive_overflow (cfg : Config) (s : GreeAC) (byte now : Nat)
    (h : s.serial_state_ = SerialState.RECEIVE) (hi : ¬ s.rx_index_ < cfg.GREE_RX_BUFFER_SIZE) :
    s.read_uart_byte_ cfg byte now
      = { s with serial_state_ := SerialState.WAIT_SYNC, rx_index_ := 0,
                 last_packet_received_ := now } := by
  simp only [GreeAC.read_uart_byte_, h, hi, if_false]

theorem read_byte_complete_state (cfg : Config) (s : GreeAC) (byte now : Nat)
    (h : s.serial_state_ = SerialState.COMPLETE) :
    s.read_uart_byte_ cfg byte now
      = { s with serial_state_ := SerialState.WAIT_SYNC, rx_index_ := 0,
                 last_packet_received_ := now } := by
  simp only [GreeAC.read_uart_byte_, h]


/-! ## Frame reassembler: runs of bytes -/

theorem read_uart_data_cons (cfg : Config) (s : GreeAC) (x : RxByte) (xs : List RxByte) :
    s.read_uart_data_ cfg (x :: xs) = (s.read_uart_byte_ cfg x.byte x.millis).read_uart_data_ cfg xs :=
  rfl

theorem read_uart_data_append (cfg : Config) (s : GreeAC) (xs ys : List RxByte) :
    s.read_uart_data_ cfg (xs ++ ys) = (s.read_uart_data_ cfg xs).read_uart_data_ cfg ys := by
  simp [GreeAC.read_uart_data_, List.foldl_append]

/-- Bytes other than the sync byte, received in `WAIT_SYNC`, change the time of the
last byte and nothing else. -/
theorem read_noise (cfg : Config) (input : List RxByte) (s : GreeAC)
    (h : s.serial_state_ = SerialState.WAIT_SYNC)
    (hn : ∀ b ∈ input, b.byte ≠ cfg.GREE_START_BYTE) :
    ∃ t, s.read_uart_data_ cfg input = { s with last_packet_received_ := t } := by
  induction input generalizing s with
  | nil => exact ⟨s.last_packet_received_, rfl⟩
  | cons x xs ih =>
    have hx : x.byte ≠ cfg.GREE_START_BYTE := hn x (List.mem_cons_self x xs)
    have hxs : ∀ b ∈ xs, b.byte ≠ cfg.GREE_START_BYTE :=
      fun b hb => hn b (List.mem_cons_of_mem x hb)
    rw [read_uart_data_cons, read_byte_wait_other cfg s x.byte x.millis h hx]
    obtain ⟨t, ht⟩ := ih { s with last_packet_received_ := x.millis } h hxs
    exact ⟨t, ht⟩

/-- In `RECEIVE`, with the first bytes of a frame `F` in the buffer, the following
bytes of `F`, short of the last one, are appended to the buffer and nothing else
changes but the time of the last byte. -/
theorem recv_prefix (cfg : Config) (F : List Nat) (hrx : cfg.GREE_RX_BUFFER_SIZE ≤ 255)
    (hlen : F.length = 3 + F.getD 2 0) (hcap : F.length ≤ cfg.GREE_RX_BUFFER_SIZE)
    (input : List RxByte) (s : GreeAC) (rest : List Nat)
    (hs : s.serial_state_ = SerialState.RECEIVE)
    (hbuf : F.length ≤ s.rx_buffer_.length)
    (htake : s.rx_buffer_.take s.rx_index_ = F.take s.rx_index_)
    (hdrop : F.drop s.rx_index_ = input.map (fun b => b.byte) ++ rest) (hrest : rest ≠ []) :
    ∃ buf t, buf.length = s.rx_buffer_.length ∧
      buf.take (s.rx_index_ + input.length) = F.take (s.rx_index_ + input.length) ∧
      s.read_uart_data_ cfg input
        = { s with rx_buffer_ := buf, rx_index_ := s.rx_index_ + input.length,
                   last_packet_received_ := t } := by
  induction input generalizing s with
  | nil => exact ⟨s.rx_buffer_, s.last_packet_received_, rfl, htake, rfl⟩
  | cons x xs ih =>
    simp only [List.map_cons, List.cons_append] at hdrop
    obtain ⟨hk, hdrop', htake'⟩ := drop_cons_info F s.rx_index_ x.byte _ hdrop
    have hk1 : s.rx_index_ + 1 < F.length := by
      have hl := congrArg List.length hdrop'
      simp only [List.length_drop, List.length_append, List.length_map] at hl
      have : 0 < rest.length := List.length_pos.mpr hrest
      omega
    have hset : (s.rx_buffer_.set s.rx_index_ x.byte).take (s.rx_index_ + 1)
        = F.take (s.rx_index_ + 1) := by
      rw [htake']
      exact take_set_succ s.rx_buffer_ _ s.rx_index_ x.byte (by omega) htake
    have hmore : s.rx_index_ + 1 < 3 ∨
        s.rx_index_ + 1 < (3 + (s.rx_buffer_.set s.rx_index_ x.byte).getD 2 0) % 65536 := by
      by_cases h3 : s.rx_index_ + 1 < 3
      · exact Or.inl h3
      · right
        rw [getD_of_take_eq _ F (s.rx_index_ + 1) 2 hset (by omega)]
        omega
    rw [read_uart_data_cons,
      read_byte_receive_more cfg s x.byte x.millis hs (by omega) hmore]
    obtain ⟨buf, t, h1, h2, h3⟩ :=
      ih { s with rx_buffer_ := s.rx_buffer_.set s.rx_index_ x.byte,
                  rx_index_ := s.rx_index_ + 1, last_packet_received_ := x.millis }
        hs (by simpa using hbuf) hset hdrop'
    have e : s.rx_index_ + 1 + xs.length = s.rx_index_ + (x :: xs).length := by
      simp only [List.length_cons]
      omega
    refine ⟨buf, t, by simpa using h1, ?_, ?_⟩
    · rw [← e]
      exact h2
    · rw [h3, ← e]


theorem verify_packet_rx_buffer (cfg : Config) (s : GreeAC) (data : List Nat) (size : Nat) :
    (s.verify_packet_ cfg data size).2.rx_buffer_ = s.rx_buffer_ := by
  unfold GreeAC.verify_packet_
  dsimp only
  split_ifs <;> rfl

/-- From `WAIT_SYNC`, the bytes of a frame `F` (sync byte first, length 3 plus the
length byte, fitting the buffer) end with `F` in the receive buffer, one call of
`verify_packet_` on it, a call of `handle_packet_` if that call returned true, and
the reassembler back in `WAIT_SYNC`. -/
theorem recv_frame (cfg : Config) (F : List Nat) (hrx : cfg.GREE_RX_BUFFER_SIZE ≤ 255)
    (hstart : F.getD 0 0 = cfg.GREE_START_BYTE)
    (hlen : F.length = 3 + F.getD 2 0) (hcap : F.length ≤ cfg.GREE_RX_BUFFER_SIZE)
    (input : List RxByte) (s : GreeAC)
    (hs : s.serial_state_ = SerialState.WAIT_SYNC)
    (hbuf : s.rx_buffer_.length = cfg.GREE_RX_BUFFER_SIZE)
    (hin : input.map (fun b => b.byte) = F) :
    ∃ buf t0 t, buf.length = s.rx_buffer_.length ∧ buf.take F.length = F ∧
      s.read_uart_data_ cfg input =
        { (if ((GreeAC.verify_packet_ cfg { s with
                rx_buffer_ := buf, rx_index_ := F.length,
                serial_state_ := SerialState.RECEIVE, last_packet_received_ := t0,
                trace_ := s.trace_ ++ [Event.verify F] } F F.length).1) then
            GreeAC.handle_packet_ cfg (GreeAC.verify_packet_ cfg { s with
                rx_buffer_ := buf, rx_index_ := F.length,
                serial_state_ := SerialState.RECEIVE, last_packet_received_ := t0,
                trace_ := s.trace_ ++ [Event.verify F] } F F.length).2 buf F.length
          else
            (GreeAC.verify_packet_ cfg { s with
                rx_buffer_ := buf, rx_index_ := F.length,
                serial_state_ := SerialState.RECEIVE, last_packet_received_ := t0,
                trace_ := s.trace_ ++ [Event.verify F] } F F.length).2) with
          serial_state_ := SerialState.WAIT_SYNC, rx_index_ := 0,
          last_packet_received_ := t } := by
  have hn3 : 3 ≤ F.length := by omega
  -- split the input into first byte, middle and last byte
  have hilen : input.length = F.length := by rw [← hin, List.length_map]
  obtain ⟨x0, xs, rfl⟩ : ∃ x0 xs, input = x0 :: xs := by
    cases input with
    | nil => simp at hilen; omega
    | cons a b => exact ⟨a, b, rfl⟩
  have hxs : xs ≠ [] := by
    intro h
    subst h
    simp at hilen
    omega
  obtain ⟨mid, xl, rfl⟩ : ∃ mid xl, xs = mid ++ [xl] :=
    ⟨xs.dropLast, xs.getLast hxs, (List.dropLast_append_getLast hxs).symm⟩
  simp only [List.map_cons, List.map_append, List.map_nil] at hin
  simp only [List.length_cons, List.length_append, List.length_nil] at hilen
  -- first byte
  have hF0 : F.drop 0 = x0.byte :: (mid.map (fun b => b.byte) ++ [xl.byte]) := by
    rw [List.drop_zero, ← hin]
  obtain ⟨_, hdrop1, htake1⟩ := drop_cons_info F 0 x0.byte _ hF0
  have hx0 : x0.byte = cfg.GREE_START_BYTE := by
    rw [← hstart, ← hin]
    rfl
  rw [read_uart_data_cons, read_byte_wait_sync cfg s x0.byte x0.millis hs hx0,
    read_uart_data_append]
  -- middle bytes
  obtain ⟨buf1, t1, hb1, htk1, hrun⟩ := recv_prefix cfg F hrx hlen hcap mid
    { s with rx_buffer_ := s.rx_buffer_.set 0 x0.byte, rx_index_ := 1,
             serial_state_ := SerialState.RECEIVE, last_packet_received_ := x0.millis }
    [xl.byte] rfl (by simp; omega)
    (by
      have := take_set_succ s.rx_buffer_ [] 0 x0.byte (by omega) rfl
      simpa [htake1] using this)
    hdrop1 (by simp)
  rw [hrun]
  simp only [List.length_set] at hb1
  -- last byte
  have hidx : 1 + mid.length + 1 = F.length := by omega
  have hdropl : F.drop (1 + mid.length) = [xl.byte] := by
    have : F.drop (1 + mid.length) = (F.drop 1).drop mid.length := by
      rw [List.drop_drop, Nat.add_comm]
    rw [this, hdrop1]
    simp
  obtain ⟨_, _, htakel⟩ := drop_cons_info F (1 + mid.length) xl.byte [] hdropl
  have hbl : (buf1.set (1 + mid.length) xl.byte).take F.length = F := by
    rw [← hidx, take_set_succ buf1 _ (1 + mid.length) xl.byte (by omega) htk1, ← htakel,
      hidx, List.take_length]
  have hget2 : (buf1.set (1 + mid.length) xl.byte).getD 2 0 = F.getD 2 0 := by
    have h := getD_take (buf1.set (1 + mid.length) xl.byte) 2 F.length (by omega)
    rw [hbl] at h
    exact h.symm
  have hsize : (3 + (buf1.set (1 + mid.length) xl.byte).getD 2 0) % 65536 % 256 = F.length := by
    rw [hget2]
    omega
  rw [read_uart_data_cons]
  have hnil : ∀ z : GreeAC, z.read_uart_data_ cfg [] = z := fun _ => rfl
  rw [hnil]
  rw [read_byte_receive_complete cfg _ xl.byte xl.millis rfl (by simp only; omega)
    (by simp only; omega) (by simp only; rw [hget2]; omega)]
  simp only [hsize, hbl, verify_packet_rx_buffer]
  refine ⟨buf1.set (1 + mid.length) xl.byte, t1, xl.millis, by simpa using hb1, hbl, ?_⟩
  have hv : ∀ z : GreeAC, z.verify_packet_ cfg (buf1.set (1 + mid.length) xl.byte) F.length
      = z.verify_packet_ cfg F F.length := by
    intro z
    apply verify_packet_congr
    intro i hi
    rw [← getD_take _ i F.length hi, hbl]
  simp only [hv, hidx]


theorem handle_packet_trace (cfg : Config) (s : GreeAC) (data : List Nat) (size : Nat) :
    (s.handle_packet_ cfg data size).trace_
      = s.trace_ ++ [Event.handle (data.take size), Event.publish] := by
  have h := (parse_state_packet_link cfg
    { s with trace_ := s.trace_ ++ [Event.handle (data.take size)] } data size).2.2.2.2.2.2.2.2.2.2
  simp only [GreeAC.handle_packet_, h, List.append_assoc, List.singleton_append]

/-! ## Frame reassembler: one frame between noise -/

/-- Claim C3: from the reassembler's initial state (`WAIT_SYNC`, index 0), a
valid report frame `F` between two runs of noise that hold no sync byte, fed one
byte at a time, gives exactly one call of `handle_packet_`, and that call
receives exactly the bytes of `F`.  The receive buffer has
`GREE_RX_BUFFER_SIZE` bytes and that size fits the `uint8_t` size parameter. -/
theorem C3_single_frame (cfg : Config) (s : GreeAC) (F noise1 noise2 : List Nat)
    (input : List RxByte)
    (hrx : cfg.GREE_RX_BUFFER_SIZE ≤ 255)
    (hbuf : s.rx_buffer_.length = cfg.GREE_RX_BUFFER_SIZE)
    (hs : s.serial_state_ = SerialState.WAIT_SYNC) (_hi : s.rx_index_ = 0)
    (hF : valid_report_frame cfg F)
    (hn1 : cfg.GREE_START_BYTE ∉ noise1) (hn2 : cfg.GREE_START_BYTE ∉ noise2)
    (hin : input.map (fun b => b.byte) = noise1 ++ F ++ noise2) :
    handled (s.read_uart_data_ cfg input).trace_ = handled s.trace_ ++ [F] := by
  obtain ⟨hstart, hlen, hcap, h4, hcmd, hcrc⟩ := hF
  obtain ⟨i12, i3, rfl, h12, h3⟩ := List.map_eq_append_iff.mp hin
  obtain ⟨i1, i2, rfl, h1, h2⟩ := List.map_eq_append_iff.mp h12
  have hnoise1 : ∀ b ∈ i1, b.byte ≠ cfg.GREE_START_BYTE := by
    intro b hb e
    apply hn1
    rw [← h1, ← e]
    exact List.mem_map_of_mem _ hb
  have hnoise2 : ∀ b ∈ i3, b.byte ≠ cfg.GREE_START_BYTE := by
    intro b hb e
    apply hn2
    rw [← h3, ← e]
    exact List.mem_map_of_mem _ hb
  rw [read_uart_data_append, read_uart_data_append]
  obtain ⟨t1, e1⟩ := read_noise cfg i1 s hs hnoise1
  rw [e1]
  obtain ⟨buf, t0, t, _, hbt, e2⟩ := recv_frame cfg F hrx hstart hlen hcap i2
    { s with last_packet_received_ := t1 } hs hbuf h2
  rw [e2, verify_packet_ok cfg _ F F.length (by omega) hcmd hcrc]
  simp only [if_true]
  have key : ∀ z : GreeAC, z.serial_state_ = SerialState.WAIT_SYNC →
      handled (z.read_uart_data_ cfg i3).trace_ = handled z.trace_ := by
    intro z hz
    obtain ⟨t3, e3⟩ := read_noise cfg i3 z hz hnoise2
    rw [e3]
  rw [key _ rfl]
  simp only [handle_packet_trace, hbt]
  simp [handled, List.filterMap_append]

/-- Witness of C3: the frame `7E 7E 02 31 33` after the noise `01 02` and before the
noise `03`. -/
theorem C3_single_frame_witness :
    handled (sample_driver.read_uart_data_ sample_config
        [⟨1, 10⟩, ⟨2, 11⟩, ⟨126, 12⟩, ⟨126, 13⟩, ⟨2, 14⟩, ⟨49, 15⟩, ⟨51, 16⟩, ⟨3, 17⟩]).trace_
      = handled sample_driver.trace_ ++ [[126, 126, 2, 49, 51]] :=
  C3_single_frame sample_config sample_driver [126, 126, 2, 49, 51] [1, 2] [3] _
    (by decide) (by decide) (by decide) (by decide) (by decide) (by decide) (by decide)
    (by decide)


/-! ## Frame reassembler: a frame with a wrong checksum -/

/-- Claim C4, as amended: for every driver whose reassembler is in `WAIT_SYNC`, and
every report frame that fits the receive buffer and is well-formed (sync byte
first, length 3 plus the length byte, at least 4 bytes, command type
`CMD_IN_UNIT_REPORT`) except that its last byte is not its checksum, receiving
the frame raises `checksum_errors_` by exactly 1 and leaves the other error
counter, the canonical device state, the outgoing command buffer and the
session state as they were; `handle_packet_` is not called and the
received-frame counter does not move. -/
theorem C4_bad_checksum (cfg : Config) (s : GreeAC) (F : List Nat) (input : List RxByte)
    (hrx : cfg.GREE_RX_BUFFER_SIZE ≤ 255)
    (hbuf : s.rx_buffer_.length = cfg.GREE_RX_BUFFER_SIZE)
    (hs : s.serial_state_ = SerialState.WAIT_SYNC)
    (hstart : F.getD 0 0 = cfg.GREE_START_BYTE)
    (hlen : F.length = 3 + F.getD 2 0) (hcap : F.length ≤ cfg.GREE_RX_BUFFER_SIZE)
    (h4 : 4 ≤ F.length) (hcmd : F.getD 3 0 = cfg.CMD_IN_UNIT_REPORT)
    (hbad : F.getD (F.length - 1) 0 ≠ calculate_checksum_ F F.length)
    (hin : input.map (fun b => b.byte) = F) :
    (s.read_uart_data_ cfg input).checksum_errors_ = s.checksum_errors_ + 1 ∧
    (s.read_uart_data_ cfg input).invalid_packet_errors_ = s.invalid_packet_errors_ ∧
    (s.read_uart_data_ cfg input).mode = s.mode ∧
    (s.read_uart_data_ cfg input).fan_mode = s.fan_mode ∧
    (s.read_uart_data_ cfg input).target_temperature = s.target_temperature ∧
    (s.read_uart_data_ cfg input).current_temperature = s.current_temperature ∧
    (s.read_uart_data_ cfg input).preset = s.preset ∧
    (s.read_uart_data_ cfg input).swing_mode = s.swing_mode ∧
    (s.read_uart_data_ cfg input).tx_buffer_ = s.tx_buffer_ ∧
    (s.read_uart_data_ cfg input).state_ = s.state_ ∧
    (s.read_uart_data_ cfg input).packets_received_ = s.packets_received_ ∧
    (s.read_uart_data_ cfg input).trace_ = s.trace_ ++ [Event.verify F] ∧
    handled (s.read_uart_data_ cfg input).trace_ = handled s.trace_ := by
  obtain ⟨buf, t0, t, _, _, e⟩ := recv_frame cfg F hrx hstart hlen hcap input s hs hbuf hin
  rw [e, verify_packet_crc cfg _ F F.length (by omega) hcmd hbad]
  simp [handled, List.filterMap_append]

/-- Witness of C4: the frame `7E 7E 02 31 34`, whose checksum is `33`. -/
theorem C4_bad_checksum_witness :
    (sample_driver.read_uart_data_ sample_config
        [⟨126, 12⟩, ⟨126, 13⟩, ⟨2, 14⟩, ⟨49, 15⟩, ⟨52, 16⟩]).checksum_errors_
      = sample_driver.checksum_errors_ + 1 :=
  (C4_bad_checksum sample_config sample_driver [126, 126, 2, 49, 52] _
    (by decide) (by decide) (by decide) (by decide) (by decide) (by decide) (by decide)
    (by decide) (by decide) (by decide)).1

/-- Counterexample to C4 as stated: a driver that has received one stray sync
byte is in `RECEIVE` with index 1; the five bytes of the frame `7E 7E 02 31 34`
are then stored behind that byte, the length is read as `7E` and no frame
completes: the checksum-error counter stays at 0. -/
theorem C4_counterexample :
    (sample_driver.read_uart_data_ sample_config [⟨126, 1⟩]).serial_state_
      = SerialState.RECEIVE ∧
    ((sample_driver.read_uart_data_ sample_config [⟨126, 1⟩]).read_uart_data_ sample_config
        [⟨126, 12⟩, ⟨126, 13⟩, ⟨2, 14⟩, ⟨49, 15⟩, ⟨52, 16⟩]).checksum_errors_
      = (sample_driver.read_uart_data_ sample_config [⟨126, 1⟩]).checksum_errors_ := by
  decide


/-! ## Encoder: the driver after `control` -/

theorem control_not_ready (cfg : Config) (s : GreeAC) (call : ClimateCall) (now : Nat)
    (h : s.state_ ≠ ACState.READY) : s.control cfg call now = s := by
  simp only [GreeAC.control, h, ne_eq, not_false_eq_true, if_true]

theorem control_ready (cfg : Config) (s : GreeAC) (call : ClimateCall) (now : Nat)
    (h : s.state_ = ACState.READY) :
    s.control cfg call now =
      { s with
        tx_buffer_ := ((control_buffer cfg call s.tx_buffer_).set
            (tx_frame_size cfg (control_buffer cfg call s.tx_buffer_) - 1)
            (calculate_checksum_ (control_buffer cfg call s.tx_buffer_)
              (tx_frame_size cfg (control_buffer cfg call s.tx_buffer_)))).set
              FORCE_UPDATE_BYTE 0,
        target_temperature := control_target cfg call s.target_temperature,
        swing_mode := call.swing_mode.getD s.swing_mode,
        mode := (control_mode_fan cfg call
          (((s.tx_buffer_.set FORCE_UPDATE_BYTE 175).set DISPLAY_BYTE 0x20).getD MODE_BYTE 0)).1,
        trace_ := s.trace_ ++ [Event.write (((control_buffer cfg call s.tx_buffer_).set
            (tx_frame_size cfg (control_buffer cfg call s.tx_buffer_) - 1)
            (calculate_checksum_ (control_buffer cfg call s.tx_buffer_)
              (tx_frame_size cfg (control_buffer cfg call s.tx_buffer_)))).take
              (tx_frame_size cfg (control_buffer cfg call s.tx_buffer_)))],
        packets_sent_ := s.packets_sent_ + 1,
        last_packet_sent_ := now,
        update_state_ := UpdateState.NO_UPDATE } := by
  obtain ⟨cm, cf, cp, ct, cs⟩ := call
  have h' : ¬ (s.state_ ≠ ACState.READY) := by simp [h]
  simp only [GreeAC.control, h', if_false, control_buffer, control_target]
  cases cp <;> cases ct <;> cases cs <;> dsimp only <;> (try split_ifs) <;> rfl


theorem length_control_preset (cfg : Config) (p : ClimatePreset) (m : Nat) (tx : List Nat) :
    (control_preset cfg p m tx).length = tx.length := by
  unfold control_preset
  cases p <;> dsimp only <;> (try split_ifs) <;> simp

theorem getD_control_preset (cfg : Config) (p : ClimatePreset) (m : Nat) (tx : List Nat)
    (i : Nat) (h : i ≠ PRESET_BYTE) :
    (control_preset cfg p m tx).getD i 0 = tx.getD i 0 := by
  unfold control_preset
  cases p <;> dsimp only <;> (try split_ifs) <;>
    first
      | rfl
      | exact getD_set_ne tx PRESET_BYTE i _ (Ne.symm h)

theorem length_control_buffer (cfg : Config) (call : ClimateCall) (tx : List Nat) :
    (control_buffer cfg call tx).length = tx.length := by
  obtain ⟨cm, cf, cp, ct, cs⟩ := call
  unfold control_buffer
  cases cp <;> cases ct <;> cases cs <;> dsimp only <;> (try split_ifs) <;>
    simp [length_control_preset]

/-- Outside the six bytes that `control` writes before the checksum, the buffer is
unchanged. -/
theorem getD_control_buffer_other (cfg : Config) (call : ClimateCall) (tx : List Nat) (i : Nat)
    (h7 : i ≠ FORCE_UPDATE_BYTE) (h8 : i ≠ MODE_BYTE) (h9 : i ≠ TEMPERATURE_BYTE)
    (h10 : i ≠ PRESET_BYTE) (h12 : i ≠ SWING_BYTE) (h13 : i ≠ DISPLAY_BYTE) :
    (control_buffer cfg call tx).getD i 0 = tx.getD i 0 := by
  obtain ⟨cm, cf, cp, ct, cs⟩ := call
  unfold control_buffer
  cases cp <;> cases ct <;> cases cs <;> dsimp only <;> (try split_ifs) <;>
    simp only [getD_set_ne _ _ i _ (Ne.symm h7), getD_set_ne _ _ i _ (Ne.symm h8),
      getD_set_ne _ _ i _ (Ne.symm h9), getD_set_ne _ _ i _ (Ne.symm h12),
      getD_set_ne _ _ i _ (Ne.symm h13), getD_control_preset _ _ _ _ i h10]

theorem tx_frame_size_control_buffer (cfg : Config) (call : ClimateCall) (tx : List Nat) :
    tx_frame_size cfg (control_buffer cfg call tx) = tx_frame_size cfg tx := by
  unfold tx_frame_size
  rw [getD_control_buffer_other cfg call tx 2 (by decide) (by decide) (by decide) (by decide)
    (by decide) (by decide)]

/-- The mode byte that `control` writes. -/
theorem getD_control_buffer_mode (cfg : Config) (call : ClimateCall) (tx : List Nat)
    (h : MODE_BYTE < tx.length) :
    (control_buffer cfg call tx).getD MODE_BYTE 0
      = ((control_mode_fan cfg call (tx.getD MODE_BYTE 0)).1 |||
          (control_mode_fan cfg call (tx.getD MODE_BYTE 0)).2) % 256 := by
  have e : ((tx.set FORCE_UPDATE_BYTE 175).set DISPLAY_BYTE 0x20).getD MODE_BYTE 0
      = tx.getD MODE_BYTE 0 := by
    rw [getD_set_ne _ _ _ _ (by decide), getD_set_ne _ _ _ _ (by decide)]
  unfold control_buffer
  dsimp only
  rw [e]
  apply getD_set_eq
  obtain ⟨cm, cf, cp, ct, cs⟩ := call
  cases cp <;> cases ct <;> cases cs <;> dsimp only <;> (try split_ifs) <;>
    simpa [length_control_preset] using h

/-- The temperature byte is written only by an accepted temperature intent. -/
theorem getD_control_buffer_temperature_keep (cfg : Config) (call : ClimateCall) (tx : List Nat)
    (h : ∀ t, call.target_temperature = some t → ¬ temperature_in_range cfg t) :
    (control_buffer cfg call tx).getD TEMPERATURE_BYTE 0 = tx.getD TEMPERATURE_BYTE 0 := by
  obtain ⟨cm, cf, cp, ct, cs⟩ := call
  unfold control_buffer
  cases ct with
  | none =>
    cases cp <;> cases cs <;> dsimp only <;>
      simp only [getD_set_ne _ MODE_BYTE TEMPERATURE_BYTE _ (by decide),
        getD_set_ne _ SWING_BYTE TEMPERATURE_BYTE _ (by decide),
        getD_set_ne _ FORCE_UPDATE_BYTE TEMPERATURE_BYTE _ (by decide),
        getD_set_ne _ DISPLAY_BYTE TEMPERATURE_BYTE _ (by decide),
        getD_control_preset _ _ _ _ TEMPERATURE_BYTE (by decide)]
  | some t =>
    have ht : ¬ ((t.ge_const cfg.MIN_TEMPERATURE && t.le_const cfg.MAX_TEMPERATURE) = true) := by
      intro hh
      rw [Bool.and_eq_true] at hh
      exact h t rfl hh
    cases cp <;> cases cs <;> dsimp only <;>
      simp only [ht, Bool.false_eq_true, if_false,
        getD_set_ne _ MODE_BYTE TEMPERATURE_BYTE _ (by decide),
        getD_set_ne _ SWING_BYTE TEMPERATURE_BYTE _ (by decide),
        getD_set_ne _ FORCE_UPDATE_BYTE TEMPERATURE_BYTE _ (by decide),
        getD_set_ne _ DISPLAY_BYTE TEMPERATURE_BYTE _ (by decide),
        getD_control_preset _ _ _ _ TEMPERATURE_BYTE (by decide)]

/-- The byte of `tx_buffer_` at index `i` after `control`, away from the checksum
slot and the force-update byte, is the byte of `control_buffer`. -/
theorem getD_control_tx (cfg : Config) (s : GreeAC) (call : ClimateCall) (now : Nat) (i : Nat)
    (h : s.state_ = ACState.READY) (h7 : i ≠ FORCE_UPDATE_BYTE)
    (hslot : i ≠ tx_frame_size cfg s.tx_buffer_ - 1) :
    (s.control cfg call now).tx_buffer_.getD i 0
      = (control_buffer cfg call s.tx_buffer_).getD i 0 := by
  rw [control_ready cfg s call now h]
  dsimp only
  rw [getD_set_ne _ _ _ _ (Ne.symm h7), tx_frame_size_control_buffer,
    getD_set_ne _ _ _ _ (Ne.symm hslot)]


/-! ## Nibbles -/

set_option maxRecDepth 100000 in
theorem nibble_split_fin : ∀ b : Fin 256,
    ((b.val &&& 0xF0) ||| (b.val &&& 0x0F)) % 256 = b.val := by
  decide

set_option maxRecDepth 100000 in
theorem nibble_join_fin : ∀ m : Fin 256, ∀ f : Fin 16,
    m.val &&& 0xF0 = m.val →
    ((m.val ||| f.val) % 256) &&& 0xF0 = m.val ∧ ((m.val ||| f.val) % 256) &&& 0x0F = f.val := by
  decide

/-- A byte is the union of its two nibbles. -/
theorem nibble_split (b : Nat) (h : b < 256) :
    ((b &&& MODE_MASK) ||| (b &&& FAN_MASK)) % 256 = b :=
  nibble_split_fin ⟨b, h⟩

/-- The union of a mode code and a fan code has the mode code as its high nibble and
the fan code as its low nibble. -/
theorem nibble_join (m f : Nat) (hm : m &&& MODE_MASK = m) (hf : f &&& FAN_MASK = f) :
    ((m ||| f) % 256) &&& MODE_MASK = m ∧ ((m ||| f) % 256) &&& FAN_MASK = f := by
  have h1 : m &&& MODE_MASK ≤ MODE_MASK := Nat.and_le_right
  have h2 : f &&& FAN_MASK ≤ FAN_MASK := Nat.and_le_right
  rw [hm] at h1
  rw [hf] at h2
  have h1' : m < 256 := by
    simp only [FAN_MASK, MODE_MASK] at h1
    omega
  have h2' : f < 16 := by
    simp only [FAN_MASK, MODE_MASK] at h2
    omega
  exact nibble_join_fin ⟨m, h1'⟩ ⟨f, h2'⟩ hm

/-! ## Encoder: resolved mode and fan speed -/

/-- Whenever the resolved mode is DRY the resolved fan speed is LOW. -/
theorem control_mode_fan_dry (cfg : Config) (call : ClimateCall) (b : Nat)
    (h : (control_mode_fan cfg call b).1 = cfg.AC_MODE_DRY) :
    (control_mode_fan cfg call b).2 = cfg.S_LOW := by
  unfold control_mode_fan at h ⊢
  dsimp only at h ⊢
  split_ifs with hc
  · rfl
  · by_contra hne
    exact hc ⟨h, hne⟩

/-- A DRY mode intent resolves to mode DRY. -/
theorem control_mode_fan_dry_intent (cfg : Config) (call : ClimateCall) (b : Nat)
    (h : call.mode = some ClimateMode.CLIMATE_MODE_DRY) :
    (control_mode_fan cfg call b).1 = cfg.AC_MODE_DRY := by
  unfold control_mode_fan
  simp only [h, control_mode]

/-- Without mode and fan intents the resolved pair is the two nibbles of the byte,
with the fan nibble replaced by LOW when the mode nibble is DRY. -/
theorem control_mode_fan_none (cfg : Config) (call : ClimateCall) (b : Nat)
    (hm : call.mode = none) (hf : call.fan_mode = none) :
    control_mode_fan cfg call b
      = (b &&& MODE_MASK,
          if b &&& MODE_MASK = cfg.AC_MODE_DRY ∧ b &&& FAN_MASK ≠ cfg.S_LOW then cfg.S_LOW
          else b &&& FAN_MASK) := by
  unfold control_mode_fan
  simp only [hm, hf]

/-! ## Encoder: claims -/

/-- Claim C9: when the session state is not `READY`, `control` returns the driver
as it was: the outgoing buffer, the canonical state, the session state, the
counters and the trace of transmitted frames are all unchanged. -/
theorem C9_control_not_ready (cfg : Config) (s : GreeAC) (call : ClimateCall) (now : Nat)
    (h : s.state_ ≠ ACState.READY) : s.control cfg call now = s :=
  control_not_ready cfg s call now h

/-- Witness of C9: a driver in `INITIALIZING`. -/
theorem C9_control_not_ready_witness :
    sample_driver.control sample_config (temperature_call (FloatVal.num 24)) 5 = sample_driver :=
  C9_control_not_ready sample_config sample_driver _ 5 (by decide)

/-- Claim C8: in `READY`, a target-temperature intent outside
`[MIN_TEMPERATURE, MAX_TEMPERATURE]` leaves the temperature byte of the
outgoing buffer and the canonical target temperature as they were.  The
checksum slot of the outgoing frame, index
`min(3 + tx_buffer_[2], GREE_TX_BUFFER_SIZE) - 1`, is not the temperature byte: no
statement of the driver stores into the length byte `tx_buffer_[2]`
(`control_length_byte`, `send_packet_length_byte`, `loop_length_byte`), so the slot
stays where the initial content of the buffer, set in the header, puts it, and
that is behind the bytes 7 to 13 that `control` writes. -/
theorem C8_temperature_rejected (cfg : Config) (s : GreeAC) (call : ClimateCall) (now : Nat)
    (t : FloatVal) (hready : s.state_ = ACState.READY)
    (ht : call.target_temperature = some t) (hout : ¬ temperature_in_range cfg t)
    (hslot : tx_frame_size cfg s.tx_buffer_ - 1 ≠ TEMPERATURE_BYTE) :
    (s.control cfg call now).tx_buffer_.getD TEMPERATURE_BYTE 0
      = s.tx_buffer_.getD TEMPERATURE_BYTE 0 ∧
    (s.control cfg call now).target_temperature = s.target_temperature := by
  constructor
  · rw [getD_control_tx cfg s call now TEMPERATURE_BYTE hready (by decide) (Ne.symm hslot)]
    apply getD_control_buffer_temperature_keep
    intro t' ht'
    rw [ht] at ht'
    cases ht'
    exact hout
  · rw [control_ready cfg s call now hready]
    have hb : (t.ge_const cfg.MIN_TEMPERATURE && t.le_const cfg.MAX_TEMPERATURE) = false := by
      rw [Bool.and_eq_false_iff]
      by_cases h1 : t.ge_const cfg.MIN_TEMPERATURE = true
      · right
        by_cases h2 : t.le_const cfg.MAX_TEMPERATURE = true
        · exact absurd ⟨h1, h2⟩ hout
        · simpa using h2
      · left
        simpa using h1
    simp only [control_target, ht, hb, Bool.false_eq_true, if_false]

/-- Witness of C8: 35 degrees with bounds 16 and 30. -/
theorem C8_temperature_rejected_witness :
    (sample_ready.control sample_config (temperature_call (FloatVal.num 35)) 5).tx_buffer_.getD
        TEMPERATURE_BYTE 0 = sample_ready.tx_buffer_.getD TEMPERATURE_BYTE 0 ∧
    (sample_ready.control sample_config (temperature_call (FloatVal.num 35)) 5).target_temperature
      = sample_ready.target_temperature :=
  C8_temperature_rejected sample_config sample_ready _ 5 (FloatVal.num 35) (by decide) rfl
    (by decide) (by decide)

/-- Claim C7: in `READY`, a `control` call whose mode intent is DRY leaves the mode
byte of the outgoing buffer with mode nibble DRY and fan nibble LOW, whatever the
fan intent; more generally the same holds whenever the mode resolved from the
buffer and the intents is DRY.  The checksum slot of the outgoing frame, index
`min(3 + tx_buffer_[2], GREE_TX_BUFFER_SIZE) - 1`, is not the mode byte: no
statement of the driver stores into the length byte `tx_buffer_[2]`
(`control_length_byte`, `send_packet_length_byte`, `loop_length_byte`), so the slot
stays where the initial content of the buffer, set in the header, puts it, and
that is behind the bytes 7 to 13 that `control` writes.  The code of DRY lies
under `MODE_MASK`, that of LOW under `FAN_MASK`. -/
theorem C7_dry_forces_low_fan (cfg : Config) (s : GreeAC) (call : ClimateCall) (now : Nat)
    (hready : s.state_ = ACState.READY)
    (hdry : cfg.AC_MODE_DRY &&& MODE_MASK = cfg.AC_MODE_DRY)
    (hlow : cfg.S_LOW &&& FAN_MASK = cfg.S_LOW)
    (hlen : MODE_BYTE < s.tx_buffer_.length)
    (hslot : tx_frame_size cfg s.tx_buffer_ - 1 ≠ MODE_BYTE) :
    (call.mode = some ClimateMode.CLIMATE_MODE_DRY →
      (s.control cfg call now).tx_buffer_.getD MODE_BYTE 0 &&& MODE_MASK = cfg.AC_MODE_DRY ∧
      (s.control cfg call now).tx_buffer_.getD MODE_BYTE 0 &&& FAN_MASK = cfg.S_LOW) ∧
    ((control_mode_fan cfg call (s.tx_buffer_.getD MODE_BYTE 0)).1 = cfg.AC_MODE_DRY →
      (s.control cfg call now).tx_buffer_.getD MODE_BYTE 0 &&& MODE_MASK = cfg.AC_MODE_DRY ∧
      (s.control cfg call now).tx_buffer_.getD MODE_BYTE 0 &&& FAN_MASK = cfg.S_LOW) := by
  have key : (control_mode_fan cfg call (s.tx_buffer_.getD MODE_BYTE 0)).1 = cfg.AC_MODE_DRY →
      (s.control cfg call now).tx_buffer_.getD MODE_BYTE 0 &&& MODE_MASK = cfg.AC_MODE_DRY ∧
      (s.control cfg call now).tx_buffer_.getD MODE_BYTE 0 &&& FAN_MASK = cfg.S_LOW := by
    intro h
    rw [getD_control_tx cfg s call now MODE_BYTE hready (by decide) (Ne.symm hslot),
      getD_control_buffer_mode cfg call s.tx_buffer_ hlen,
      control_mode_fan_dry cfg call _ h, h]
    exact nibble_join _ _ hdry hlow
  exact ⟨fun h => key (control_mode_fan_dry_intent cfg call _ h), key⟩

/-- Witness of C7: a DRY mode intent together with a HIGH fan intent gives the mode
byte `0xA1`. -/
theorem C7_dry_forces_low_fan_witness :
    (sample_ready.control sample_config
        { mode := some ClimateMode.CLIMATE_MODE_DRY,
          fan_mode := some ClimateFanMode.CLIMATE_FAN_HIGH,
          preset := none, target_temperature := none, swing_mode := none } 5).tx_buffer_.getD
        MODE_BYTE 0 &&& MODE_MASK = sample_config.AC_MODE_DRY ∧
    (sample_ready.control sample_config
        { mode := some ClimateMode.CLIMATE_MODE_DRY,
          fan_mode := some ClimateFanMode.CLIMATE_FAN_HIGH,
          preset := none, target_temperature := none, swing_mode := none } 5).tx_buffer_.getD
        MODE_BYTE 0 &&& FAN_MASK = sample_config.S_LOW :=
  (C7_dry_forces_low_fan sample_config sample_ready _ 5 (by decide) (by decide) (by decide)
    (by decide) (by decide)).1 rfl

/-- Claim C6, as amended: in `READY`, when the checksum slot of the outgoing frame
is none of the indices 8, 10 and 12, a `control` call whose intent holds a target
temperature only leaves the preset byte and the swing byte of the outgoing
buffer as they were; the mode byte is left as it was unless its mode nibble is
DRY and its fan nibble is not LOW, and in that case it becomes DRY with LOW. -/
theorem C6_temperature_only (cfg : Config) (s : GreeAC) (t : FloatVal) (now : Nat)
    (hready : s.state_ = ACState.READY)
    (hlen : MODE_BYTE < s.tx_buffer_.length)
    (hbyte : s.tx_buffer_.getD MODE_BYTE 0 < 256)
    (hslot8 : tx_frame_size cfg s.tx_buffer_ - 1 ≠ MODE_BYTE)
    (hslot10 : tx_frame_size cfg s.tx_buffer_ - 1 ≠ PRESET_BYTE)
    (hslot12 : tx_frame_size cfg s.tx_buffer_ - 1 ≠ SWING_BYTE) :
    (s.control cfg (temperature_call t) now).tx_buffer_.getD PRESET_BYTE 0
      = s.tx_buffer_.getD PRESET_BYTE 0 ∧
    (s.control cfg (temperature_call t) now).tx_buffer_.getD SWING_BYTE 0
      = s.tx_buffer_.getD SWING_BYTE 0 ∧
    (¬ (s.tx_buffer_.getD MODE_BYTE 0 &&& MODE_MASK = cfg.AC_MODE_DRY ∧
        s.tx_buffer_.getD MODE_BYTE 0 &&& FAN_MASK ≠ cfg.S_LOW) →
      (s.control cfg (temperature_call t) now).tx_buffer_.getD MODE_BYTE 0
        = s.tx_buffer_.getD MODE_BYTE 0) ∧
    ((s.tx_buffer_.getD MODE_BYTE 0 &&& MODE_MASK = cfg.AC_MODE_DRY ∧
        s.tx_buffer_.getD MODE_BYTE 0 &&& FAN_MASK ≠ cfg.S_LOW) →
      (s.control cfg (temperature_call t) now).tx_buffer_.getD MODE_BYTE 0
        = (cfg.AC_MODE_DRY ||| cfg.S_LOW) % 256) := by
  have h8 : (s.control cfg (temperature_call t) now).tx_buffer_.getD MODE_BYTE 0
      = ((control_mode_fan cfg (temperature_call t) (s.tx_buffer_.getD MODE_BYTE 0)).1 |||
          (control_mode_fan cfg (temperature_call t) (s.tx_buffer_.getD MODE_BYTE 0)).2)
            % 256 := by
    rw [getD_control_tx cfg s _ now MODE_BYTE hready (by decide) (Ne.symm hslot8),
      getD_control_buffer_mode cfg _ s.tx_buffer_ hlen]
  rw [control_mode_fan_none cfg (temperature_call t) _ rfl rfl] at h8
  refine ⟨?_, ?_, ?_, ?_⟩
  · rw [getD_control_tx cfg s _ now PRESET_BYTE hready (by decide) (Ne.symm hslot10)]
    simp only [control_buffer, temperature_call]
    split_ifs <;>
      simp only [getD_set_ne _ MODE_BYTE PRESET_BYTE _ (by decide),
        getD_set_ne _ TEMPERATURE_BYTE PRESET_BYTE _ (by decide),
        getD_set_ne _ FORCE_UPDATE_BYTE PRESET_BYTE _ (by decide),
        getD_set_ne _ DISPLAY_BYTE PRESET_BYTE _ (by decide)]
  · rw [getD_control_tx cfg s _ now SWING_BYTE hready (by decide) (Ne.symm hslot12)]
    simp only [control_buffer, temperature_call]
    split_ifs <;>
      simp only [getD_set_ne _ MODE_BYTE SWING_BYTE _ (by decide),
        getD_set_ne _ TEMPERATURE_BYTE SWING_BYTE _ (by decide),
        getD_set_ne _ FORCE_UPDATE_BYTE SWING_BYTE _ (by decide),
        getD_set_ne _ DISPLAY_BYTE SWING_BYTE _ (by decide)]
  · intro hn
    rw [h8]
    dsimp only
    rw [if_neg hn]
    exact nibble_split _ hbyte
  · intro hd
    rw [h8]
    dsimp only
    rw [if_pos hd, hd.1]

/-- Witness of C6: a temperature intent of 24 degrees on a buffer in COOL mode. -/
theorem C6_temperature_only_witness :
    (sample_ready.control sample_config (temperature_call (FloatVal.num 24)) 5).tx_buffer_.getD
        MODE_BYTE 0 = sample_ready.tx_buffer_.getD MODE_BYTE 0 :=
  (C6_temperature_only sample_config sample_ready (FloatVal.num 24) 5 (by decide) (by decide)
    (by decide) (by decide) (by decide) (by decide)).2.2.1 (by decide)

/-- Counterexample to C6 as stated: the outgoing buffer holds the mode byte `0xA0`,
DRY with automatic fan, as `parse_state_packet_` copies it from a report; the
checksum slot is index 46; a `control` call with a target temperature of 24 and
nothing else changes the mode byte to `0xA1`. -/
theorem C6_counterexample :
    ({ sample_ready with tx_buffer_ := sample_ready.tx_buffer_.set 8 0xA0 } : GreeAC).state_
      = ACState.READY ∧
    tx_frame_size sample_config (sample_ready.tx_buffer_.set 8 0xA0) - 1 = 46 ∧
    ({ sample_ready with tx_buffer_ := sample_ready.tx_buffer_.set 8 0xA0 } : GreeAC).tx_buffer_.getD
      MODE_BYTE 0 = 0xA0 ∧
    (GreeAC.control sample_config
        { sample_ready with tx_buffer_ := sample_ready.tx_buffer_.set 8 0xA0 }
        (temperature_call (FloatVal.num 24)) 5).tx_buffer_.getD MODE_BYTE 0 = 0xA1 := by
  decide



/-! ## Decoder: what each step leaves alone -/

theorem parse_target_temperature_others (cfg : Config) (s : GreeAC) (data : List Nat) :
    (s.parse_target_temperature cfg data).mode = s.mode ∧
    (s.parse_target_temperature cfg data).fan_mode = s.fan_mode ∧
    (s.parse_target_temperature cfg data).current_temperature = s.current_temperature ∧
    (s.parse_target_temperature cfg data).preset = s.preset ∧
    (s.parse_target_temperature cfg data).swing_mode = s.swing_mode ∧
    (s.parse_target_temperature cfg data).tx_buffer_ = s.tx_buffer_ := by
  unfold GreeAC.parse_target_temperature
  dsimp only
  split_ifs <;> exact ⟨rfl, rfl, rfl, rfl, rfl, rfl⟩

theorem parse_current_temperature_others (s : GreeAC) (data : List Nat) (size : Nat) :
    (s.parse_current_temperature data size).mode = s.mode ∧
    (s.parse_current_temperature data size).fan_mode = s.fan_mode ∧
    (s.parse_current_temperature data size).target_temperature = s.target_temperature ∧
    (s.parse_current_temperature data size).preset = s.preset ∧
    (s.parse_current_temperature data size).swing_mode = s.swing_mode ∧
    (s.parse_current_temperature data size).tx_buffer_ = s.tx_buffer_ := by
  unfold GreeAC.parse_current_temperature
  dsimp only
  split_ifs <;> exact ⟨rfl, rfl, rfl, rfl, rfl, rfl⟩

theorem parse_mode_others (cfg : Config) (s : GreeAC) (mode_byte : Nat) :
    (s.parse_mode cfg mode_byte).fan_mode = s.fan_mode ∧
    (s.parse_mode cfg mode_byte).target_temperature = s.target_temperature ∧
    (s.parse_mode cfg mode_byte).current_temperature = s.current_temperature ∧
    (s.parse_mode cfg mode_byte).preset = s.preset ∧
    (s.parse_mode cfg mode_byte).swing_mode = s.swing_mode ∧
    (s.parse_mode cfg mode_byte).tx_buffer_ = s.tx_buffer_ := by
  unfold GreeAC.parse_mode
  dsimp only
  split_ifs <;> exact ⟨rfl, rfl, rfl, rfl, rfl, rfl⟩

theorem parse_fan_others (cfg : Config) (s : GreeAC) (mode_byte : Nat) :
    (s.parse_fan cfg mode_byte).mode = s.mode ∧
    (s.parse_fan cfg mode_byte).target_temperature = s.target_temperature ∧
    (s.parse_fan cfg mode_byte).current_temperature = s.current_temperature ∧
    (s.parse_fan cfg mode_byte).preset = s.preset ∧
    (s.parse_fan cfg mode_byte).swing_mode = s.swing_mode ∧
    (s.parse_fan cfg mode_byte).tx_buffer_ = s.tx_buffer_ := by
  unfold GreeAC.parse_fan
  dsimp only
  split_ifs <;> exact ⟨rfl, rfl, rfl, rfl, rfl, rfl⟩

theorem parse_preset_others (cfg : Config) (s : GreeAC) (data : List Nat) (size : Nat) :
    (s.parse_preset cfg data size).mode = s.mode ∧
    (s.parse_preset cfg data size).fan_mode = s.fan_mode ∧
    (s.parse_preset cfg data size).target_temperature = s.target_temperature ∧
    (s.parse_preset cfg data size).current_temperature = s.current_temperature ∧
    (s.parse_preset cfg data size).swing_mode = s.swing_mode ∧
    (s.parse_preset cfg data size).tx_buffer_ = s.tx_buffer_ := by
  unfold GreeAC.parse_preset
  dsimp only
  split_ifs <;> exact ⟨rfl, rfl, rfl, rfl, rfl, rfl⟩

theorem parse_swing_others (cfg : Config) (s : GreeAC) (data : List Nat) (size : Nat) :
    (s.parse_swing cfg data size).mode = s.mode ∧
    (s.parse_swing cfg data size).fan_mode = s.fan_mode ∧
    (s.parse_swing cfg data size).target_temperature = s.target_temperature ∧
    (s.parse_swing cfg data size).current_temperature = s.current_temperature ∧
    (s.parse_swing cfg data size).preset = s.preset := by
  unfold GreeAC.parse_swing
  dsimp only
  split_ifs <;> exact ⟨rfl, rfl, rfl, rfl, rfl⟩

/-! ## Decoder: the enumeration tables -/

/-- The mode `switch` of the decoder inverts the mode `switch` of the encoder. -/
theorem parse_mode_of_code (cfg : Config) (hcodes : cfg.codes_ok) (d : GreeAC) (b : Nat)
    (m : ClimateMode) (hm : m ≠ ClimateMode.CLIMATE_MODE_HEAT_COOL)
    (hb : b &&& MODE_MASK = (control_mode cfg m 0 0).1) :
    (d.parse_mode cfg b).mode = m.toNat := by
  have hn := hcodes.2.2.1
  simp only [List.nodup_cons, List.mem_cons, List.mem_singleton, List.not_mem_nil, or_false,
    not_or, List.nodup_nil, and_true] at hn
  unfold GreeAC.parse_mode
  dsimp only
  rw [hb]
  cases m <;> simp only [control_mode] <;> first
    | exact absurd rfl hm
    | (split_ifs <;> first
        | rfl
        | (exfalso; omega))

/-- The fan `switch` of the decoder inverts the fan `switch` of the encoder. -/
theorem parse_fan_of_code (cfg : Config) (hcodes : cfg.codes_ok) (d : GreeAC) (b : Nat)
    (f : ClimateFanMode)
    (hf : f ∈ [ClimateFanMode.CLIMATE_FAN_AUTO, ClimateFanMode.CLIMATE_FAN_LOW,
      ClimateFanMode.CLIMATE_FAN_MEDIUM, ClimateFanMode.CLIMATE_FAN_HIGH])
    (hb : b &&& FAN_MASK = control_fan cfg f 0) :
    (d.parse_fan cfg b).fan_mode = some f := by
  have hn := hcodes.2.2.2.1
  simp only [List.nodup_cons, List.mem_cons, List.mem_singleton, List.not_mem_nil, or_false,
    not_or, List.nodup_nil, and_true] at hn
  unfold GreeAC.parse_fan
  dsimp only
  rw [hb]
  simp only [List.mem_cons, List.mem_singleton, List.not_mem_nil, or_false] at hf
  rcases hf with rfl | rfl | rfl | rfl <;> simp only [control_fan] <;>
    (split_ifs <;> first
        | rfl
        | (exfalso; omega))

/-- The swing `switch` of the decoder inverts the swing `switch` of the encoder. -/
theorem parse_swing_of_code (cfg : Config) (hcodes : cfg.codes_ok) (d : GreeAC)
    (data : List Nat) (size : Nat) (w : ClimateSwingMode) (hsize : SWING_BYTE < size)
    (hb : data.getD SWING_BYTE 0 = control_swing cfg w) :
    (d.parse_swing cfg data size).swing_mode = w := by
  have hn := hcodes.2.2.2.2
  simp only [List.nodup_cons, List.mem_cons, List.mem_singleton, List.not_mem_nil, or_false,
    not_or, List.nodup_nil, and_true] at hn
  unfold GreeAC.parse_swing
  have hs : size > SWING_BYTE := hsize
  simp only [hs, if_true]
  rw [hb]
  cases w <;> simp only [control_swing] <;>
    (split_ifs <;> first
        | rfl
        | (exfalso; omega))

/-- With a mode intent among the six modes and a fan intent among the four speeds,
LOW when the mode is DRY, the resolved pair is the pair of their codes. -/
theorem control_mode_fan_intents (cfg : Config) (hcodes : cfg.codes_ok) (call : ClimateCall)
    (b : Nat) (m : ClimateMode) (f : ClimateFanMode)
    (hmode : call.mode = some m) (hfan : call.fan_mode = some f)
    (hm : m ≠ ClimateMode.CLIMATE_MODE_HEAT_COOL)
    (hf : f ∈ [ClimateFanMode.CLIMATE_FAN_AUTO, ClimateFanMode.CLIMATE_FAN_LOW,
      ClimateFanMode.CLIMATE_FAN_MEDIUM, ClimateFanMode.CLIMATE_FAN_HIGH])
    (hdry : m = ClimateMode.CLIMATE_MODE_DRY → f = ClimateFanMode.CLIMATE_FAN_LOW) :
    control_mode_fan cfg call b = ((control_mode cfg m 0 0).1, control_fan cfg f 0) := by
  have hn := hcodes.2.2.1
  simp only [List.nodup_cons, List.mem_cons, List.mem_singleton, List.not_mem_nil, or_false,
    not_or, List.nodup_nil, and_true] at hn
  unfold control_mode_fan
  simp only [hmode, hfan]
  simp only [List.mem_cons, List.mem_singleton, List.not_mem_nil, or_false] at hf
  cases m <;> first
    | exact absurd rfl hm
    | (rcases hf with rfl | rfl | rfl | rfl <;> simp only [control_mode, control_fan] <;>
        first
          | exact absurd (hdry rfl) (by decide)
          | (split_ifs with hc <;> first
              | rfl
              | (exfalso; omega)))


/-! ## Round trip of a command -/

theorem sixteenths_in_range (cfg : Config) (k : Nat)
    (hk : cfg.MIN_TEMPERATURE * 16 + k ≤ cfg.MAX_TEMPERATURE * 16) :
    (cfg.MIN_TEMPERATURE : ℚ) ≤ (cfg.MIN_TEMPERATURE : ℚ) + (k : ℚ) / 16 ∧
    (cfg.MIN_TEMPERATURE : ℚ) + (k : ℚ) / 16 ≤ (cfg.MAX_TEMPERATURE : ℚ) := by
  have h0 : (0 : ℚ) ≤ (k : ℚ) / 16 := by positivity
  have h1 : ((cfg.MIN_TEMPERATURE * 16 + k : ℕ) : ℚ) ≤ ((cfg.MAX_TEMPERATURE * 16 : ℕ) : ℚ) :=
    Nat.cast_le.mpr hk
  push_cast at h1
  constructor
  · linarith
  · linarith

theorem temperature_in_range_sixteenths (cfg : Config) (k : Nat)
    (hk : cfg.MIN_TEMPERATURE * 16 + k ≤ cfg.MAX_TEMPERATURE * 16) :
    temperature_in_range cfg (FloatVal.num ((cfg.MIN_TEMPERATURE : ℚ) + (k : ℚ) / 16)) := by
  obtain ⟨h1, h2⟩ := sixteenths_in_range cfg k hk
  simp only [temperature_in_range, FloatVal.ge_const, FloatVal.le_const, h1, h2, decide_True,
    and_self]

/-- A temperature a whole number of sixteenths above `MIN_TEMPERATURE` is encoded
as that number. -/
theorem encode_temperature_sixteenths (cfg : Config) (k : Nat) (hk : k < 256) :
    encode_temperature cfg (FloatVal.num ((cfg.MIN_TEMPERATURE : ℚ) + (k : ℚ) / 16)) = k := by
  have e : ((cfg.MIN_TEMPERATURE : ℚ) + (k : ℚ) / 16 - (cfg.MIN_TEMPERATURE : ℚ)) * 16
      = ((k : ℤ) : ℚ) := by
    push_cast
    ring
  simp only [encode_temperature]
  rw [e, Int.floor_intCast, Int.toNat_ofNat]
  exact Nat.mod_eq_of_lt hk

/-- The decoder turns the byte `k` into `MIN_TEMPERATURE + k / 16` when that is at most
`MAX_TEMPERATURE`. -/
theorem parse_target_temperature_sixteenths (cfg : Config) (d : GreeAC) (data : List Nat)
    (k : Nat) (hb : data.getD TEMPERATURE_BYTE 0 = k)
    (hk : cfg.MIN_TEMPERATURE * 16 + k ≤ cfg.MAX_TEMPERATURE * 16) :
    (d.parse_target_temperature cfg data).target_temperature
      = FloatVal.num ((cfg.MIN_TEMPERATURE : ℚ) + (k : ℚ) / 16) := by
  obtain ⟨h1, h2⟩ := sixteenths_in_range cfg k hk
  unfold GreeAC.parse_target_temperature
  dsimp only
  rw [hb, add_comm ((k : ℚ) / 16) (cfg.MIN_TEMPERATURE : ℚ)]
  simp only [FloatVal.ge_const, FloatVal.le_const, h1, h2, decide_True, Bool.and_self, if_true]

/-- The temperature byte that `control` writes for an accepted intent. -/
theorem getD_control_buffer_temperature_set (cfg : Config) (call : ClimateCall) (tx : List Nat)
    (t : FloatVal) (ht : call.target_temperature = some t) (hin : temperature_in_range cfg t)
    (hlen : TEMPERATURE_BYTE < tx.length) :
    (control_buffer cfg call tx).getD TEMPERATURE_BYTE 0 = encode_temperature cfg t := by
  obtain ⟨cm, cf, cp, ct, cs⟩ := call
  simp only at ht
  subst ht
  have hb : (t.ge_const cfg.MIN_TEMPERATURE && t.le_const cfg.MAX_TEMPERATURE) = true := by
    rw [Bool.and_eq_true]
    exact hin
  unfold control_buffer
  cases cp <;> cases cs <;> dsimp only <;>
    simp only [hb, if_true, getD_set_ne _ MODE_BYTE TEMPERATURE_BYTE _ (by decide),
      getD_set_ne _ SWING_BYTE TEMPERATURE_BYTE _ (by decide)] <;>
    apply getD_set_eq <;>
    simpa [length_control_preset] using hlen

/-- The swing byte that `control` writes for a swing intent. -/
theorem getD_control_buffer_swing_set (cfg : Config) (call : ClimateCall) (tx : List Nat)
    (w : ClimateSwingMode) (hw : call.swing_mode = some w) (hlen : SWING_BYTE < tx.length) :
    (control_buffer cfg call tx).getD SWING_BYTE 0 = control_swing cfg w := by
  obtain ⟨cm, cf, cp, ct, cs⟩ := call
  simp only at hw
  subst hw
  unfold control_buffer
  dsimp only
  rw [getD_set_ne _ MODE_BYTE SWING_BYTE _ (by decide)]
  apply getD_set_eq
  cases cp <;> cases ct <;> dsimp only <;> (try split_ifs) <;>
    simpa [length_control_preset] using hlen


theorem control_mode_code_nibble (cfg : Config) (hcodes : cfg.codes_ok) (m : ClimateMode)
    (hm : m ≠ ClimateMode.CLIMATE_MODE_HEAT_COOL) :
    (control_mode cfg m 0 0).1 &&& MODE_MASK = (control_mode cfg m 0 0).1 := by
  have h := hcodes.1
  cases m <;> first
    | exact absurd rfl hm
    | exact h _ (by simp [control_mode])

theorem control_fan_code_nibble (cfg : Config) (hcodes : cfg.codes_ok) (f : ClimateFanMode)
    (hf : f ∈ [ClimateFanMode.CLIMATE_FAN_AUTO, ClimateFanMode.CLIMATE_FAN_LOW,
      ClimateFanMode.CLIMATE_FAN_MEDIUM, ClimateFanMode.CLIMATE_FAN_HIGH]) :
    control_fan cfg f 0 &&& FAN_MASK = control_fan cfg f 0 := by
  have h := hcodes.2.1
  simp only [List.mem_cons, List.mem_singleton, List.not_mem_nil, or_false] at hf
  rcases hf with rfl | rfl | rfl | rfl <;> exact h _ (by simp [control_fan])

/-- Claim C5, as amended: round trip.  In `READY`, with the checksum slot of the
outgoing frame at none of the indices 8, 9 and 12, let `control` encode an intent
that carries a mode among OFF, AUTO, COOL, DRY, FAN_ONLY and HEAT, a fan speed
among AUTO, LOW, MEDIUM and HIGH (LOW when the mode is DRY), a target
temperature `MIN_TEMPERATURE + k / 16` that is at most `MAX_TEMPERATURE`, and a
swing mode.  Then decoding, in any driver, a valid report frame of more than 12
bytes that carries the resulting bytes at the indices 8, 9 and 12 yields the
same mode, fan speed, target temperature and swing mode.  The mode and fan codes
are nibbles, the case labels are distinct and the temperature range fits a
byte. -/
theorem C5_round_trip (cfg : Config) (s d : GreeAC) (call : ClimateCall) (now : Nat)
    (data : List Nat) (size : Nat)
    (m : ClimateMode) (f : ClimateFanMode) (k : Nat) (w : ClimateSwingMode)
    (hcodes : cfg.codes_ok)
    (hfit : cfg.MAX_TEMPERATURE * 16 < cfg.MIN_TEMPERATURE * 16 + 256)
    (hready : s.state_ = ACState.READY)
    (hlen : SWING_BYTE < s.tx_buffer_.length)
    (hslot8 : tx_frame_size cfg s.tx_buffer_ - 1 ≠ MODE_BYTE)
    (hslot9 : tx_frame_size cfg s.tx_buffer_ - 1 ≠ TEMPERATURE_BYTE)
    (hslot12 : tx_frame_size cfg s.tx_buffer_ - 1 ≠ SWING_BYTE)
    (hmode : call.mode = some m) (hm : m ≠ ClimateMode.CLIMATE_MODE_HEAT_COOL)
    (hfan : call.fan_mode = some f)
    (hf : f ∈ [ClimateFanMode.CLIMATE_FAN_AUTO, ClimateFanMode.CLIMATE_FAN_LOW,
      ClimateFanMode.CLIMATE_FAN_MEDIUM, ClimateFanMode.CLIMATE_FAN_HIGH])
    (hdry : m = ClimateMode.CLIMATE_MODE_DRY → f = ClimateFanMode.CLIMATE_FAN_LOW)
    (htemp : call.target_temperature
      = some (FloatVal.num ((cfg.MIN_TEMPERATURE : ℚ) + (k : ℚ) / 16)))
    (hk : cfg.MIN_TEMPERATURE * 16 + k ≤ cfg.MAX_TEMPERATURE * 16)
    (hswing : call.swing_mode = some w)
    (hsize : decodable_size cfg size) (h12 : SWING_BYTE < size)
    (hcmd : data.getD 3 0 = cfg.CMD_IN_UNIT_REPORT)
    (hcrc : data.getD (size - 1) 0 = calculate_checksum_ data size)
    (hd8 : data.getD MODE_BYTE 0 = (s.control cfg call now).tx_buffer_.getD MODE_BYTE 0)
    (hd9 : data.getD TEMPERATURE_BYTE 0
      = (s.control cfg call now).tx_buffer_.getD TEMPERATURE_BYTE 0)
    (hd12 : data.getD SWING_BYTE 0 = (s.control cfg call now).tx_buffer_.getD SWING_BYTE 0) :
    (d.parse_state_packet_ cfg data size).mode = m.toNat ∧
    (d.parse_state_packet_ cfg data size).fan_mode = some f ∧
    (d.parse_state_packet_ cfg data size).target_temperature
      = FloatVal.num ((cfg.MIN_TEMPERATURE : ℚ) + (k : ℚ) / 16) ∧
    (d.parse_state_packet_ cfg data size).swing_mode = w := by
  have hl8 : MODE_BYTE < s.tx_buffer_.length := by
    simp only [SWING_BYTE] at hlen
    simp only [FAN_MASK, MODE_BYTE]
    omega
  have hl9 : TEMPERATURE_BYTE < s.tx_buffer_.length := by
    simp only [SWING_BYTE] at hlen
    simp only [TEMPERATURE_BYTE]
    omega
  -- the three bytes of the frame
  have hin := temperature_in_range_sixteenths cfg k hk
  have e8 : data.getD MODE_BYTE 0
      = ((control_mode cfg m 0 0).1 ||| control_fan cfg f 0) % 256 := by
    rw [hd8, getD_control_tx cfg s call now MODE_BYTE hready (by decide) (Ne.symm hslot8),
      getD_control_buffer_mode cfg call s.tx_buffer_ hl8,
      control_mode_fan_intents cfg hcodes call _ m f hmode hfan hm hf hdry]
  have e9 : data.getD TEMPERATURE_BYTE 0 = k := by
    rw [hd9, getD_control_tx cfg s call now TEMPERATURE_BYTE hready (by decide)
        (Ne.symm hslot9),
      getD_control_buffer_temperature_set cfg call s.tx_buffer_ _ htemp hin hl9,
      encode_temperature_sixteenths cfg k (by omega)]
  have e12 : data.getD SWING_BYTE 0 = control_swing cfg w := by
    rw [hd12, getD_control_tx cfg s call now SWING_BYTE hready (by decide) (Ne.symm hslot12),
      getD_control_buffer_swing_set cfg call s.tx_buffer_ w hswing hlen]
  obtain ⟨n1, n2⟩ := nibble_join _ _ (control_mode_code_nibble cfg hcodes m hm)
    (control_fan_code_nibble cfg hcodes f hf)
  rw [← e8] at n1 n2
  -- the decoder, step by step
  rw [parse_state_packet_full cfg d data size hsize hcmd hcrc]
  dsimp only
  refine ⟨?_, ?_, ?_, ?_⟩
  · rw [(parse_swing_others cfg _ data size).1, (parse_preset_others cfg _ data size).1,
      (parse_fan_others cfg _ _).1]
    exact parse_mode_of_code cfg hcodes _ _ m hm n1
  · rw [(parse_swing_others cfg _ data size).2.1, (parse_preset_others cfg _ data size).2.1]
    exact parse_fan_of_code cfg hcodes _ _ f hf n2
  · rw [(parse_swing_others cfg _ data size).2.2.1, (parse_preset_others cfg _ data size).2.2.1,
      (parse_fan_others cfg _ _).2.1, (parse_mode_others cfg _ _).2.1]
    dsimp only
    rw [(parse_current_temperature_others _ data size).2.2.1]
    exact parse_target_temperature_sixteenths cfg d data k e9 hk
  · exact parse_swing_of_code cfg hcodes _ data size w h12 e12


/-- Witness of C5: COOL, low fan, 24 degrees (128 sixteenths above 16) and swing off
are encoded as `0x91`, `0x80` and `0x44`, the bytes that `sample_frame` carries. -/
theorem C5_round_trip_witness :
    (sample_driver.parse_state_packet_ sample_config sample_frame 14).mode
      = ClimateMode.CLIMATE_MODE_COOL.toNat ∧
    (sample_driver.parse_state_packet_ sample_config sample_frame 14).fan_mode
      = some ClimateFanMode.CLIMATE_FAN_LOW ∧
    (sample_driver.parse_state_packet_ sample_config sample_frame 14).target_temperature
      = FloatVal.num ((sample_config.MIN_TEMPERATURE : ℚ) + ((128 : ℕ) : ℚ) / 16) ∧
    (sample_driver.parse_state_packet_ sample_config sample_frame 14).swing_mode
      = ClimateSwingMode.CLIMATE_SWING_OFF :=
  C5_round_trip sample_config sample_ready sample_driver
    (cool_call (FloatVal.num ((sample_config.MIN_TEMPERATURE : ℚ) + ((128 : ℕ) : ℚ) / 16))) 5
    sample_frame 14 ClimateMode.CLIMATE_MODE_COOL ClimateFanMode.CLIMATE_FAN_LOW 128
    ClimateSwingMode.CLIMATE_SWING_OFF
    (by decide) (by decide) (by decide) (by decide) (by decide) (by decide) (by decide)
    rfl (by decide) rfl (by decide) (by decide) rfl (by decide) rfl (by decide) (by decide)
    (by decide) (by decide)
    (by
      rw [getD_control_tx _ _ _ _ _ (by decide) (by decide) (by decide),
        getD_control_buffer_mode _ _ _ (by decide)]
      decide)
    (by
      rw [getD_control_tx _ _ _ _ _ (by decide) (by decide) (by decide),
        getD_control_buffer_temperature_set _ _ _ _ rfl
          (temperature_in_range_sixteenths sample_config 128 (by decide)) (by decide),
        encode_temperature_sixteenths _ _ (by decide)]
      decide)
    (by
      rw [getD_control_tx _ _ _ _ _ (by decide) (by decide) (by decide),
        getD_control_buffer_swing_set _ _ _ _ rfl (by decide)]
      decide)


theorem parse_mode_congr (cfg : Config) (s s' : GreeAC) (b : Nat) (h : s.mode = s'.mode) :
    (s.parse_mode cfg b).mode = (s'.parse_mode cfg b).mode := by
  unfold GreeAC.parse_mode
  dsimp only
  split_ifs <;> first
    | rfl
    | exact h

/-- The mode after a decoded frame comes from the mode `switch` on byte 8. -/
theorem parse_state_packet_full_mode (cfg : Config) (d : GreeAC) (data : List Nat) (size : Nat)
    (hsize : decodable_size cfg size) (hcmd : data.getD 3 0 = cfg.CMD_IN_UNIT_REPORT)
    (hcrc : data.getD (size - 1) 0 = calculate_checksum_ data size) :
    (d.parse_state_packet_ cfg data size).mode
      = (d.parse_mode cfg (data.getD MODE_BYTE 0)).mode := by
  rw [parse_state_packet_full cfg d data size hsize hcmd hcrc]
  dsimp only
  rw [(parse_swing_others cfg _ data size).1, (parse_preset_others cfg _ data size).1,
    (parse_fan_others cfg _ _).1]
  apply parse_mode_congr
  dsimp only
  rw [(parse_current_temperature_others _ data size).1,
    (parse_target_temperature_others cfg d data).1]

/-- The target temperature after a decoded frame comes from byte 9. -/
theorem parse_state_packet_full_target (cfg : Config) (d : GreeAC) (data : List Nat)
    (size : Nat) (hsize : decodable_size cfg size)
    (hcmd : data.getD 3 0 = cfg.CMD_IN_UNIT_REPORT)
    (hcrc : data.getD (size - 1) 0 = calculate_checksum_ data size) :
    (d.parse_state_packet_ cfg data size).target_temperature
      = (d.parse_target_temperature cfg data).target_temperature := by
  rw [parse_state_packet_full cfg d data size hsize hcmd hcrc]
  dsimp only
  rw [(parse_swing_others cfg _ data size).2.2.1, (parse_preset_others cfg _ data size).2.2.1,
    (parse_fan_others cfg _ _).2.1, (parse_mode_others cfg _ _).2.1]
  dsimp only
  rw [(parse_current_temperature_others _ data size).2.2.1]

/-- Counterexample to C5 as stated, in two parts.  First, 24 + 1/32 degrees lies
inside the bounds 16 and 30 and is encoded as `0x80`; the valid frame
`sample_frame` carries the three bytes that `control` leaves, and decodes to 24
degrees.  Second, with length byte 6 the checksum slot is the mode byte: after
the intent COOL with 24 degrees that byte is `0xB6`, and the valid frame that
carries it decodes to FAN_ONLY. -/
theorem C5_counterexample :
    (temperature_in_range sample_config (FloatVal.num (24 + 1 / 32)) ∧
      (sample_ready.control sample_config (cool_call (FloatVal.num (24 + 1 / 32)))
        5).tx_buffer_.getD MODE_BYTE 0 = sample_frame.getD MODE_BYTE 0 ∧
      (sample_ready.control sample_config (cool_call (FloatVal.num (24 + 1 / 32)))
        5).tx_buffer_.getD TEMPERATURE_BYTE 0 = sample_frame.getD TEMPERATURE_BYTE 0 ∧
      (sample_ready.control sample_config (cool_call (FloatVal.num (24 + 1 / 32)))
        5).tx_buffer_.getD SWING_BYTE 0 = sample_frame.getD SWING_BYTE 0 ∧
      valid_report_frame sample_config sample_frame ∧
      (sample_driver.parse_state_packet_ sample_config sample_frame 14).target_temperature
        = FloatVal.num 24 ∧
      FloatVal.num 24 ≠ FloatVal.num (24 + 1 / 32)) ∧
    ((GreeAC.control sample_config
        { sample_ready with tx_buffer_ := sample_ready.tx_buffer_.set 2 6 }
        (cool_call (FloatVal.num 24)) 5).tx_buffer_.getD MODE_BYTE 0
        = sample_frame_b6.getD MODE_BYTE 0 ∧
      valid_report_frame sample_config sample_frame_b6 ∧
      (sample_driver.parse_state_packet_ sample_config sample_frame_b6 14).mode
        = ClimateMode.CLIMATE_MODE_FAN_ONLY.toNat ∧
      ClimateMode.CLIMATE_MODE_FAN_ONLY.toNat ≠ ClimateMode.CLIMATE_MODE_COOL.toNat) := by
  have hin : temperature_in_range sample_config (FloatVal.num (24 + 1 / 32)) := by
    simp only [temperature_in_range, FloatVal.ge_const, FloatVal.le_const, sample_config,
      decide_eq_true_eq]
    norm_num
  have henc : encode_temperature sample_config (FloatVal.num (24 + 1 / 32)) = 128 := by
    have hfl : ⌊((24 : ℚ) + 1 / 32 - ((16 : ℕ) : ℚ)) * 16⌋ = 128 := by
      rw [Int.floor_eq_iff]
      norm_num
    simp only [encode_temperature, sample_config, hfl]
    decide
  refine ⟨⟨hin, ?_, ?_, ?_, by decide, ?_, ?_⟩, ?_, by decide, ?_, by decide⟩
  · rw [getD_control_tx _ _ _ _ _ (by decide) (by decide) (by decide),
      getD_control_buffer_mode _ _ _ (by decide)]
    decide
  · rw [getD_control_tx _ _ _ _ _ (by decide) (by decide) (by decide),
      getD_control_buffer_temperature_set _ _ _ _ rfl hin (by decide), henc]
    decide
  · rw [getD_control_tx _ _ _ _ _ (by decide) (by decide) (by decide),
      getD_control_buffer_swing_set _ _ _ _ rfl (by decide)]
    decide
  · rw [parse_state_packet_full_target _ _ _ _ (by decide) (by decide) (by decide),
      parse_target_temperature_sixteenths sample_config sample_driver sample_frame 128
        (by decide) (by decide)]
    simp only [sample_config]
    norm_num
  · intro h
    injection h with h
    norm_num at h
  · decide
  · rw [parse_state_packet_full_mode _ _ _ _ (by decide) (by decide) (by decide)]
    decide

/-! ## Session: the way to READY -/

theorem verify_packet_state (cfg : Config) (s : GreeAC) (data : List Nat) (size : Nat) :
    (s.verify_packet_ cfg data size).2.state_ = s.state_ := by
  unfold GreeAC.verify_packet_
  dsimp only
  split_ifs <;> rfl

theorem verify_packet_true (cfg : Config) (s : GreeAC) (data : List Nat) (size : Nat)
    (h : (s.verify_packet_ cfg data size).1 = true) :
    4 ≤ size ∧ data.getD 3 0 = cfg.CMD_IN_UNIT_REPORT ∧
      data.getD (size - 1) 0 = calculate_checksum_ data size ∧
      s.verify_packet_ cfg data size = (true, s) := by
  by_cases h4 : size < 4
  · rw [verify_packet_small cfg s data size h4] at h
    simp at h
  · by_cases hc : data.getD 3 0 = cfg.CMD_IN_UNIT_REPORT
    · by_cases hk : data.getD (size - 1) 0 = calculate_checksum_ data size
      · exact ⟨by omega, hc, hk, verify_packet_ok cfg s data size h4 hc hk⟩
      · rw [verify_packet_crc cfg s data size h4 hc hk] at h
        simp at h
    · rw [verify_packet_type cfg s data size h4 hc] at h
      simp at h

theorem send_packet_state (cfg : Config) (s : GreeAC) (now : Nat) :
    (s.send_packet_ cfg now).state_ = s.state_ := rfl

/-- Claim C10, as amended: for a driver in `INITIALIZING`, if processing a received
byte leaves the session `READY`, then the reassembler was in `RECEIVE` and the
byte completed a frame (the index reached 3 plus the length byte), the frame
passed `verify_packet_` (at least 4 bytes, command type `CMD_IN_UNIT_REPORT`,
checksum right) and was handed to `handle_packet_`, which ran
`parse_state_packet_` on it; when the frame passes the size guards of the
decoder (more than 9 bytes) the received-frame counter went up by one.
`control`, `send_packet_` and `update` leave such a driver in `INITIALIZING`. -/
theorem C10_ready_after_valid_frame (cfg : Config) (s : GreeAC)
    (hinit : s.state_ = ACState.INITIALIZING) :
    (∀ byte now, (s.read_uart_byte_ cfg byte now).state_ = ACState.READY →
      s.serial_state_ = SerialState.RECEIVE ∧
      s.rx_index_ < cfg.GREE_RX_BUFFER_SIZE ∧
      3 ≤ s.rx_index_ + 1 ∧
      (3 + (s.rx_buffer_.set s.rx_index_ byte).getD 2 0) % 65536 ≤ s.rx_index_ + 1 ∧
      4 ≤ (3 + (s.rx_buffer_.set s.rx_index_ byte).getD 2 0) % 65536 % 256 ∧
      (s.rx_buffer_.set s.rx_index_ byte).getD 3 0 = cfg.CMD_IN_UNIT_REPORT ∧
      (s.rx_buffer_.set s.rx_index_ byte).getD
          ((3 + (s.rx_buffer_.set s.rx_index_ byte).getD 2 0) % 65536 % 256 - 1) 0
        = calculate_checksum_ (s.rx_buffer_.set s.rx_index_ byte)
            ((3 + (s.rx_buffer_.set s.rx_index_ byte).getD 2 0) % 65536 % 256) ∧
      s.read_uart_byte_ cfg byte now =
        { (GreeAC.handle_packet_ cfg
            { s with rx_buffer_ := s.rx_buffer_.set s.rx_index_ byte,
                     rx_index_ := s.rx_index_ + 1,
                     trace_ := s.trace_ ++ [Event.verify ((s.rx_buffer_.set s.rx_index_ byte).take
                       ((3 + (s.rx_buffer_.set s.rx_index_ byte).getD 2 0) % 65536 % 256))] }
            (s.rx_buffer_.set s.rx_index_ byte)
            ((3 + (s.rx_buffer_.set s.rx_index_ byte).getD 2 0) % 65536 % 256)) with
          serial_state_ := SerialState.WAIT_SYNC, rx_index_ := 0,
          last_packet_received_ := now } ∧
      (decodable_size cfg ((3 + (s.rx_buffer_.set s.rx_index_ byte).getD 2 0) % 65536 % 256) →
        (s.read_uart_byte_ cfg byte now).packets_received_ = s.packets_received_ + 1)) ∧
    (∀ call now, (s.control cfg call now).state_ = ACState.INITIALIZING) ∧
    (∀ now, (s.send_packet_ cfg now).state_ = ACState.INITIALIZING) ∧
    (∀ now, (s.update cfg now).state_ = ACState.INITIALIZING) := by
  have hnr : s.state_ ≠ ACState.READY := by
    rw [hinit]
    decide
  refine ⟨?_, ?_, ?_, ?_⟩
  · intro byte now hready
    have hcase : s.serial_state_ = SerialState.WAIT_SYNC ∨
        s.serial_state_ = SerialState.RECEIVE ∨ s.serial_state_ = SerialState.COMPLETE := by
      cases s.serial_state_ <;> simp
    rcases hcase with hss | hss | hss
    · exfalso
      by_cases hb : byte = cfg.GREE_START_BYTE
      · rw [read_byte_wait_sync cfg s byte now hss hb] at hready
        exact hnr hready
      · rw [read_byte_wait_other cfg s byte now hss hb] at hready
        exact hnr hready
    · by_cases hi : s.rx_index_ < cfg.GREE_RX_BUFFER_SIZE
      · by_cases hmore : s.rx_index_ + 1 < 3 ∨
            s.rx_index_ + 1 < (3 + (s.rx_buffer_.set s.rx_index_ byte).getD 2 0) % 65536
        · exfalso
          rw [read_byte_receive_more cfg s byte now hss hi hmore] at hready
          exact hnr hready
        · have h3 : s.rx_index_ + 1 ≥ 3 := by omega
          have hf : s.rx_index_ + 1 ≥
              (3 + (s.rx_buffer_.set s.rx_index_ byte).getD 2 0) % 65536 := by omega
          have e := read_byte_receive_complete cfg s byte now hss hi h3 hf
          dsimp only at e
          cases hv : (GreeAC.verify_packet_ cfg
              { s with rx_buffer_ := s.rx_buffer_.set s.rx_index_ byte,
                       rx_index_ := s.rx_index_ + 1,
                       trace_ := s.trace_ ++ [Event.verify
                        ((s.rx_buffer_.set s.rx_index_ byte).take
                          ((3 + (s.rx_buffer_.set s.rx_index_ byte).getD 2 0) % 65536 % 256))] }
              (s.rx_buffer_.set s.rx_index_ byte)
              ((3 + (s.rx_buffer_.set s.rx_index_ byte).getD 2 0) % 65536 % 256)).1 with
          | false =>
            exfalso
            rw [e, hv] at hready
            simp only [Bool.false_eq_true, if_false] at hready
            rw [verify_packet_state] at hready
            exact hnr hready
          | true =>
            obtain ⟨v4, vc, vk, ve⟩ := verify_packet_true cfg _ _ _ hv
            rw [ve] at e
            simp only [if_true] at e
            refine ⟨hss, hi, h3, hf, v4, vc, vk, e, ?_⟩
            intro hdec
            rw [e]
            exact (parse_state_packet_full_counters cfg _ _ _ hdec vc vk).1
      · exfalso
        rw [read_byte_receive_overflow cfg s byte now hss hi] at hready
        exact hnr hready
    · exfalso
      rw [read_byte_complete_state cfg s byte now hss] at hready
      exact hnr hready
  · intro call now
    rw [control_not_ready cfg s call now hnr]
    exact hinit
  · intro now
    exact hinit
  · intro now
    simp only [GreeAC.update, hnr, if_false]
    exact hinit


/-- Witness of C10: the last byte of a report frame of 14 bytes takes the driver
from `INITIALIZING` to `READY` and raises the received-frame counter. -/
theorem C10_ready_after_valid_frame_witness :
    ((sample_driver.read_uart_data_ sample_config (stamp (sample_frame.take 13))).read_uart_byte_
        sample_config 0x91 20).packets_received_
      = (sample_driver.read_uart_data_ sample_config (stamp (sample_frame.take 13))).packets_received_
        + 1 :=
  ((C10_ready_after_valid_frame sample_config
      (sample_driver.read_uart_data_ sample_config (stamp (sample_frame.take 13)))
      (by decide)).1 0x91 20 (by decide)).2.2.2.2.2.2.2.2 (by decide)

/-- Counterexample to C10 as stated: the frame `7E 7E 02 31 33` has 5 bytes, the
right command type and the right checksum.  Its last byte takes the driver from
`INITIALIZING` to `READY`, but `parse_state_packet_` returns at its guard
`size <= TEMPERATURE_BYTE`: the received-frame counter, the outgoing buffer and
the canonical state are what they were. -/
theorem C10_counterexample :
    (sample_driver.read_uart_data_ sample_config (stamp [0x7E, 0x7E, 2, 0x31])).state_
      = ACState.INITIALIZING ∧
    ((sample_driver.read_uart_data_ sample_config (stamp [0x7E, 0x7E, 2, 0x31])).read_uart_byte_
        sample_config 0x33 20).state_ = ACState.READY ∧
    ((sample_driver.read_uart_data_ sample_config (stamp [0x7E, 0x7E, 2, 0x31])).read_uart_byte_
        sample_config 0x33 20).packets_received_
      = (sample_driver.read_uart_data_ sample_config
          (stamp [0x7E, 0x7E, 2, 0x31])).packets_received_ ∧
    ((sample_driver.read_uart_data_ sample_config (stamp [0x7E, 0x7E, 2, 0x31])).read_uart_byte_
        sample_config 0x33 20).tx_buffer_ = sample_driver.tx_buffer_ ∧
    ((sample_driver.read_uart_data_ sample_config (stamp [0x7E, 0x7E, 2, 0x31])).read_uart_byte_
        sample_config 0x33 20).mode = sample_driver.mode ∧
    ((sample_driver.read_uart_data_ sample_config (stamp [0x7E, 0x7E, 2, 0x31])).read_uart_byte_
        sample_config 0x33 20).fan_mode = sample_driver.fan_mode ∧
    ((sample_driver.read_uart_data_ sample_config (stamp [0x7E, 0x7E, 2, 0x31])).read_uart_byte_
        sample_config 0x33 20).target_temperature = sample_driver.target_temperature ∧
    ((sample_driver.read_uart_data_ sample_config (stamp [0x7E, 0x7E, 2, 0x31])).read_uart_byte_
        sample_config 0x33 20).preset = sample_driver.preset ∧
    ((sample_driver.read_uart_data_ sample_config (stamp [0x7E, 0x7E, 2, 0x31])).read_uart_byte_
        sample_config 0x33 20).swing_mode = sample_driver.swing_mode := by
  decide

/-! ## Session: the way back to INITIALIZING -/

theorem read_uart_byte_last (cfg : Config) (s : GreeAC) (byte now : Nat) :
    (s.read_uart_byte_ cfg byte now).last_packet_received_ = now := rfl

theorem handle_packet_state (cfg : Config) (s : GreeAC) (data : List Nat) (size : Nat) :
    (s.handle_packet_ cfg data size).state_ = ACState.READY := rfl

/-- Processing a byte never takes the session out of `READY`. -/
theorem read_uart_byte_keeps_ready (cfg : Config) (s : GreeAC) (byte now : Nat)
    (h : s.state_ = ACState.READY) :
    (s.read_uart_byte_ cfg byte now).state_ = ACState.READY := by
  have hcase : s.serial_state_ = SerialState.WAIT_SYNC ∨
      s.serial_state_ = SerialState.RECEIVE ∨ s.serial_state_ = SerialState.COMPLETE := by
    cases s.serial_state_ <;> simp
  rcases hcase with hss | hss | hss
  · by_cases hb : byte = cfg.GREE_START_BYTE
    · rw [read_byte_wait_sync cfg s byte now hss hb]
      exact h
    · rw [read_byte_wait_other cfg s byte now hss hb]
      exact h
  · by_cases hi : s.rx_index_ < cfg.GREE_RX_BUFFER_SIZE
    · by_cases hmore : s.rx_index_ + 1 < 3 ∨
          s.rx_index_ + 1 < (3 + (s.rx_buffer_.set s.rx_index_ byte).getD 2 0) % 65536
      · rw [read_byte_receive_more cfg s byte now hss hi hmore]
        exact h
      · rw [read_byte_receive_complete cfg s byte now hss hi (by omega) (by omega)]
        dsimp only
        split_ifs
        · rfl
        · rw [verify_packet_state]
          exact h
    · rw [read_byte_receive_overflow cfg s byte now hss hi]
      exact h
  · rw [read_byte_complete_state cfg s byte now hss]
    exact h

theorem read_uart_data_keeps_ready (cfg : Config) (input : List RxByte) (s : GreeAC)
    (h : s.state_ = ACState.READY) :
    (s.read_uart_data_ cfg input).state_ = ACState.READY := by
  induction input generalizing s with
  | nil => exact h
  | cons x xs ih =>
    rw [read_uart_data_cons]
    exact ih _ (read_uart_byte_keeps_ready cfg s x.byte x.millis h)

/-- After a call of `read_uart_data_` that read bytes, `last_packet_received_` is the time
of the last of them. -/
theorem read_uart_data_last (cfg : Config) (input : List RxByte) (s : GreeAC)
    (h : input ≠ []) :
    (s.read_uart_data_ cfg input).last_packet_received_ = (input.getLast h).millis := by
  have e : input = input.dropLast ++ [input.getLast h] :=
    (List.dropLast_append_getLast h).symm
  have e2 : s.read_uart_data_ cfg input
      = ((s.read_uart_data_ cfg input.dropLast).read_uart_byte_ cfg (input.getLast h).byte
          (input.getLast h).millis) := by
    conv_lhs => rw [e]
    rw [read_uart_data_append]
    rfl
  rw [e2]
  rfl

theorem control_keeps_ready (cfg : Config) (s : GreeAC) (call : ClimateCall) (now : Nat)
    (h : s.state_ = ACState.READY) : (s.control cfg call now).state_ = ACState.READY := by
  rw [control_ready cfg s call now h]
  exact h

/-- Claim C11: in a `loop` tick with the time `now`, a driver that is `READY` after the
bytes of the tick are processed ends the tick in `INITIALIZING` exactly when
`now - last_packet_received_`, subtracted as 32-bit unsigned numbers, is at least
`PACKET_TIMEOUT_MS`; `mark_failed` is then called.  `last_packet_received_` is the
time of the last byte read.  `control`, `send_packet_`, `update` and
`read_uart_data_` leave a driver that is `READY` in `READY`. -/
theorem C11_timeout (cfg : Config) (s : GreeAC) (input : List RxByte) (now sent : Nat)
    (hready : (s.read_uart_data_ cfg input).state_ = ACState.READY) :
    ((s.loop cfg input now sent).state_ = ACState.INITIALIZING ↔
      cfg.PACKET_TIMEOUT_MS ≤ u32_sub now (s.read_uart_data_ cfg input).last_packet_received_) ∧
    ((s.loop cfg input now sent).state_ = ACState.INITIALIZING →
      (s.loop cfg input now sent).failed_ = true ∧
      (s.loop cfg input now sent).trace_
        = (s.read_uart_data_ cfg input).trace_ ++ [Event.mark_failed]) ∧
    (∀ h : input ≠ [],
      (s.read_uart_data_ cfg input).last_packet_received_ = (input.getLast h).millis) ∧
    (input = [] →
      (s.read_uart_data_ cfg input).last_packet_received_ = s.last_packet_received_) ∧
    (∀ r : GreeAC, r.state_ = ACState.READY →
      (∀ call t, (r.control cfg call t).state_ = ACState.READY) ∧
      (∀ t, (r.send_packet_ cfg t).state_ = ACState.READY) ∧
      (∀ t, (r.update cfg t).state_ = ACState.READY) ∧
      (∀ inp, (r.read_uart_data_ cfg inp).state_ = ACState.READY)) := by
  have hni : ¬ (s.read_uart_data_ cfg input).state_ = ACState.INITIALIZING := by
    rw [hready]
    decide
  have hloop : s.loop cfg input now sent =
      if u32_sub now (s.read_uart_data_ cfg input).last_packet_received_
          ≥ cfg.PACKET_TIMEOUT_MS then
        { (s.read_uart_data_ cfg input) with
          state_ := ACState.INITIALIZING, failed_ := true,
          trace_ := (s.read_uart_data_ cfg input).trace_ ++ [Event.mark_failed] }
      else s.read_uart_data_ cfg input := by
    simp only [GreeAC.loop, if_neg hni, if_pos hready]
  refine ⟨?_, ?_, fun h => read_uart_data_last cfg input s h, ?_, ?_⟩
  · rw [hloop]
    split_ifs with ht
    · exact ⟨fun _ => ht, fun _ => rfl⟩
    · exact ⟨fun h => absurd h hni, fun h => absurd h ht⟩
  · rw [hloop]
    split_ifs with ht
    · exact fun _ => ⟨rfl, rfl⟩
    · exact fun h => absurd h hni
  · intro h
    subst h
    rfl
  · intro r hr
    refine ⟨fun call t => control_keeps_ready cfg r call t hr, fun t => hr, fun t => ?_,
      fun inp => read_uart_data_keeps_ready cfg inp r hr⟩
    simp only [GreeAC.update, hr, if_true]
    exact hr

/-- Witness of C11: no byte for 20000 ms with a timeout of 10000 ms. -/
theorem C11_timeout_witness :
    (sample_ready.loop sample_config [] 20000 20000).state_ = ACState.INITIALIZING :=
  (C11_timeout sample_config sample_ready [] 20000 20000 (by decide)).1.mpr (by decide)

/-! ## Decoder: the driver after a decoded frame -/

theorem GreeAC.eq_of_fields (a b : GreeAC)
    (hl : a.same_link b) (hc : a.same_counters b)
    (h1 : b.tx_buffer_ = a.tx_buffer_) (h2 : b.mode = a.mode) (h3 : b.fan_mode = a.fan_mode)
    (h4 : b.target_temperature = a.target_temperature)
    (h5 : b.current_temperature = a.current_temperature)
    (h6 : b.preset = a.preset) (h7 : b.swing_mode = a.swing_mode) : a = b := by
  obtain ⟨l1, l2, l3, l4, l5, l6, l7, l8, l9, l10, l11⟩ := hl
  obtain ⟨c1, c2, c3⟩ := hc
  cases a
  cases b
  simp only at l1 l2 l3 l4 l5 l6 l7 l8 l9 l10 l11 c1 c2 c3 h1 h2 h3 h4 h5 h6 h7
  subst l1 l2 l3 l4 l5 l6 l7 l8 l9 l10 l11 c1 c2 c3 h1 h2 h3 h4 h5 h6 h7
  rfl

theorem parse_target_temperature_target (cfg : Config) (s : GreeAC) (data : List Nat) :
    (s.parse_target_temperature cfg data).target_temperature
      = decoded_target cfg data s.target_temperature := by
  unfold GreeAC.parse_target_temperature decoded_target
  dsimp only
  split_ifs <;> rfl

theorem parse_current_temperature_current (s : GreeAC) (data : List Nat) (size : Nat) :
    (s.parse_current_temperature data size).current_temperature
      = decoded_current data size s.current_temperature := by
  unfold GreeAC.parse_current_temperature decoded_current
  dsimp only
  split_ifs <;> rfl

theorem parse_mode_mode (cfg : Config) (s : GreeAC) (b : Nat) :
    (s.parse_mode cfg b).mode = decoded_mode cfg b s.mode := by
  unfold GreeAC.parse_mode decoded_mode
  dsimp only
  split_ifs <;> rfl

theorem parse_fan_fan (cfg : Config) (s : GreeAC) (b : Nat) :
    (s.parse_fan cfg b).fan_mode = decoded_fan cfg b s.fan_mode := by
  unfold GreeAC.parse_fan decoded_fan
  dsimp only
  split_ifs <;> rfl

theorem parse_preset_preset (cfg : Config) (s : GreeAC) (data : List Nat) (size : Nat) :
    (s.parse_preset cfg data size).preset = decoded_preset cfg data size := by
  unfold GreeAC.parse_preset decoded_preset
  dsimp only
  split_ifs <;> rfl

theorem parse_swing_swing (cfg : Config) (s : GreeAC) (data : List Nat) (size : Nat) :
    (s.parse_swing cfg data size).swing_mode = decoded_swing cfg data size s.swing_mode := by
  unfold GreeAC.parse_swing decoded_swing
  dsimp only
  split_ifs <;> rfl

theorem parse_swing_tx (cfg : Config) (s : GreeAC) (data : List Nat) (size : Nat) :
    (s.parse_swing cfg data size).tx_buffer_
      = if size > SWING_BYTE then s.tx_buffer_.set SWING_BYTE (data.getD SWING_BYTE 0)
        else s.tx_buffer_ := by
  unfold GreeAC.parse_swing
  dsimp only
  split_ifs <;> rfl

/-- The driver after `parse_state_packet_` has decoded a frame, member by member. -/
theorem parse_state_packet_decoded (cfg : Config) (s : GreeAC) (data : List Nat) (size : Nat)
    (hsize : decodable_size cfg size) (hcmd : data.getD 3 0 = cfg.CMD_IN_UNIT_REPORT)
    (hcrc : data.getD (size - 1) 0 = calculate_checksum_ data size) :
    s.parse_state_packet_ cfg data size =
      { s with
        tx_buffer_ := decoded_tx data size s.tx_buffer_,
        packets_received_ := s.packets_received_ + 1,
        mode := decoded_mode cfg (data.getD MODE_BYTE 0) s.mode,
        fan_mode := decoded_fan cfg (data.getD MODE_BYTE 0) s.fan_mode,
        target_temperature := decoded_target cfg data s.target_temperature,
        current_temperature := decoded_current data size s.current_temperature,
        preset := decoded_preset cfg data size,
        swing_mode := decoded_swing cfg data size s.swing_mode } := by
  symm
  obtain ⟨k1, k2, k3⟩ := parse_state_packet_full_counters cfg s data size hsize hcmd hcrc
  have hlink := parse_state_packet_link cfg s data size
  obtain ⟨l1, l2, l3, l4, l5, l6, l7, l8, l9, l10, l11⟩ := hlink
  apply GreeAC.eq_of_fields
  · exact ⟨l1, l2, l3, l4, l5, l6, l7, l8, l9, l10, l11⟩
  · exact ⟨k2, k3, k1⟩
  all_goals rw [parse_state_packet_full cfg s data size hsize hcmd hcrc]
  all_goals dsimp only
  · rw [parse_swing_tx, (parse_preset_others cfg _ data size).2.2.2.2.2,
      (parse_fan_others cfg _ _).2.2.2.2.2, (parse_mode_others cfg _ _).2.2.2.2.2]
    dsimp only
    rw [(parse_current_temperature_others _ data size).2.2.2.2.2,
      (parse_target_temperature_others cfg s data).2.2.2.2.2]
    unfold decoded_tx
    rfl
  · rw [(parse_swing_others cfg _ data size).1, (parse_preset_others cfg _ data size).1,
      (parse_fan_others cfg _ _).1, parse_mode_mode]
    dsimp only
    rw [(parse_current_temperature_others _ data size).1,
      (parse_target_temperature_others cfg s data).1]
  · rw [(parse_swing_others cfg _ data size).2.1, (parse_preset_others cfg _ data size).2.1,
      parse_fan_fan, (parse_mode_others cfg _ _).1]
    dsimp only
    rw [(parse_current_temperature_others _ data size).2.1,
      (parse_target_temperature_others cfg s data).2.1]
  · rw [(parse_swing_others cfg _ data size).2.2.1, (parse_preset_others cfg _ data size).2.2.1,
      (parse_fan_others cfg _ _).2.1, (parse_mode_others cfg _ _).2.1]
    dsimp only
    rw [(parse_current_temperature_others _ data size).2.2.1, parse_target_temperature_target]
  · rw [(parse_swing_others cfg _ data size).2.2.2.1,
      (parse_preset_others cfg _ data size).2.2.2.1,
      (parse_fan_others cfg _ _).2.2.1, (parse_mode_others cfg _ _).2.2.1]
    dsimp only
    rw [parse_current_temperature_current,
      (parse_target_temperature_others cfg s data).2.2.1]
  · rw [(parse_swing_others cfg _ data size).2.2.2.2, parse_preset_preset]
  · rw [parse_swing_swing, (parse_preset_others cfg _ data size).2.2.2.2.1,
      (parse_fan_others cfg _ _).2.2.2.2.1, (parse_mode_others cfg _ _).2.2.2.2.1]
    dsimp only
    rw [(parse_current_temperature_others _ data size).2.2.2.2.1,
      (parse_target_temperature_others cfg s data).2.2.2.2.1]

/-- A validated frame that does not pass the size guards of the decoder leaves the
driver as it is. -/
theorem parse_state_packet_not_decoded (cfg : Config) (s : GreeAC) (data : List Nat)
    (size : Nat) (h4 : 4 ≤ size) (hsize : ¬ decodable_size cfg size)
    (hcmd : data.getD 3 0 = cfg.CMD_IN_UNIT_REPORT)
    (hcrc : data.getD (size - 1) 0 = calculate_checksum_ data size) :
    s.parse_state_packet_ cfg data size = s := by
  unfold GreeAC.parse_state_packet_
  dsimp only
  by_cases g1 : size < (cfg.HEADER_SIZE + 1) % 256 + 1
  · rw [if_pos g1]
  · have g3 : ¬ (size ≤ 3 ∨ data.getD 3 0 ≠ cfg.CMD_IN_UNIT_REPORT) := by
      intro h
      rcases h with h | h
      · omega
      · exact h hcmd
    have g9 : size ≤ TEMPERATURE_BYTE := by
      by_contra h9
      exact hsize ⟨by omega, by omega⟩
    have gc : ¬ (data.getD (size - 1) 0 ≠ calculate_checksum_ data size) := fun h => h hcrc
    rw [if_neg g1, if_neg gc, if_neg g3, if_pos g9]

theorem decoded_tx_idem (data : List Nat) (size : Nat) (tx : List Nat) :
    decoded_tx data size (decoded_tx data size tx) = decoded_tx data size tx := by
  unfold decoded_tx
  split_ifs
  · apply List.ext_getElem?
    intro i
    simp only [List.getElem?_set, List.length_set]
    split_ifs <;> simp_all
  · apply List.ext_getElem?
    intro i
    simp only [List.getElem?_set, List.length_set]
    split_ifs <;> simp_all

theorem decoded_target_idem (cfg : Config) (data : List Nat) (old : FloatVal) :
    decoded_target cfg data (decoded_target cfg data old) = decoded_target cfg data old := by
  unfold decoded_target
  split_ifs <;> rfl

theorem decoded_current_idem (data : List Nat) (size : Nat) (old : FloatVal) :
    decoded_current data size (decoded_current data size old)
      = decoded_current data size old := by
  unfold decoded_current
  split_ifs <;> rfl

theorem decoded_mode_idem (cfg : Config) (b old : Nat) :
    decoded_mode cfg b (decoded_mode cfg b old) = decoded_mode cfg b old := by
  unfold decoded_mode
  split_ifs <;> rfl

theorem decoded_fan_idem (cfg : Config) (b : Nat) (old : Option ClimateFanMode) :
    decoded_fan cfg b (decoded_fan cfg b old) = decoded_fan cfg b old := by
  unfold decoded_fan
  split_ifs <;> rfl

theorem decoded_swing_idem (cfg : Config) (data : List Nat) (size : Nat)
    (old : ClimateSwingMode) :
    decoded_swing cfg data size (decoded_swing cfg data size old)
      = decoded_swing cfg data size old := by
  unfold decoded_swing
  split_ifs <;> rfl

/-- Claim C12: idempotence of the decoder.  For a frame that `verify_packet_` accepts,
decoding it a second time leaves the canonical device state and the outgoing
buffer as the first decoding left them, and neither decoding moves the
checksum-error counter or the invalid-frame counter. -/
theorem C12_decode_idempotent (cfg : Config) (s : GreeAC) (data : List Nat) (size : Nat)
    (hv : (s.verify_packet_ cfg data size).1 = true) :
    ((s.parse_state_packet_ cfg data size).parse_state_packet_ cfg data size).mode
      = (s.parse_state_packet_ cfg data size).mode ∧
    ((s.parse_state_packet_ cfg data size).parse_state_packet_ cfg data size).fan_mode
      = (s.parse_state_packet_ cfg data size).fan_mode ∧
    ((s.parse_state_packet_ cfg data size).parse_state_packet_ cfg data size).target_temperature
      = (s.parse_state_packet_ cfg data size).target_temperature ∧
    ((s.parse_state_packet_ cfg data size).parse_state_packet_ cfg data size).current_temperature
      = (s.parse_state_packet_ cfg data size).current_temperature ∧
    ((s.parse_state_packet_ cfg data size).parse_state_packet_ cfg data size).preset
      = (s.parse_state_packet_ cfg data size).preset ∧
    ((s.parse_state_packet_ cfg data size).parse_state_packet_ cfg data size).swing_mode
      = (s.parse_state_packet_ cfg data size).swing_mode ∧
    ((s.parse_state_packet_ cfg data size).parse_state_packet_ cfg data size).tx_buffer_
      = (s.parse_state_packet_ cfg data size).tx_buffer_ ∧
    (s.parse_state_packet_ cfg data size).checksum_errors_ = s.checksum_errors_ ∧
    (s.parse_state_packet_ cfg data size).invalid_packet_errors_ = s.invalid_packet_errors_ ∧
    ((s.parse_state_packet_ cfg data size).parse_state_packet_ cfg data size).checksum_errors_
      = s.checksum_errors_ ∧
    ((s.parse_state_packet_ cfg data size).parse_state_packet_ cfg data
      size).invalid_packet_errors_ = s.invalid_packet_errors_ := by
  obtain ⟨h4, hcmd, hcrc, _⟩ := verify_packet_true cfg s data size hv
  by_cases hsize : decodable_size cfg size
  · rw [parse_state_packet_decoded cfg s data size hsize hcmd hcrc,
      parse_state_packet_decoded cfg _ data size hsize hcmd hcrc]
    dsimp only
    exact ⟨decoded_mode_idem _ _ _, decoded_fan_idem _ _ _, decoded_target_idem _ _ _,
      decoded_current_idem _ _ _, rfl, decoded_swing_idem _ _ _ _, decoded_tx_idem _ _ _,
      rfl, rfl, rfl, rfl⟩
  · rw [parse_state_packet_not_decoded cfg s data size h4 hsize hcmd hcrc,
      parse_state_packet_not_decoded cfg s data size h4 hsize hcmd hcrc]
    exact ⟨rfl, rfl, rfl, rfl, rfl, rfl, rfl, rfl, rfl, rfl, rfl⟩

/-- Witness of C12: the frame `sample_frame` of 14 bytes. -/
theorem C12_decode_idempotent_witness :
    ((sample_driver.parse_state_packet_ sample_config sample_frame 14).parse_state_packet_
        sample_config sample_frame 14).tx_buffer_
      = (sample_driver.parse_state_packet_ sample_config sample_frame 14).tx_buffer_ :=
  (C12_decode_idempotent sample_config sample_driver sample_frame 14
    (by decide)).2.2.2.2.2.2.1

/-! ## Frame reassembler: a frame longer than the buffer -/

/-- In `RECEIVE`, with the first bytes of a stream `S` in the buffer and a length byte
that announces more than the buffer holds, the following bytes of `S` are
appended as long as the buffer has room; no frame completes. -/
theorem recv_oversize (cfg : Config) (S : List Nat)
    (hL : cfg.GREE_RX_BUFFER_SIZE < 3 + S.getD 2 0) (hLb : S.getD 2 0 < 256)
    (input : List RxByte) (s : GreeAC) (rest : List Nat)
    (hs : s.serial_state_ = SerialState.RECEIVE)
    (hbuf : s.rx_buffer_.length = cfg.GREE_RX_BUFFER_SIZE)
    (htake : s.rx_buffer_.take s.rx_index_ = S.take s.rx_index_)
    (hdrop : S.drop s.rx_index_ = input.map (fun b => b.byte) ++ rest)
    (hfit : s.rx_index_ + input.length ≤ cfg.GREE_RX_BUFFER_SIZE) :
    ∃ buf t, buf.length = s.rx_buffer_.length ∧
      buf.take (s.rx_index_ + input.length) = S.take (s.rx_index_ + input.length) ∧
      s.read_uart_data_ cfg input
        = { s with rx_buffer_ := buf, rx_index_ := s.rx_index_ + input.length,
                   last_packet_received_ := t } := by
  induction input generalizing s with
  | nil => exact ⟨s.rx_buffer_, s.last_packet_received_, rfl, htake, rfl⟩
  | cons x xs ih =>
    simp only [List.map_cons, List.cons_append] at hdrop
    simp only [List.length_cons] at hfit
    obtain ⟨_, hdrop', htake'⟩ := drop_cons_info S s.rx_index_ x.byte _ hdrop
    have hset : (s.rx_buffer_.set s.rx_index_ x.byte).take (s.rx_index_ + 1)
        = S.take (s.rx_index_ + 1) := by
      rw [htake']
      exact take_set_succ s.rx_buffer_ _ s.rx_index_ x.byte (by omega) htake
    have hmore : s.rx_index_ + 1 < 3 ∨
        s.rx_index_ + 1 < (3 + (s.rx_buffer_.set s.rx_index_ x.byte).getD 2 0) % 65536 := by
      by_cases h3 : s.rx_index_ + 1 < 3
      · exact Or.inl h3
      · right
        rw [getD_of_take_eq _ S (s.rx_index_ + 1) 2 hset (by omega)]
        omega
    rw [read_uart_data_cons,
      read_byte_receive_more cfg s x.byte x.millis hs (by omega) hmore]
    obtain ⟨buf, t, h1, h2, h3⟩ :=
      ih { s with rx_buffer_ := s.rx_buffer_.set s.rx_index_ x.byte,
                  rx_index_ := s.rx_index_ + 1, last_packet_received_ := x.millis }
        hs (by simpa using hbuf) hset hdrop' (by simp only; omega)
    have e : s.rx_index_ + 1 + xs.length = s.rx_index_ + (x :: xs).length := by
      simp only [List.length_cons]
      omega
    refine ⟨buf, t, by simpa using h1, ?_, ?_⟩
    · rw [← e]
      exact h2
    · rw [h3, ← e]

/-- A stream of `GREE_RX_BUFFER_SIZE + 1` bytes that starts with the sync byte and
announces more than the buffer holds ends with the reassembler reset and
nothing else changed but the receive buffer and the time of the last byte. -/
theorem recv_overflow (cfg : Config) (s : GreeAC) (stream : List RxByte)
    (hcap : 0 < cfg.GREE_RX_BUFFER_SIZE)
    (hbuf : s.rx_buffer_.length = cfg.GREE_RX_BUFFER_SIZE)
    (hs : s.serial_state_ = SerialState.WAIT_SYNC)
    (hstart : (stream.map (fun b => b.byte)).getD 0 0 = cfg.GREE_START_BYTE)
    (hlen : cfg.GREE_RX_BUFFER_SIZE < 3 + (stream.map (fun b => b.byte)).getD 2 0)
    (hbyte : (stream.map (fun b => b.byte)).getD 2 0 < 256)
    (hcount : stream.length = cfg.GREE_RX_BUFFER_SIZE + 1) :
    ∃ buf t, buf.length = s.rx_buffer_.length ∧
      s.read_uart_data_ cfg stream
        = { s with rx_buffer_ := buf, rx_index_ := 0, last_packet_received_ := t } := by
  obtain ⟨x0, xs, rfl⟩ : ∃ x0 xs, stream = x0 :: xs := by
    cases stream with
    | nil => simp at hcount
    | cons a b => exact ⟨a, b, rfl⟩
  have hxs : xs ≠ [] := by
    intro h
    subst h
    simp at hcount
    omega
  obtain ⟨mid, xl, rfl⟩ : ∃ mid xl, xs = mid ++ [xl] :=
    ⟨xs.dropLast, xs.getLast hxs, (List.dropLast_append_getLast hxs).symm⟩
  simp only [List.length_cons, List.length_append, List.length_nil] at hcount
  have hx0 : x0.byte = cfg.GREE_START_BYTE := by
    rw [← hstart]
    rfl
  have hS0 : (List.map (fun b => b.byte) (x0 :: (mid ++ [xl]))).drop 0
      = x0.byte :: (mid.map (fun b => b.byte) ++ [xl.byte]) := by
    simp
  obtain ⟨_, hdrop1, htake1⟩ := drop_cons_info _ 0 x0.byte _ hS0
  rw [read_uart_data_cons, read_byte_wait_sync cfg s x0.byte x0.millis hs hx0,
    read_uart_data_append]
  obtain ⟨buf1, t1, hb1, _, hrun⟩ := recv_oversize cfg _ hlen hbyte mid
    { s with rx_buffer_ := s.rx_buffer_.set 0 x0.byte, rx_index_ := 1,
             serial_state_ := SerialState.RECEIVE, last_packet_received_ := x0.millis }
    [xl.byte] rfl (by simpa using hbuf)
    (by
      have := take_set_succ s.rx_buffer_ [] 0 x0.byte (by omega) rfl
      simpa [htake1] using this)
    hdrop1 (by simp only; omega)
  rw [hrun, read_uart_data_cons]
  have hnil : ∀ z : GreeAC, z.read_uart_data_ cfg [] = z := fun _ => rfl
  rw [hnil, read_byte_receive_overflow cfg _ xl.byte xl.millis rfl (by simp only; omega)]
  refine ⟨buf1, xl.millis, by simpa using hb1, ?_⟩
  rw [← hs]

/-- From `WAIT_SYNC`, the bytes of a valid report frame end with one more call of
`handle_packet_`, on the frame, and the reassembler in `WAIT_SYNC`. -/
theorem recv_valid_frame (cfg : Config) (F : List Nat) (hrx : cfg.GREE_RX_BUFFER_SIZE ≤ 255)
    (hF : valid_report_frame cfg F) (input : List RxByte) (s : GreeAC)
    (hs : s.serial_state_ = SerialState.WAIT_SYNC)
    (hbuf : s.rx_buffer_.length = cfg.GREE_RX_BUFFER_SIZE)
    (hin : input.map (fun b => b.byte) = F) :
    handled (s.read_uart_data_ cfg input).trace_ = handled s.trace_ ++ [F] ∧
    (s.read_uart_data_ cfg input).serial_state_ = SerialState.WAIT_SYNC ∧
    (s.read_uart_data_ cfg input).state_ = ACState.READY := by
  obtain ⟨hstart, hlen, hcap, h4, hcmd, hcrc⟩ := hF
  obtain ⟨buf, t0, t, _, hbt, e2⟩ := recv_frame cfg F hrx hstart hlen hcap input s hs hbuf hin
  rw [e2, verify_packet_ok cfg _ F F.length (by omega) hcmd hcrc]
  simp only [if_true, handle_packet_trace, hbt]
  refine ⟨?_, trivial, rfl⟩
  simp [handled, List.filterMap_append]

/-- Claim C13: from `WAIT_SYNC`, a stream that starts with a sync byte and whose length
byte announces a frame of more than `GREE_RX_BUFFER_SIZE` bytes: when one byte
more than the capacity has been fed the reassembler is in `WAIT_SYNC` with index
0, no call of `verify_packet_` or `handle_packet_` has been made, both error
counters are as they were, a sync byte fed next moves the reassembler to
`RECEIVE` with index 1, and a valid frame fed next is completed and handled. -/
theorem C13_overflow_resync (cfg : Config) (s : GreeAC) (stream : List RxByte)
    (hcap : 0 < cfg.GREE_RX_BUFFER_SIZE) (hrx : cfg.GREE_RX_BUFFER_SIZE ≤ 255)
    (hbuf : s.rx_buffer_.length = cfg.GREE_RX_BUFFER_SIZE)
    (hs : s.serial_state_ = SerialState.WAIT_SYNC)
    (hstart : (stream.map (fun b => b.byte)).getD 0 0 = cfg.GREE_START_BYTE)
    (hlen : cfg.GREE_RX_BUFFER_SIZE < 3 + (stream.map (fun b => b.byte)).getD 2 0)
    (hbyte : (stream.map (fun b => b.byte)).getD 2 0 < 256)
    (hcount : stream.length = cfg.GREE_RX_BUFFER_SIZE + 1) :
    (s.read_uart_data_ cfg stream).serial_state_ = SerialState.WAIT_SYNC ∧
    (s.read_uart_data_ cfg stream).rx_index_ = 0 ∧
    (s.read_uart_data_ cfg stream).trace_ = s.trace_ ∧
    (s.read_uart_data_ cfg stream).checksum_errors_ = s.checksum_errors_ ∧
    (s.read_uart_data_ cfg stream).invalid_packet_errors_ = s.invalid_packet_errors_ ∧
    (∀ now,
      ((s.read_uart_data_ cfg stream).read_uart_byte_ cfg cfg.GREE_START_BYTE now).serial_state_
        = SerialState.RECEIVE ∧
      ((s.read_uart_data_ cfg stream).read_uart_byte_ cfg cfg.GREE_START_BYTE now).rx_index_
        = 1) ∧
    (∀ (F : List Nat) (input : List RxByte), valid_report_frame cfg F →
      input.map (fun b => b.byte) = F →
      handled ((s.read_uart_data_ cfg stream).read_uart_data_ cfg input).trace_
        = handled s.trace_ ++ [F]) := by
  obtain ⟨buf, t, hb, e⟩ := recv_overflow cfg s stream hcap hbuf hs hstart hlen hbyte hcount
  rw [e]
  refine ⟨hs, rfl, rfl, rfl, rfl, ?_, ?_⟩
  · intro now
    rw [read_byte_wait_sync cfg
      { s with rx_buffer_ := buf, rx_index_ := 0, last_packet_received_ := t }
      cfg.GREE_START_BYTE now hs rfl]
    exact ⟨rfl, rfl⟩
  · intro F input hF hin
    exact (recv_valid_frame cfg F hrx hF input
      { s with rx_buffer_ := buf, rx_index_ := 0, last_packet_received_ := t }
      hs (hb.trans hbuf) hin).1

/-- Witness of C13: 53 bytes, `7E 7E C8` and fifty zero bytes, into a buffer of 52
bytes. -/
theorem C13_overflow_resync_witness :
    (sample_driver.read_uart_data_ sample_config
        (stamp ([0x7E, 0x7E, 200] ++ List.replicate 50 0))).serial_state_
      = SerialState.WAIT_SYNC ∧
    (sample_driver.read_uart_data_ sample_config
        (stamp ([0x7E, 0x7E, 200] ++ List.replicate 50 0))).rx_index_ = 0 :=
  ⟨(C13_overflow_resync sample_config sample_driver
      (stamp ([0x7E, 0x7E, 200] ++ List.replicate 50 0))
      (by decide) (by decide) (by decide) (by decide) (by decide) (by decide) (by decide)
      (by decide)).1,
   (C13_overflow_resync sample_config sample_driver
      (stamp ([0x7E, 0x7E, 200] ++ List.replicate 50 0))
      (by decide) (by decide) (by decide) (by decide) (by decide) (by decide) (by decide)
      (by decide)).2.1⟩

/-! ## Outgoing frames -/

theorem calculate_checksum_congr_body (l F : List Nat) (size : Nat)
    (h : ∀ i, i < size - 1 → l.getD i 0 = F.getD i 0) :
    calculate_checksum_ l size = calculate_checksum_ F size := by
  by_cases h3 : size < 3
  · simp [calculate_checksum_, h3]
  · rw [calculate_checksum_eq l size (by omega), calculate_checksum_eq F size (by omega)]
    rw [byte_sum_congr l F]
    intro i h1 h2
    apply h
    omega

/-- The frame cut from a buffer after the checksum has been written at its last index:
it has `n` bytes, its last byte is the checksum of the buffer, and that is also
the checksum of the frame. -/
theorem checksummed_frame (b : List Nat) (n : Nat) (h0 : 0 < n) (hn : n ≤ b.length) :
    ((b.set (n - 1) (calculate_checksum_ b n)).take n).length = n ∧
    ((b.set (n - 1) (calculate_checksum_ b n)).take n).getD (n - 1) 0
      = calculate_checksum_ ((b.set (n - 1) (calculate_checksum_ b n)).take n) n := by
  have hc : calculate_checksum_ ((b.set (n - 1) (calculate_checksum_ b n)).take n) n
      = calculate_checksum_ b n := by
    apply calculate_checksum_congr_body
    intro i hi
    rw [getD_take _ i n (by omega), getD_set_ne _ _ _ _ (by omega)]
  refine ⟨?_, ?_⟩
  · rw [List.length_take, List.length_set]
    omega
  · rw [hc, getD_take _ (n - 1) n (by omega), getD_set_eq _ _ _ (by omega)]

theorem tx_frame_size_min (cfg : Config) (tx : List Nat)
    (hcap : cfg.GREE_TX_BUFFER_SIZE ≤ 256) (hbyte : tx.getD 2 0 < 256) :
    tx_frame_size cfg tx = min (3 + tx.getD 2 0) cfg.GREE_TX_BUFFER_SIZE := by
  unfold tx_frame_size
  dsimp only
  split_ifs with h <;> omega

theorem calculate_checksum_sum (frame : List Nat) (n : Nat) (hn : n ≤ 256) :
    calculate_checksum_ frame n = byte_sum frame 2 (n - 3) % 256 := by
  by_cases h3 : n < 3
  · have e : n - 3 = 0 := by omega
    simp [calculate_checksum_, h3, e, byte_sum]
  · rw [calculate_checksum_eq frame n (by omega)]
    have e : (n - 1) % 256 - 2 = n - 3 := by omega
    rw [e]

theorem send_packet_trace (cfg : Config) (s : GreeAC) (now : Nat) :
    (s.send_packet_ cfg now).trace_
      = s.trace_ ++ [Event.write ((s.tx_buffer_.set (tx_frame_size cfg s.tx_buffer_ - 1)
          (calculate_checksum_ s.tx_buffer_ (tx_frame_size cfg s.tx_buffer_))).take
            (tx_frame_size cfg s.tx_buffer_))] := rfl

theorem control_trace (cfg : Config) (s : GreeAC) (call : ClimateCall) (now : Nat)
    (h : s.state_ = ACState.READY) :
    (s.control cfg call now).trace_
      = s.trace_ ++ [Event.write (((control_buffer cfg call s.tx_buffer_).set
          (tx_frame_size cfg s.tx_buffer_ - 1)
          (calculate_checksum_ (control_buffer cfg call s.tx_buffer_)
            (tx_frame_size cfg s.tx_buffer_))).take (tx_frame_size cfg s.tx_buffer_))] := by
  rw [control_ready cfg s call now h]
  dsimp only
  rw [tx_frame_size_control_buffer]

/-- Claim C14: every outgoing frame carries its own checksum.  `send_packet_`, and
`control` in `READY`, write exactly one frame; it has
`n = min(3 + tx_buffer_[2], GREE_TX_BUFFER_SIZE)` bytes and its last byte is
`calculate_checksum_` of the frame itself, which is the sum modulo 256 of its bytes
at the indices 2 to `n - 2`.  The transmit buffer has `GREE_TX_BUFFER_SIZE` bytes,
between 1 and 256. -/
theorem C14_outbound_checksum (cfg : Config) (s : GreeAC) (call : ClimateCall) (now : Nat)
    (hcap0 : 0 < cfg.GREE_TX_BUFFER_SIZE) (hcap : cfg.GREE_TX_BUFFER_SIZE ≤ 256)
    (hlen : s.tx_buffer_.length = cfg.GREE_TX_BUFFER_SIZE)
    (hbyte : s.tx_buffer_.getD 2 0 < 256) :
    (∃ frame, (s.send_packet_ cfg now).trace_ = s.trace_ ++ [Event.write frame] ∧
      frame.length = min (3 + s.tx_buffer_.getD 2 0) cfg.GREE_TX_BUFFER_SIZE ∧
      frame.getD (frame.length - 1) 0 = calculate_checksum_ frame frame.length ∧
      calculate_checksum_ frame frame.length = byte_sum frame 2 (frame.length - 3) % 256) ∧
    (s.state_ = ACState.READY →
      ∃ frame, (s.control cfg call now).trace_ = s.trace_ ++ [Event.write frame] ∧
        frame.length = min (3 + s.tx_buffer_.getD 2 0) cfg.GREE_TX_BUFFER_SIZE ∧
        frame.getD (frame.length - 1) 0 = calculate_checksum_ frame frame.length ∧
        calculate_checksum_ frame frame.length = byte_sum frame 2 (frame.length - 3) % 256) := by
  have hn := tx_frame_size_min cfg s.tx_buffer_ hcap hbyte
  have h0 : 0 < tx_frame_size cfg s.tx_buffer_ := by omega
  have hle : tx_frame_size cfg s.tx_buffer_ ≤ s.tx_buffer_.length := by omega
  have h256 : tx_frame_size cfg s.tx_buffer_ ≤ 256 := by omega
  constructor
  · obtain ⟨f1, f2⟩ := checksummed_frame s.tx_buffer_ _ h0 hle
    refine ⟨_, send_packet_trace cfg s now, ?_, ?_, ?_⟩
    · rw [f1, hn]
    · rw [f1]
      exact f2
    · rw [f1]
      exact calculate_checksum_sum _ _ h256
  · intro hready
    have hle' : tx_frame_size cfg s.tx_buffer_
        ≤ (control_buffer cfg call s.tx_buffer_).length := by
      rw [length_control_buffer]
      exact hle
    obtain ⟨f1, f2⟩ := checksummed_frame (control_buffer cfg call s.tx_buffer_) _ h0 hle'
    refine ⟨_, control_trace cfg s call now hready, ?_, ?_, ?_⟩
    · rw [f1, hn]
    · rw [f1]
      exact f2
    · rw [f1]
      exact calculate_checksum_sum _ _ h256

/-- Witness of C14: the frame that `send_packet_` writes from `sample_ready` has 47
bytes. -/
theorem C14_outbound_checksum_witness :
    ∃ frame, (sample_ready.send_packet_ sample_config 5).trace_
        = sample_ready.trace_ ++ [Event.write frame] ∧
      frame.length = min (3 + sample_ready.tx_buffer_.getD 2 0)
        sample_config.GREE_TX_BUFFER_SIZE ∧
      frame.getD (frame.length - 1) 0 = calculate_checksum_ frame frame.length ∧
      calculate_checksum_ frame frame.length = byte_sum frame 2 (frame.length - 3) % 256 :=
  (C14_outbound_checksum sample_config sample_ready (temperature_call (FloatVal.num 24)) 5
    (by decide) (by decide) (by decide) (by decide)).1

/-! ## Checksum: the bytes it covers -/

theorem byte_sum_succ (l : List Nat) (lo n : Nat) :
    byte_sum l lo (n + 1) = l.getD lo 0 + byte_sum l (lo + 1) n := by
  simp [byte_sum, List.range'_succ]

/-- Claim C15, as amended: the checksum covers the bytes between the two sync bytes
and the checksum slot, the length byte (index 2) among them.  Two buffers that
agree on every index from 2 to `size - 2` have the same checksum, whatever
their bytes at the indices 0, 1 and `size - 1`.  And when the checksum position,
`size - 1` narrowed to `uint8_t`, is above 2, as it is for every size from 4 to
256, two buffers whose length bytes are different bytes and that agree on the
indices from 3 up to the checksum position have different checksums. -/
theorem C15_checksum_coverage (a b : List Nat) (size : Nat) :
    ((∀ i, 2 ≤ i → i < size - 1 → a.getD i 0 = b.getD i 0) →
      calculate_checksum_ a size = calculate_checksum_ b size) ∧
    (2 < (size - 1) % 256 → a.getD 2 0 < 256 → b.getD 2 0 < 256 →
      a.getD 2 0 ≠ b.getD 2 0 →
      (∀ i, 3 ≤ i → i < (size - 1) % 256 → a.getD i 0 = b.getD i 0) →
      calculate_checksum_ a size ≠ calculate_checksum_ b size) := by
  constructor
  · intro h
    by_cases h3 : size < 3
    · simp [calculate_checksum_, h3]
    · rw [calculate_checksum_eq a size (by omega), calculate_checksum_eq b size (by omega)]
      rw [byte_sum_congr a b]
      intro i h1 h2
      apply h i h1
      omega
  · intro hpos ha hb hne hrest
    have h3 : 3 ≤ size := by omega
    rw [calculate_checksum_eq a size h3, calculate_checksum_eq b size h3]
    obtain ⟨n, hn⟩ : ∃ n, (size - 1) % 256 - 2 = n + 1 := ⟨(size - 1) % 256 - 3, by omega⟩
    rw [hn, byte_sum_succ, byte_sum_succ,
      byte_sum_congr a b (2 + 1) n (fun i h1 h2 => hrest i (by omega) (by omega))]
    omega

/-- Witness of C15: two frames of five bytes that differ in the sync bytes and in the
last byte have the same checksum; two frames of five bytes that differ in the
length byte have different checksums. -/
theorem C15_checksum_coverage_witness :
    calculate_checksum_ [0x7E, 0x7E, 2, 0x31, 0x33] 5
      = calculate_checksum_ [0, 1, 2, 0x31, 0] 5 ∧
    calculate_checksum_ [0x7E, 0x7E, 2, 0x31, 0] 5
      ≠ calculate_checksum_ [0x7E, 0x7E, 3, 0x31, 0] 5 :=
  ⟨(C15_checksum_coverage [0x7E, 0x7E, 2, 0x31, 0x33] [0, 1, 2, 0x31, 0] 5).1 (by
      intro i h1 h2
      have h4 : i = 2 ∨ i = 3 := by omega
      rcases h4 with rfl | rfl <;> rfl),
    (C15_checksum_coverage [0x7E, 0x7E, 2, 0x31, 0] [0x7E, 0x7E, 3, 0x31, 0] 5).2
      (by decide) (by decide) (by decide) (by decide) (by
        intro i h1 h2
        have h4 : i = 3 := by omega
        rw [h4]
        rfl)⟩

/-- Counterexample to C15 as stated: two buffers of five bytes that differ in the
length byte (index 2) only have the checksums `0x33` and `0x34`. -/
theorem C15_counterexample :
    (∀ i, i ≠ 2 → [0x7E, 0x7E, 2, 0x31, 0].getD i 0 = [0x7E, 0x7E, 3, 0x31, 0].getD i 0) ∧
    calculate_checksum_ [0x7E, 0x7E, 2, 0x31, 0] 5 = 0x33 ∧
    calculate_checksum_ [0x7E, 0x7E, 3, 0x31, 0] 5 = 0x34 := by
  refine ⟨?_, by decide, by decide⟩
  intro i hi
  match i with
  | 0 => rfl
  | 1 => rfl
  | 2 => exact absurd rfl hi
  | 3 => rfl
  | 4 => rfl
  | (n + 5) => rfl

/-! ## Decoder: preset, seeding of the outgoing buffer, target temperature -/

theorem decodable_of_header (cfg : Config) (size : Nat)
    (hhdr : (cfg.HEADER_SIZE + 1) % 256 + 1 ≤ TEMPERATURE_BYTE + 1)
    (h9 : TEMPERATURE_BYTE < size) : decodable_size cfg size :=
  ⟨by omega, h9⟩

/-- Claim C16, as amended: for a validated report frame that reaches the temperature
byte but not the preset byte (10 bytes), the preset after decoding is NONE
whatever it was before; for a frame that contains the preset byte (more than 10
bytes) the preset is BOOST exactly when the byte is `PRESET_COOL_BOOST` or
`PRESET_HEAT_BOOST`, and NONE otherwise; a validated frame of at most 9 bytes is
not decoded and leaves the preset as it was.  The header guard of the decoder
lets frames of 10 bytes pass. -/
theorem C16_preset (cfg : Config) (s : GreeAC) (data : List Nat) (size : Nat)
    (hv : (s.verify_packet_ cfg data size).1 = true)
    (hhdr : (cfg.HEADER_SIZE + 1) % 256 + 1 ≤ TEMPERATURE_BYTE + 1) :
    (size = PRESET_BYTE →
      (s.parse_state_packet_ cfg data size).preset = some ClimatePreset.CLIMATE_PRESET_NONE) ∧
    (PRESET_BYTE < size →
      ((s.parse_state_packet_ cfg data size).preset = some ClimatePreset.CLIMATE_PRESET_BOOST ↔
        (data.getD PRESET_BYTE 0 = cfg.PRESET_COOL_BOOST ∨
          data.getD PRESET_BYTE 0 = cfg.PRESET_HEAT_BOOST)) ∧
      (¬ (data.getD PRESET_BYTE 0 = cfg.PRESET_COOL_BOOST ∨
          data.getD PRESET_BYTE 0 = cfg.PRESET_HEAT_BOOST) →
        (s.parse_state_packet_ cfg data size).preset
          = some ClimatePreset.CLIMATE_PRESET_NONE)) ∧
    (size ≤ TEMPERATURE_BYTE → (s.parse_state_packet_ cfg data size).preset = s.preset) := by
  obtain ⟨h4, hcmd, hcrc, _⟩ := verify_packet_true cfg s data size hv
  refine ⟨?_, ?_, ?_⟩
  · intro h10
    have hdec := decodable_of_header cfg size hhdr (by rw [h10]; decide)
    rw [parse_state_packet_decoded cfg s data size hdec hcmd hcrc]
    have hn : ¬ size > PRESET_BYTE := by omega
    simp only [decoded_preset, hn, if_false]
  · intro h10
    have h9 : TEMPERATURE_BYTE < size := by
      simp only [PRESET_BYTE] at h10
      simp only [TEMPERATURE_BYTE]
      omega
    have hdec := decodable_of_header cfg size hhdr h9
    rw [parse_state_packet_decoded cfg s data size hdec hcmd hcrc]
    have hp : size > PRESET_BYTE := h10
    simp only [decoded_preset, hp, if_true]
    by_cases hb : data.getD PRESET_BYTE 0 = cfg.PRESET_COOL_BOOST ∨
        data.getD PRESET_BYTE 0 = cfg.PRESET_HEAT_BOOST
    · rw [if_pos hb]
      exact ⟨⟨fun _ => hb, fun _ => rfl⟩, fun h => absurd hb h⟩
    · rw [if_neg hb]
      refine ⟨⟨fun h => ?_, fun h => absurd h hb⟩, fun _ => rfl⟩
      simp at h
  · intro h9
    have hnd : ¬ decodable_size cfg size := fun hd => by
      have := hd.2
      omega
    rw [parse_state_packet_not_decoded cfg s data size h4 hnd hcmd hcrc]

/-- Witness of C16: `sample_frame` has 14 bytes and the preset byte 0. -/
theorem C16_preset_witness :
    (sample_driver.parse_state_packet_ sample_config sample_frame 14).preset
      = some ClimatePreset.CLIMATE_PRESET_NONE :=
  ((C16_preset sample_config sample_driver sample_frame 14 (by decide) (by decide)).2.1
    (by decide)).2 (by decide)

/-- Counterexample to C16 as stated: the validated frame `7E 7E 02 31 33` has 5 bytes,
too few to contain the preset byte; a driver whose preset is BOOST still has
the preset BOOST after decoding it. -/
theorem C16_counterexample :
    (GreeAC.verify_packet_ sample_config
      { sample_driver with preset := some ClimatePreset.CLIMATE_PRESET_BOOST }
      [0x7E, 0x7E, 2, 0x31, 0x33] 5).1 = true ∧
    5 ≤ PRESET_BYTE ∧
    (GreeAC.parse_state_packet_ sample_config
      { sample_driver with preset := some ClimatePreset.CLIMATE_PRESET_BOOST }
      [0x7E, 0x7E, 2, 0x31, 0x33] 5).preset = some ClimatePreset.CLIMATE_PRESET_BOOST := by
  decide

/-- Claim C17: read-modify-write seeding.  After a validated report frame of more than
9 bytes is decoded, bytes 8 and 9 of the outgoing buffer are the bytes 8 and 9
of the frame; if the frame has more than 12 bytes, byte 12 of the outgoing
buffer is byte 12 of the frame; every other byte of the outgoing buffer is as
it was.  The outgoing buffer has `GREE_TX_BUFFER_SIZE` bytes, more than 12, and
the header guard of the decoder lets frames of 10 bytes pass. -/
theorem C17_seeding (cfg : Config) (s : GreeAC) (data : List Nat) (size : Nat)
    (hv : (s.verify_packet_ cfg data size).1 = true)
    (hhdr : (cfg.HEADER_SIZE + 1) % 256 + 1 ≤ TEMPERATURE_BYTE + 1)
    (hlen : s.tx_buffer_.length = cfg.GREE_TX_BUFFER_SIZE)
    (hcap : SWING_BYTE < cfg.GREE_TX_BUFFER_SIZE)
    (h9 : TEMPERATURE_BYTE < size) :
    (s.parse_state_packet_ cfg data size).tx_buffer_.getD MODE_BYTE 0 = data.getD MODE_BYTE 0 ∧
    (s.parse_state_packet_ cfg data size).tx_buffer_.getD TEMPERATURE_BYTE 0
      = data.getD TEMPERATURE_BYTE 0 ∧
    (SWING_BYTE < size →
      (s.parse_state_packet_ cfg data size).tx_buffer_.getD SWING_BYTE 0
        = data.getD SWING_BYTE 0) ∧
    (size ≤ SWING_BYTE →
      (s.parse_state_packet_ cfg data size).tx_buffer_.getD SWING_BYTE 0
        = s.tx_buffer_.getD SWING_BYTE 0) ∧
    (∀ i, i ≠ MODE_BYTE → i ≠ TEMPERATURE_BYTE → i ≠ SWING_BYTE →
      (s.parse_state_packet_ cfg data size).tx_buffer_.getD i 0 = s.tx_buffer_.getD i 0) ∧
    (s.parse_state_packet_ cfg data size).tx_buffer_.length = s.tx_buffer_.length := by
  obtain ⟨h4, hcmd, hcrc, _⟩ := verify_packet_true cfg s data size hv
  have hdec := decodable_of_header cfg size hhdr h9
  rw [parse_state_packet_decoded cfg s data size hdec hcmd hcrc]
  dsimp only
  have hl8 : MODE_BYTE < s.tx_buffer_.length := by
    rw [hlen]
    simp only [SWING_BYTE] at hcap
    simp only [FAN_MASK, MODE_BYTE]
    omega
  have hl9 : TEMPERATURE_BYTE < s.tx_buffer_.length := by
    rw [hlen]
    simp only [SWING_BYTE] at hcap
    simp only [TEMPERATURE_BYTE]
    omega
  have hl12 : SWING_BYTE < s.tx_buffer_.length := by
    rw [hlen]
    exact hcap
  by_cases h12 : size > SWING_BYTE
  · unfold decoded_tx
    rw [if_pos h12]
    refine ⟨?_, ?_, fun _ => ?_, fun h => absurd h12 (by omega), fun i i8 i9 i12 => ?_, ?_⟩
    · rw [getD_set_ne _ _ _ _ (by decide), getD_set_ne _ _ _ _ (by decide),
        getD_set_eq _ _ _ hl8]
    · rw [getD_set_ne _ _ _ _ (by decide), getD_set_eq _ _ _ (by simpa using hl9)]
    · rw [getD_set_eq _ _ _ (by simpa using hl12)]
    · rw [getD_set_ne _ _ _ _ (Ne.symm i12), getD_set_ne _ _ _ _ (Ne.symm i9),
        getD_set_ne _ _ _ _ (Ne.symm i8)]
    · simp
  · unfold decoded_tx
    rw [if_neg h12]
    refine ⟨?_, ?_, fun h => absurd h h12, fun _ => ?_, fun i i8 i9 _ => ?_, ?_⟩
    · rw [getD_set_ne _ _ _ _ (by decide), getD_set_eq _ _ _ hl8]
    · rw [getD_set_eq _ _ _ (by simpa using hl9)]
    · rw [getD_set_ne _ _ _ _ (by decide), getD_set_ne _ _ _ _ (by decide)]
    · rw [getD_set_ne _ _ _ _ (Ne.symm i9), getD_set_ne _ _ _ _ (Ne.symm i8)]
    · simp

/-- Witness of C17: `sample_frame` seeds the mode byte `0x91`. -/
theorem C17_seeding_witness :
    (sample_driver.parse_state_packet_ sample_config sample_frame 14).tx_buffer_.getD MODE_BYTE 0
      = sample_frame.getD MODE_BYTE 0 :=
  (C17_seeding sample_config sample_driver sample_frame 14 (by decide) (by decide)
    (by decide) (by decide) (by decide)).1

/-- Claim C19: after a validated report frame of more than 9 bytes is decoded, with
`raw` its byte 9: if `raw <= 16 * (MAX_TEMPERATURE - MIN_TEMPERATURE)`, which says
that `raw / 16 + MIN_TEMPERATURE` lies between the two bounds, the target
temperature is exactly `raw / 16 + MIN_TEMPERATURE`; otherwise the target
temperature is what it was.  `MIN_TEMPERATURE` is at most `MAX_TEMPERATURE` and
the header guard of the decoder lets frames of 10 bytes pass. -/
theorem C19_target_temperature (cfg : Config) (s : GreeAC) (data : List Nat) (size : Nat)
    (hv : (s.verify_packet_ cfg data size).1 = true)
    (hhdr : (cfg.HEADER_SIZE + 1) % 256 + 1 ≤ TEMPERATURE_BYTE + 1)
    (hmm : cfg.MIN_TEMPERATURE ≤ cfg.MAX_TEMPERATURE)
    (h9 : TEMPERATURE_BYTE < size) :
    (data.getD TEMPERATURE_BYTE 0 ≤ 16 * (cfg.MAX_TEMPERATURE - cfg.MIN_TEMPERATURE) ↔
      ((cfg.MIN_TEMPERATURE : ℚ) ≤ (data.getD TEMPERATURE_BYTE 0 : ℚ) / 16 + cfg.MIN_TEMPERATURE ∧
        (data.getD TEMPERATURE_BYTE 0 : ℚ) / 16 + cfg.MIN_TEMPERATURE
          ≤ (cfg.MAX_TEMPERATURE : ℚ))) ∧
    (data.getD TEMPERATURE_BYTE 0 ≤ 16 * (cfg.MAX_TEMPERATURE - cfg.MIN_TEMPERATURE) →
      (s.parse_state_packet_ cfg data size).target_temperature
        = FloatVal.num ((data.getD TEMPERATURE_BYTE 0 : ℚ) / 16 + cfg.MIN_TEMPERATURE)) ∧
    (¬ data.getD TEMPERATURE_BYTE 0 ≤ 16 * (cfg.MAX_TEMPERATURE - cfg.MIN_TEMPERATURE) →
      (s.parse_state_packet_ cfg data size).target_temperature = s.target_temperature) := by
  obtain ⟨h4, hcmd, hcrc, _⟩ := verify_packet_true cfg s data size hv
  have hdec := decodable_of_header cfg size hhdr h9
  rw [parse_state_packet_decoded cfg s data size hdec hcmd hcrc]
  dsimp only
  have hlow : (cfg.MIN_TEMPERATURE : ℚ)
      ≤ (data.getD TEMPERATURE_BYTE 0 : ℚ) / 16 + cfg.MIN_TEMPERATURE := by
    have : (0 : ℚ) ≤ (data.getD TEMPERATURE_BYTE 0 : ℚ) / 16 := by positivity
    linarith
  have hiff : data.getD TEMPERATURE_BYTE 0 ≤ 16 * (cfg.MAX_TEMPERATURE - cfg.MIN_TEMPERATURE) ↔
      (data.getD TEMPERATURE_BYTE 0 : ℚ) / 16 + cfg.MIN_TEMPERATURE
        ≤ (cfg.MAX_TEMPERATURE : ℚ) := by
    constructor
    · intro h
      have h' : data.getD TEMPERATURE_BYTE 0 + 16 * cfg.MIN_TEMPERATURE
          ≤ 16 * cfg.MAX_TEMPERATURE := by omega
      have hq : ((data.getD TEMPERATURE_BYTE 0 + 16 * cfg.MIN_TEMPERATURE : ℕ) : ℚ)
          ≤ ((16 * cfg.MAX_TEMPERATURE : ℕ) : ℚ) := Nat.cast_le.mpr h'
      push_cast at hq
      linarith
    · intro h
      have hq : ((data.getD TEMPERATURE_BYTE 0 + 16 * cfg.MIN_TEMPERATURE : ℕ) : ℚ)
          ≤ ((16 * cfg.MAX_TEMPERATURE : ℕ) : ℚ) := by
        push_cast
        linarith
      have h' := Nat.cast_le.mp hq
      omega
  refine ⟨⟨fun h => ⟨hlow, hiff.mp h⟩, fun h => hiff.mpr h.2⟩, ?_, ?_⟩
  · intro h
    have h2 := hiff.mp h
    simp only [decoded_target, FloatVal.ge_const, FloatVal.le_const, hlow, h2, decide_True,
      Bool.and_self, if_true]
  · intro h
    have h2 : ¬ (data.getD TEMPERATURE_BYTE 0 : ℚ) / 16 + cfg.MIN_TEMPERATURE
        ≤ (cfg.MAX_TEMPERATURE : ℚ) := fun hh => h (hiff.mpr hh)
    simp only [decoded_target, FloatVal.ge_const, FloatVal.le_const, hlow, h2, decide_True,
      decide_False, Bool.and_false, Bool.false_eq_true, if_false]

/-- Witness of C19: `sample_frame` carries the temperature byte `0x80`. -/
theorem C19_target_temperature_witness :
    (sample_driver.parse_state_packet_ sample_config sample_frame 14).target_temperature
      = FloatVal.num ((sample_frame.getD TEMPERATURE_BYTE 0 : ℚ) / 16
          + sample_config.MIN_TEMPERATURE) :=
  (C19_target_temperature sample_config sample_driver sample_frame 14 (by decide) (by decide)
    (by decide) (by decide)).2.1 (by decide)

/-! ## Encoder: the two fixed bytes -/

/-- The force-update byte of the buffer that `control` assembles is 175. -/
theorem getD_control_buffer_force (cfg : Config) (call : ClimateCall) (tx : List Nat)
    (hlen : FORCE_UPDATE_BYTE < tx.length) :
    (control_buffer cfg call tx).getD FORCE_UPDATE_BYTE 0 = 175 := by
  obtain ⟨cm, cf, cp, ct, cs⟩ := call
  unfold control_buffer
  cases cp <;> cases ct <;> cases cs <;> dsimp only <;> (try split_ifs) <;>
    simp only [getD_set_ne _ MODE_BYTE FORCE_UPDATE_BYTE _ (by decide),
      getD_set_ne _ SWING_BYTE FORCE_UPDATE_BYTE _ (by decide),
      getD_set_ne _ TEMPERATURE_BYTE FORCE_UPDATE_BYTE _ (by decide),
      getD_set_ne _ DISPLAY_BYTE FORCE_UPDATE_BYTE _ (by decide),
      getD_control_preset _ _ _ _ FORCE_UPDATE_BYTE (by decide)] <;>
    exact getD_set_eq _ _ _ hlen

/-- The display byte of the buffer that `control` assembles is `0x20`. -/
theorem getD_control_buffer_display (cfg : Config) (call : ClimateCall) (tx : List Nat)
    (hlen : DISPLAY_BYTE < tx.length) :
    (control_buffer cfg call tx).getD DISPLAY_BYTE 0 = 0x20 := by
  obtain ⟨cm, cf, cp, ct, cs⟩ := call
  unfold control_buffer
  cases cp <;> cases ct <;> cases cs <;> dsimp only <;> (try split_ifs) <;>
    simp only [getD_set_ne _ MODE_BYTE DISPLAY_BYTE _ (by decide),
      getD_set_ne _ SWING_BYTE DISPLAY_BYTE _ (by decide),
      getD_set_ne _ TEMPERATURE_BYTE DISPLAY_BYTE _ (by decide),
      getD_control_preset _ _ _ _ DISPLAY_BYTE (by decide)] <;>
    exact getD_set_eq _ _ _ (by simpa using hlen)

theorem tx_frame_size_le (cfg : Config) (tx : List Nat) :
    tx_frame_size cfg tx ≤ cfg.GREE_TX_BUFFER_SIZE := by
  unfold tx_frame_size
  dsimp only
  split_ifs with h <;> omega

theorem tx_frame_size_congr (cfg : Config) (a b : List Nat) (h : a.getD 2 0 = b.getD 2 0) :
    tx_frame_size cfg a = tx_frame_size cfg b := by
  unfold tx_frame_size
  rw [h]

/-- Claim C18: in `READY`, with an outgoing frame size
`n = min(3 + tx_buffer_[2], GREE_TX_BUFFER_SIZE)` above 14, the frame that `control`
writes has 175 at index 7 and `0x20` at index 13; when `control` returns, byte 7
of the outgoing buffer is 0 and byte 13 is `0x20`; the frame that a following
`send_packet_` writes has 0 at index 7 and `0x20` at index 13. -/
theorem C18_force_update (cfg : Config) (s : GreeAC) (call : ClimateCall) (now : Nat)
    (hready : s.state_ = ACState.READY)
    (hlen : s.tx_buffer_.length = cfg.GREE_TX_BUFFER_SIZE)
    (hbyte : s.tx_buffer_.getD 2 0 < 256)
    (hn : 14 < min (3 + s.tx_buffer_.getD 2 0) cfg.GREE_TX_BUFFER_SIZE) :
    (∃ frame, (s.control cfg call now).trace_ = s.trace_ ++ [Event.write frame] ∧
      frame.getD FORCE_UPDATE_BYTE 0 = 175 ∧ frame.getD DISPLAY_BYTE 0 = 0x20) ∧
    (s.control cfg call now).tx_buffer_.getD FORCE_UPDATE_BYTE 0 = 0 ∧
    (s.control cfg call now).tx_buffer_.getD DISPLAY_BYTE 0 = 0x20 ∧
    (∀ later, ∃ frame,
      ((s.control cfg call now).send_packet_ cfg later).trace_
        = (s.control cfg call now).trace_ ++ [Event.write frame] ∧
      frame.getD FORCE_UPDATE_BYTE 0 = 0 ∧ frame.getD DISPLAY_BYTE 0 = 0x20) := by
  have hsz : tx_frame_size cfg s.tx_buffer_
      = min (3 + s.tx_buffer_.getD 2 0) cfg.GREE_TX_BUFFER_SIZE := by
    unfold tx_frame_size
    dsimp only
    split_ifs with h <;> omega
  have hle := tx_frame_size_le cfg s.tx_buffer_
  have h14 : 14 < tx_frame_size cfg s.tx_buffer_ := by omega
  have hl7 : FORCE_UPDATE_BYTE < s.tx_buffer_.length := by
    simp only [FORCE_UPDATE_BYTE]
    omega
  have hl13 : DISPLAY_BYTE < s.tx_buffer_.length := by
    simp only [DISPLAY_BYTE]
    omega
  have hcb7 := getD_control_buffer_force cfg call s.tx_buffer_ hl7
  have hcb13 := getD_control_buffer_display cfg call s.tx_buffer_ hl13
  have hcbl := length_control_buffer cfg call s.tx_buffer_
  have hs7 : tx_frame_size cfg s.tx_buffer_ - 1 ≠ FORCE_UPDATE_BYTE := by
    simp only [FORCE_UPDATE_BYTE]
    omega
  have hs13 : tx_frame_size cfg s.tx_buffer_ - 1 ≠ DISPLAY_BYTE := by
    simp only [DISPLAY_BYTE]
    omega
  have h7n : FORCE_UPDATE_BYTE < tx_frame_size cfg s.tx_buffer_ := by
    simp only [FORCE_UPDATE_BYTE]
    omega
  have h13n : DISPLAY_BYTE < tx_frame_size cfg s.tx_buffer_ := by
    simp only [DISPLAY_BYTE]
    omega
  -- the buffer when control returns
  have htx : (s.control cfg call now).tx_buffer_
      = ((control_buffer cfg call s.tx_buffer_).set (tx_frame_size cfg s.tx_buffer_ - 1)
          (calculate_checksum_ (control_buffer cfg call s.tx_buffer_)
            (tx_frame_size cfg s.tx_buffer_))).set FORCE_UPDATE_BYTE 0 := by
    rw [control_ready cfg s call now hready]
    dsimp only
    rw [tx_frame_size_control_buffer]
  have ht7 : (s.control cfg call now).tx_buffer_.getD FORCE_UPDATE_BYTE 0 = 0 := by
    rw [htx]
    apply getD_set_eq
    rw [List.length_set, hcbl]
    exact hl7
  have ht13 : (s.control cfg call now).tx_buffer_.getD DISPLAY_BYTE 0 = 0x20 := by
    rw [htx, getD_set_ne _ _ _ _ (by decide), getD_set_ne _ _ _ _ hs13, hcb13]
  have ht2 : (s.control cfg call now).tx_buffer_.getD 2 0 = s.tx_buffer_.getD 2 0 := by
    rw [htx, getD_set_ne _ _ _ _ (by decide), getD_set_ne _ _ _ _ (by omega),
      getD_control_buffer_other cfg call s.tx_buffer_ 2 (by decide) (by decide) (by decide)
        (by decide) (by decide) (by decide)]
  have hsz' : tx_frame_size cfg (s.control cfg call now).tx_buffer_
      = tx_frame_size cfg s.tx_buffer_ := tx_frame_size_congr cfg _ _ ht2
  refine ⟨⟨_, control_trace cfg s call now hready, ?_, ?_⟩, ht7, ht13, ?_⟩
  · rw [getD_take _ _ _ h7n, getD_set_ne _ _ _ _ hs7, hcb7]
  · rw [getD_take _ _ _ h13n, getD_set_ne _ _ _ _ hs13, hcb13]
  · intro later
    refine ⟨_, send_packet_trace cfg _ later, ?_, ?_⟩
    · rw [hsz', getD_take _ _ _ h7n, getD_set_ne _ _ _ _ hs7, ht7]
    · rw [hsz', getD_take _ _ _ h13n, getD_set_ne _ _ _ _ hs13, ht13]

/-- Witness of C18: `sample_ready` sends frames of 47 bytes. -/
theorem C18_force_update_witness :
    (sample_ready.control sample_config (temperature_call (FloatVal.num 24))
      5).tx_buffer_.getD FORCE_UPDATE_BYTE 0 = 0 ∧
    (sample_ready.control sample_config (temperature_call (FloatVal.num 24))
      5).tx_buffer_.getD DISPLAY_BYTE 0 = 0x20 :=
  ⟨(C18_force_update sample_config sample_ready (temperature_call (FloatVal.num 24)) 5
      (by decide) (by decide) (by decide) (by decide)).2.1,
   (C18_force_update sample_config sample_ready (temperature_call (FloatVal.num 24)) 5
      (by decide) (by decide) (by decide) (by decide)).2.2.1⟩

/-! ## Encoder: the canonical mode -/

set_option maxRecDepth 100000 in
theorem high_nibble_fin : ∀ c : Fin 256, c.val &&& 0xF0 = c.val → c.val % 16 = 0 := by
  decide

/-- A code whose bits lie under `MODE_MASK` is a multiple of 16. -/
theorem high_nibble_mod (c : Nat) (h : c &&& MODE_MASK = c) : c % 16 = 0 := by
  have h1 : c &&& MODE_MASK ≤ MODE_MASK := Nat.and_le_right
  rw [h] at h1
  have h2 : c < 256 := by
    simp only [FAN_MASK, MODE_MASK] at h1
    omega
  exact high_nibble_fin ⟨c, h2⟩ h

/-- The mode that `control` leaves in the canonical state is the resolved protocol
code `new_mode`. -/
theorem control_mode_eq (cfg : Config) (s : GreeAC) (call : ClimateCall) (now : Nat)
    (hready : s.state_ = ACState.READY) :
    (s.control cfg call now).mode
      = (control_mode_fan cfg call (s.tx_buffer_.getD MODE_BYTE 0)).1 := by
  rw [control_ready cfg s call now hready]
  dsimp only
  rw [getD_set_ne _ _ _ _ (by decide), getD_set_ne _ _ _ _ (by decide)]

theorem control_mode_fan_mode_intent (cfg : Config) (call : ClimateCall) (b : Nat)
    (m : ClimateMode) (hmode : call.mode = some m) :
    (control_mode_fan cfg call b).1 = (control_mode cfg m (b &&& MODE_MASK) (b &&& FAN_MASK)).1 := by
  unfold control_mode_fan
  simp only [hmode]

/-- Claim C20, what the code does: in `READY`, after a `control` call with a mode intent
among AUTO, COOL, DRY, FAN_ONLY and HEAT, the canonical mode is the protocol code
of the mode (`static_cast<ClimateMode>(new_mode)`), a multiple of 16 when the code
lies under `MODE_MASK`, and so differs from the value of the enumerator of
`climate::ClimateMode`, which is between 2 and 6.  With the intent OFF the
canonical mode is the code of OFF. -/
theorem C20_mode_is_protocol_code (cfg : Config) (s : GreeAC) (call : ClimateCall) (now : Nat)
    (m : ClimateMode) (hready : s.state_ = ACState.READY) (hmode : call.mode = some m)
    (hm : m ≠ ClimateMode.CLIMATE_MODE_HEAT_COOL)
    (hcodes : ∀ c ∈ [cfg.AC_MODE_OFF, cfg.AC_MODE_AUTO, cfg.AC_MODE_COOL, cfg.AC_MODE_DRY,
      cfg.AC_MODE_FAN_ONLY, cfg.AC_MODE_HEAT], c &&& MODE_MASK = c) :
    (s.control cfg call now).mode = (control_mode cfg m 0 0).1 ∧
    (s.control cfg call now).mode % 16 = 0 ∧
    (m ≠ ClimateMode.CLIMATE_MODE_OFF → (s.control cfg call now).mode ≠ m.toNat) := by
  have e : (s.control cfg call now).mode = (control_mode cfg m 0 0).1 := by
    rw [control_mode_eq cfg s call now hready, control_mode_fan_mode_intent cfg call _ m hmode]
    cases m <;> first
      | rfl
      | exact absurd rfl hm
  have hmod : (control_mode cfg m 0 0).1 % 16 = 0 := by
    cases m <;> first
      | exact absurd rfl hm
      | exact high_nibble_mod _ (hcodes _ (by simp [control_mode]))
  refine ⟨e, by rw [e]; exact hmod, ?_⟩
  intro hoff h
  rw [e] at h
  rw [h] at hmod
  cases m <;> first
    | exact absurd rfl hm
    | exact absurd rfl hoff
    | exact absurd hmod (by decide)

/-- Witness of C20: the intent COOL leaves the canonical mode `0x90`, not
`CLIMATE_MODE_COOL`. -/
theorem C20_mode_is_protocol_code_witness :
    (sample_ready.control sample_config (cool_call (FloatVal.num 24)) 5).mode = 0x90 ∧
    (sample_ready.control sample_config (cool_call (FloatVal.num 24)) 5).mode
      ≠ ClimateMode.CLIMATE_MODE_COOL.toNat :=
  ⟨(C20_mode_is_protocol_code sample_config sample_ready (cool_call (FloatVal.num 24)) 5
      ClimateMode.CLIMATE_MODE_COOL (by decide) rfl (by decide) (by decide)).1,
   (C20_mode_is_protocol_code sample_config sample_ready (cool_call (FloatVal.num 24)) 5
      ClimateMode.CLIMATE_MODE_COOL (by decide) rfl (by decide) (by decide)).2.2 (by decide)⟩

/-! ## Decoder: indoor temperature -/

/-- The signed reading of a byte below 128 is the byte, of a byte from 128 to 255 the
byte less 256. -/
theorem to_int8_of_lt (b : Nat) (h : b < 256) :
    to_int8 b = if b < 128 then (b : Int) else (b : Int) - 256 := by
  unfold to_int8
  rw [Nat.mod_eq_of_lt h]

/-- The bounds of the decoder on `raw - 40`, for the signed reading `raw` of a byte,
say that the byte is between 30 and 90. -/
theorem indoor_range_iff (b : Nat) (h : b < 256) :
    (-10 ≤ to_int8 b - 40 ∧ to_int8 b - 40 ≤ 50) ↔ (30 ≤ b ∧ b ≤ 90) := by
  rw [to_int8_of_lt b h]
  split_ifs with h1
  · omega
  · omega

/-- The indoor temperature that a decoded frame leaves, by the bounds on the signed
byte. -/
theorem decoded_current_eq (data : List Nat) (size : Nat) (old : FloatVal) :
    decoded_current data size old =
      if INDOOR_TEMP_BYTE < size ∧ -10 ≤ to_int8 (data.getD INDOOR_TEMP_BYTE 0) - 40 ∧
          to_int8 (data.getD INDOOR_TEMP_BYTE 0) - 40 ≤ 50
      then FloatVal.num ((to_int8 (data.getD INDOOR_TEMP_BYTE 0) : ℚ) - 40) else old := by
  have e1 : ((-10 : ℚ) ≤ (to_int8 (data.getD INDOOR_TEMP_BYTE 0) : ℚ) - 40) ↔
      -10 ≤ to_int8 (data.getD INDOOR_TEMP_BYTE 0) - 40 := by
    have : ((-10 : ℚ) ≤ (to_int8 (data.getD INDOOR_TEMP_BYTE 0) : ℚ) - 40) ↔
        (((-10 : ℤ) : ℚ) ≤ ((to_int8 (data.getD INDOOR_TEMP_BYTE 0) - 40 : ℤ) : ℚ)) := by
      push_cast
      exact Iff.rfl
    rw [this, Int.cast_le]
  have e2 : ((to_int8 (data.getD INDOOR_TEMP_BYTE 0) : ℚ) - 40 ≤ 50) ↔
      to_int8 (data.getD INDOOR_TEMP_BYTE 0) - 40 ≤ 50 := by
    have : ((to_int8 (data.getD INDOOR_TEMP_BYTE 0) : ℚ) - 40 ≤ 50) ↔
        (((to_int8 (data.getD INDOOR_TEMP_BYTE 0) - 40 : ℤ) : ℚ) ≤ ((50 : ℤ) : ℚ)) := by
      push_cast
      exact Iff.rfl
    rw [this, Int.cast_le]
  unfold decoded_current
  by_cases hs : size > INDOOR_TEMP_BYTE
  · rw [if_pos hs]
    by_cases hr : -10 ≤ to_int8 (data.getD INDOOR_TEMP_BYTE 0) - 40 ∧
        to_int8 (data.getD INDOOR_TEMP_BYTE 0) - 40 ≤ 50
    · have hc : INDOOR_TEMP_BYTE < size ∧ -10 ≤ to_int8 (data.getD INDOOR_TEMP_BYTE 0) - 40 ∧
          to_int8 (data.getD INDOOR_TEMP_BYTE 0) - 40 ≤ 50 := ⟨hs, hr⟩
      rw [if_pos hc]
      have hcond : ((FloatVal.num ((to_int8 (data.getD INDOOR_TEMP_BYTE 0) : ℚ) - 40)).ge_const
            (-10) &&
          (FloatVal.num ((to_int8 (data.getD INDOOR_TEMP_BYTE 0) : ℚ) - 40)).le_const 50)
            = true := by
        simp only [FloatVal.ge_const, FloatVal.le_const, Bool.and_eq_true, decide_eq_true_eq]
        exact ⟨e1.mpr hr.1, e2.mpr hr.2⟩
      rw [if_pos hcond]
    · have hc : ¬ (INDOOR_TEMP_BYTE < size ∧
          -10 ≤ to_int8 (data.getD INDOOR_TEMP_BYTE 0) - 40 ∧
          to_int8 (data.getD INDOOR_TEMP_BYTE 0) - 40 ≤ 50) := fun h => hr h.2
      rw [if_neg hc]
      have hcond : ¬ ((FloatVal.num ((to_int8 (data.getD INDOOR_TEMP_BYTE 0) : ℚ) - 40)).ge_const
            (-10) &&
          (FloatVal.num ((to_int8 (data.getD INDOOR_TEMP_BYTE 0) : ℚ) - 40)).le_const 50)
            = true := by
        simp only [FloatVal.ge_const, FloatVal.le_const, Bool.and_eq_true, decide_eq_true_eq]
        exact fun h => hr ⟨e1.mp h.1, e2.mp h.2⟩
      rw [if_neg hcond]
  · have hc : ¬ (INDOOR_TEMP_BYTE < size ∧
        -10 ≤ to_int8 (data.getD INDOOR_TEMP_BYTE 0) - 40 ∧
        to_int8 (data.getD INDOOR_TEMP_BYTE 0) - 40 ≤ 50) := fun h => hs h.1
    rw [if_neg hs, if_neg hc]

/-- Claim C21: for a validated report frame, with `raw` the byte at index 46 read as a
signed 8-bit value: if the frame has more than 46 bytes and `raw - 40` lies
between -10 and 50, the indoor temperature after decoding is `raw - 40`; in
every other case it is what it was before.  For a byte (a value below 256) the
bounds say that the byte is between 30 and 90, so a byte of 128 or more leaves
the indoor temperature as it was.  The header guard of the decoder lets frames
of 47 bytes pass. -/
theorem C21_indoor_temperature (cfg : Config) (s : GreeAC) (data : List Nat) (size : Nat)
    (hv : (s.verify_packet_ cfg data size).1 = true)
    (hhdr : (cfg.HEADER_SIZE + 1) % 256 + 1 ≤ INDOOR_TEMP_BYTE + 1)
    (hb : data.getD INDOOR_TEMP_BYTE 0 < 256) :
    ((-10 ≤ to_int8 (data.getD INDOOR_TEMP_BYTE 0) - 40 ∧
        to_int8 (data.getD INDOOR_TEMP_BYTE 0) - 40 ≤ 50) ↔
      (30 ≤ data.getD INDOOR_TEMP_BYTE 0 ∧ data.getD INDOOR_TEMP_BYTE 0 ≤ 90)) ∧
    (INDOOR_TEMP_BYTE < size → -10 ≤ to_int8 (data.getD INDOOR_TEMP_BYTE 0) - 40 →
      to_int8 (data.getD INDOOR_TEMP_BYTE 0) - 40 ≤ 50 →
      (s.parse_state_packet_ cfg data size).current_temperature
        = FloatVal.num ((to_int8 (data.getD INDOOR_TEMP_BYTE 0) : ℚ) - 40)) ∧
    (¬ (INDOOR_TEMP_BYTE < size ∧ -10 ≤ to_int8 (data.getD INDOOR_TEMP_BYTE 0) - 40 ∧
          to_int8 (data.getD INDOOR_TEMP_BYTE 0) - 40 ≤ 50) →
      (s.parse_state_packet_ cfg data size).current_temperature = s.current_temperature) ∧
    (128 ≤ data.getD INDOOR_TEMP_BYTE 0 →
      (s.parse_state_packet_ cfg data size).current_temperature = s.current_temperature) := by
  obtain ⟨h4, hcmd, hcrc, _⟩ := verify_packet_true cfg s data size hv
  have hiff := indoor_range_iff (data.getD INDOOR_TEMP_BYTE 0) hb
  have hcur : (s.parse_state_packet_ cfg data size).current_temperature
      = if INDOOR_TEMP_BYTE < size ∧ -10 ≤ to_int8 (data.getD INDOOR_TEMP_BYTE 0) - 40 ∧
          to_int8 (data.getD INDOOR_TEMP_BYTE 0) - 40 ≤ 50
        then FloatVal.num ((to_int8 (data.getD INDOOR_TEMP_BYTE 0) : ℚ) - 40)
        else s.current_temperature := by
    by_cases hdec : decodable_size cfg size
    · rw [parse_state_packet_decoded cfg s data size hdec hcmd hcrc]
      exact decoded_current_eq data size s.current_temperature
    · rw [parse_state_packet_not_decoded cfg s data size h4 hdec hcmd hcrc]
      have hshort : ¬ INDOOR_TEMP_BYTE < size := fun h46 => by
        apply hdec
        have hh := hhdr
        simp only [INDOOR_TEMP_BYTE] at h46 hh
        refine ⟨by omega, ?_⟩
        simp only [TEMPERATURE_BYTE]
        omega
      rw [if_neg (fun h => hshort h.1)]
  refine ⟨hiff, fun h46 hlo hhi => ?_, fun hn => ?_, fun h128 => ?_⟩
  · rw [hcur, if_pos ⟨h46, hlo, hhi⟩]
  · rw [hcur, if_neg hn]
  · rw [hcur, if_neg]
    intro h
    have := hiff.mp h.2
    omega

/-- Witness of C21: `sample_frame_indoor` has 48 bytes and carries the byte 65 at index
46; the indoor temperature after decoding is 25 degrees. -/
theorem C21_indoor_temperature_witness :
    (sample_driver.parse_state_packet_ sample_config sample_frame_indoor 48).current_temperature
      = FloatVal.num ((to_int8 (sample_frame_indoor.getD INDOOR_TEMP_BYTE 0) : ℚ) - 40) :=
  (C21_indoor_temperature sample_config sample_driver sample_frame_indoor 48 (by decide)
    (by decide) (by decide)).2.1 (by decide) (by decide) (by decide)

/-! ## Frame reassembler: the invariant -/

theorem verify_packet_trace (cfg : Config) (s : GreeAC) (data : List Nat) (size : Nat) :
    (s.verify_packet_ cfg data size).2.trace_ = s.trace_ := by
  unfold GreeAC.verify_packet_
  dsimp only
  split_ifs <;> rfl

theorem handle_packet_rx_buffer (cfg : Config) (s : GreeAC) (data : List Nat) (size : Nat) :
    (s.handle_packet_ cfg data size).rx_buffer_ = s.rx_buffer_ :=
  (parse_state_packet_link cfg
    { s with trace_ := s.trace_ ++ [Event.handle (data.take size)] } data size).2.2.2.1

/-- The receive buffer after one iteration is the buffer before with the byte
stored at the index `rx_store_index` gives, or the buffer before when it gives
none. -/
theorem read_uart_byte_rx_buffer (cfg : Config) (s : GreeAC) (byte now : Nat) :
    (s.read_uart_byte_ cfg byte now).rx_buffer_ =
      match s.rx_store_index cfg byte with
      | some i => s.rx_buffer_.set i byte
      | none => s.rx_buffer_ := by
  have hcase : s.serial_state_ = SerialState.WAIT_SYNC ∨
      s.serial_state_ = SerialState.RECEIVE ∨ s.serial_state_ = SerialState.COMPLETE := by
    cases s.serial_state_ <;> simp
  rcases hcase with hss | hss | hss
  · by_cases hb : byte = cfg.GREE_START_BYTE
    · rw [read_byte_wait_sync cfg s byte now hss hb]
      simp only [GreeAC.rx_store_index, hss, if_pos hb]
    · rw [read_byte_wait_other cfg s byte now hss hb]
      simp only [GreeAC.rx_store_index, hss, if_neg hb]
  · by_cases hi : s.rx_index_ < cfg.GREE_RX_BUFFER_SIZE
    · by_cases hmore : s.rx_index_ + 1 < 3 ∨
          s.rx_index_ + 1 < (3 + (s.rx_buffer_.set s.rx_index_ byte).getD 2 0) % 65536
      · rw [read_byte_receive_more cfg s byte now hss hi hmore]
        simp only [GreeAC.rx_store_index, hss, if_pos hi]
      · rw [read_byte_receive_complete cfg s byte now hss hi (by omega) (by omega)]
        simp only [GreeAC.rx_store_index, hss, if_pos hi]
        split_ifs
        · rw [handle_packet_rx_buffer, verify_packet_rx_buffer]
        · rw [verify_packet_rx_buffer]
    · rw [read_byte_receive_overflow cfg s byte now hss hi]
      simp only [GreeAC.rx_store_index, hss, if_neg hi]
  · rw [read_byte_complete_state cfg s byte now hss]
    simp only [GreeAC.rx_store_index, hss]

/-- The trace after one iteration: when `verify_call` gives a call, the trace gains
the record of that call, with the first `size` bytes of the buffer, followed by
records that are not calls of `verify_packet_`; when it gives none, the trace is
as before. -/
theorem read_uart_byte_verify_trace (cfg : Config) (s : GreeAC) (byte now : Nat) :
    match s.verify_call cfg byte with
    | some c => ∃ rest, (s.read_uart_byte_ cfg byte now).trace_
          = s.trace_ ++ Event.verify (c.rx_buffer_.take c.size) :: rest ∧
        ∀ f, Event.verify f ∉ rest
    | none => (s.read_uart_byte_ cfg byte now).trace_ = s.trace_ := by
  have hcase : s.serial_state_ = SerialState.WAIT_SYNC ∨
      s.serial_state_ = SerialState.RECEIVE ∨ s.serial_state_ = SerialState.COMPLETE := by
    cases s.serial_state_ <;> simp
  rcases hcase with hss | hss | hss
  · simp only [GreeAC.verify_call, hss]
    by_cases hb : byte = cfg.GREE_START_BYTE
    · rw [read_byte_wait_sync cfg s byte now hss hb]
    · rw [read_byte_wait_other cfg s byte now hss hb]
  · by_cases hi : s.rx_index_ < cfg.GREE_RX_BUFFER_SIZE
    · by_cases hmore : s.rx_index_ + 1 < 3 ∨
          s.rx_index_ + 1 < (3 + (s.rx_buffer_.set s.rx_index_ byte).getD 2 0) % 65536
      · rw [read_byte_receive_more cfg s byte now hss hi hmore]
        rcases hmore with h3 | hf
        · have h3' : ¬ (s.rx_index_ + 1 ≥ 3) := by omega
          simp only [GreeAC.verify_call, hss, if_pos hi, if_neg h3']
        · have hf' : ¬ (s.rx_index_ + 1
              ≥ (3 + (s.rx_buffer_.set s.rx_index_ byte).getD 2 0) % 65536) := by omega
          by_cases h3 : s.rx_index_ + 1 ≥ 3
          · simp only [GreeAC.verify_call, hss, if_pos hi, if_pos h3, if_neg hf']
          · simp only [GreeAC.verify_call, hss, if_pos hi, if_neg h3]
      · have h3 : s.rx_index_ + 1 ≥ 3 := by omega
        have hf : s.rx_index_ + 1
            ≥ (3 + (s.rx_buffer_.set s.rx_index_ byte).getD 2 0) % 65536 := by omega
        rw [read_byte_receive_complete cfg s byte now hss hi h3 hf]
        simp only [GreeAC.verify_call, hss, if_pos hi, if_pos h3, if_pos hf]
        split_ifs
        · refine ⟨[Event.handle
            ((s.rx_buffer_.set s.rx_index_ byte).take
              ((3 + (s.rx_buffer_.set s.rx_index_ byte).getD 2 0) % 65536 % 256)),
            Event.publish], ?_, ?_⟩
          · rw [handle_packet_trace, verify_packet_trace, verify_packet_rx_buffer]
            simp only [List.append_assoc, List.singleton_append]
          · intro f hf
            simp at hf
        · refine ⟨[], ?_, ?_⟩
          · rw [verify_packet_trace]
          · intro f hf
            simp at hf
    · rw [read_byte_receive_overflow cfg s byte now hss hi]
      simp only [GreeAC.verify_call, hss, if_neg hi]
  · rw [read_byte_complete_state cfg s byte now hss]
    simp only [GreeAC.verify_call, hss]

/-- One more byte keeps the invariant. -/
theorem rx_invariant_step (cfg : Config) (s : GreeAC) (consumed : List RxByte) (x : RxByte)
    (hcap : 0 < cfg.GREE_RX_BUFFER_SIZE) (hx : x.byte < 256)
    (h : rx_invariant cfg s consumed (s.read_uart_data_ cfg consumed)) :
    rx_invariant cfg s (consumed ++ [x]) (s.read_uart_data_ cfg (consumed ++ [x])) := by
  rw [read_uart_data_append]
  show rx_invariant cfg s (consumed ++ [x])
    ((s.read_uart_data_ cfg consumed).read_uart_byte_ cfg x.byte x.millis)
  generalize hws : s.read_uart_data_ cfg consumed = t at h ⊢
  obtain ⟨hlen, hidx, hcases⟩ := h
  rcases hcases with ⟨hs, h0⟩ | ⟨hs, h1, hb0, h3, pre, fr, hsplit, hfl, htake, hpre⟩
  · by_cases hb : x.byte = cfg.GREE_START_BYTE
    · rw [read_byte_wait_sync cfg t x.byte x.millis hs hb]
      refine ⟨?_, hcap, Or.inr ⟨rfl, le_refl 1, ?_, ?_, consumed, [x], rfl, rfl, ?_, ?_⟩⟩
      · show (t.rx_buffer_.set 0 x.byte).length = cfg.GREE_RX_BUFFER_SIZE
        rw [List.length_set, hlen]
      · show (t.rx_buffer_.set 0 x.byte).getD 0 0 = cfg.GREE_START_BYTE
        rw [getD_set_eq _ _ _ (by omega)]
        exact hb
      · intro h31
        have h31' : 3 ≤ 1 := h31
        omega
      · exact take_set_succ t.rx_buffer_ [] 0 x.byte (by omega) rfl
      · rw [hws]
        exact hs
    · rw [read_byte_wait_other cfg t x.byte x.millis hs hb]
      exact ⟨hlen, hidx, Or.inl ⟨hs, h0⟩⟩
  · by_cases hi : t.rx_index_ < cfg.GREE_RX_BUFFER_SIZE
    · by_cases hmore : t.rx_index_ + 1 < 3 ∨
          t.rx_index_ + 1 < (3 + (t.rx_buffer_.set t.rx_index_ x.byte).getD 2 0) % 65536
      · rw [read_byte_receive_more cfg t x.byte x.millis hs hi hmore]
        have hb2 : 3 ≤ t.rx_index_ + 1 →
            (t.rx_buffer_.set t.rx_index_ x.byte).getD 2 0 < 256 := by
          intro h31
          by_cases h2 : t.rx_index_ = 2
          · rw [h2, getD_set_eq _ _ _ (by omega)]
            exact hx
          · rw [getD_set_ne _ _ _ _ h2]
            exact (h3 (by omega)).1
        refine ⟨?_, ?_, Or.inr ⟨hs, ?_, ?_, ?_, pre, fr ++ [x], ?_, ?_, ?_, hpre⟩⟩
        · show (t.rx_buffer_.set t.rx_index_ x.byte).length = cfg.GREE_RX_BUFFER_SIZE
          rw [List.length_set, hlen]
        · show t.rx_index_ + 1 ≤ cfg.GREE_RX_BUFFER_SIZE
          omega
        · show 1 ≤ t.rx_index_ + 1
          omega
        · show (t.rx_buffer_.set t.rx_index_ x.byte).getD 0 0 = cfg.GREE_START_BYTE
          rw [getD_set_ne _ _ _ _ (by omega)]
          exact hb0
        · intro h31
          have h31' : 3 ≤ t.rx_index_ + 1 := h31
          have hlt := hb2 h31'
          refine ⟨hlt, ?_⟩
          show t.rx_index_ + 1 < 3 + (t.rx_buffer_.set t.rx_index_ x.byte).getD 2 0
          rcases hmore with hm | hm
          · omega
          · omega
        · rw [hsplit, List.append_assoc]
        · show (fr ++ [x]).length = t.rx_index_ + 1
          rw [List.length_append, hfl]
          rfl
        · show (t.rx_buffer_.set t.rx_index_ x.byte).take (t.rx_index_ + 1)
            = (fr ++ [x]).map (fun b => b.byte)
          rw [List.map_append]
          exact take_set_succ t.rx_buffer_ _ t.rx_index_ x.byte (by omega) htake
      · have hstep := read_byte_receive_complete cfg t x.byte x.millis hs hi (by omega)
          (by omega)
        refine ⟨?_, ?_, Or.inl ⟨?_, ?_⟩⟩
        · rw [read_uart_byte_rx_buffer]
          simp only [GreeAC.rx_store_index, hs, if_pos hi]
          rw [List.length_set, hlen]
        · rw [hstep]
          exact Nat.zero_le _
        · rw [hstep]
        · rw [hstep]
    · rw [read_byte_receive_overflow cfg t x.byte x.millis hs hi]
      exact ⟨hlen, Nat.zero_le _, Or.inl ⟨rfl, rfl⟩⟩

/-- From `WAIT_SYNC` with index 0 and a buffer of `GREE_RX_BUFFER_SIZE` bytes, the
invariant holds after any bytes. -/
theorem rx_invariant_run (cfg : Config) (s : GreeAC) (input : List RxByte)
    (hcap : 0 < cfg.GREE_RX_BUFFER_SIZE)
    (hlen : s.rx_buffer_.length = cfg.GREE_RX_BUFFER_SIZE)
    (hs : s.serial_state_ = SerialState.WAIT_SYNC) (h0 : s.rx_index_ = 0)
    (hbytes : ∀ b ∈ input, b.byte < 256) :
    rx_invariant cfg s input (s.read_uart_data_ cfg input) := by
  induction input using List.reverseRecOn with
  | nil =>
    refine ⟨hlen, ?_, Or.inl ⟨hs, h0⟩⟩
    show s.rx_index_ ≤ cfg.GREE_RX_BUFFER_SIZE
    omega
  | append_singleton xs x ih =>
    exact rx_invariant_step cfg s xs x hcap (hbytes x (by simp))
      (ih (fun b hb => hbytes b (by simp [hb])))

/-- Claim C22: the reassembler invariant.  Start in `WAIT_SYNC` with index 0 and a
receive buffer of `GREE_RX_BUFFER_SIZE` bytes, a capacity from 1 to 255, and let
any bytes `input` be received.  Then the index is at most the capacity; the
state is `WAIT_SYNC` with index 0, or `RECEIVE` with index at least 1 and the sync
byte first in the buffer; the iteration on any next byte `x` stores into the
buffer below the capacity, if it stores at all; and if that iteration calls
`verify_packet_`, the index at the call is the size handed over, that size is 3
plus the length byte, and the bytes handed over are the last bytes received,
as many as that size, the first of them the sync byte, received in
`WAIT_SYNC`. -/
theorem C22_reassembler_invariant (cfg : Config) (s : GreeAC) (input : List RxByte)
    (x : RxByte)
    (hcap : 0 < cfg.GREE_RX_BUFFER_SIZE) (hrx : cfg.GREE_RX_BUFFER_SIZE ≤ 255)
    (hlen : s.rx_buffer_.length = cfg.GREE_RX_BUFFER_SIZE)
    (hs : s.serial_state_ = SerialState.WAIT_SYNC) (h0 : s.rx_index_ = 0)
    (hbytes : ∀ b ∈ input, b.byte < 256) (hx : x.byte < 256) :
    (s.read_uart_data_ cfg input).rx_index_ ≤ cfg.GREE_RX_BUFFER_SIZE ∧
    (((s.read_uart_data_ cfg input).serial_state_ = SerialState.WAIT_SYNC ∧
        (s.read_uart_data_ cfg input).rx_index_ = 0) ∨
      ((s.read_uart_data_ cfg input).serial_state_ = SerialState.RECEIVE ∧
        1 ≤ (s.read_uart_data_ cfg input).rx_index_ ∧
        (s.read_uart_data_ cfg input).rx_buffer_.getD 0 0 = cfg.GREE_START_BYTE)) ∧
    (∀ i, (s.read_uart_data_ cfg input).rx_store_index cfg x.byte = some i →
      i < cfg.GREE_RX_BUFFER_SIZE ∧ i < (s.read_uart_data_ cfg input).rx_buffer_.length) ∧
    (∀ c, (s.read_uart_data_ cfg input).verify_call cfg x.byte = some c →
      c.rx_index_ = c.size ∧ c.size = 3 + c.rx_buffer_.getD 2 0 ∧
      ∃ pre fr, input ++ [x] = pre ++ fr ∧ fr.length = c.size ∧
        c.rx_buffer_.take c.size = fr.map (fun b => b.byte) ∧
        (fr.map (fun b => b.byte)).getD 0 0 = cfg.GREE_START_BYTE ∧
        (s.read_uart_data_ cfg pre).serial_state_ = SerialState.WAIT_SYNC) := by
  have hinv := rx_invariant_run cfg s input hcap hlen hs h0 hbytes
  generalize s.read_uart_data_ cfg input = t at hinv ⊢
  obtain ⟨hl, hidx, hcases⟩ := hinv
  refine ⟨hidx, ?_, ?_, ?_⟩
  · rcases hcases with ⟨h1, h2⟩ | ⟨h1, h2, h3, _⟩
    · exact Or.inl ⟨h1, h2⟩
    · exact Or.inr ⟨h1, h2, h3⟩
  · intro i hi
    rw [hl]
    rcases hcases with ⟨h1, h2⟩ | ⟨h1, h2, _⟩
    · simp only [GreeAC.rx_store_index, h1] at hi
      split_ifs at hi
      simp only [Option.some.injEq] at hi
      omega
    · simp only [GreeAC.rx_store_index, h1] at hi
      split_ifs at hi with hlt
      simp only [Option.some.injEq] at hi
      omega
  · intro c hc
    rcases hcases with ⟨h1, h2⟩ | ⟨h1, h2, hb0, h3, pre, fr, hsplit, hfl, htake, hpre⟩
    · simp only [GreeAC.verify_call, h1] at hc
      simp at hc
    · simp only [GreeAC.verify_call, h1] at hc
      split_ifs at hc with hi h31 hfull
      simp only [Option.some.injEq] at hc
      have hb2 : (t.rx_buffer_.set t.rx_index_ x.byte).getD 2 0 < 256 := by
        by_cases h2i : t.rx_index_ = 2
        · rw [h2i, getD_set_eq _ _ _ (by omega)]
          exact hx
        · rw [getD_set_ne _ _ _ _ h2i]
          exact (h3 (by omega)).1
      have heq : t.rx_index_ + 1 = 3 + (t.rx_buffer_.set t.rx_index_ x.byte).getD 2 0 := by
        by_cases h2i : t.rx_index_ = 2
        · rw [h2i, getD_set_eq _ _ _ (by omega)] at hfull ⊢
          omega
        · rw [getD_set_ne _ _ _ _ h2i] at hfull hb2 ⊢
          have := (h3 (by omega)).2
          omega
      have hsize : (3 + (t.rx_buffer_.set t.rx_index_ x.byte).getD 2 0) % 65536 % 256
          = t.rx_index_ + 1 := by omega
      have htk : (t.rx_buffer_.set t.rx_index_ x.byte).take (t.rx_index_ + 1)
          = (fr ++ [x]).map (fun b => b.byte) := by
        rw [List.map_append]
        exact take_set_succ t.rx_buffer_ _ t.rx_index_ x.byte (by omega) htake
      subst hc
      dsimp only
      rw [hsize]
      refine ⟨rfl, heq, pre, fr ++ [x], ?_, ?_, htk, ?_, hpre⟩
      · rw [hsplit, List.append_assoc]
      · rw [List.length_append, hfl]
        rfl
      · rw [← htk, getD_take _ _ _ (by omega), getD_set_ne _ _ _ _ (by omega)]
        exact hb0

/-- Witness of C22: after the first 13 bytes of `sample_frame` the index is at most 52;
the last byte of the frame, `0x91`, brings about the call `sample_verify_call`,
in which the index is the size handed over and that size is 3 plus the length
byte. -/
theorem C22_reassembler_invariant_witness :
    (sample_driver.read_uart_data_ sample_config (stamp (sample_frame.take 13))).rx_index_
      ≤ sample_config.GREE_RX_BUFFER_SIZE ∧
    (sample_driver.read_uart_data_ sample_config (stamp (sample_frame.take 13))).verify_call
      sample_config 0x91 = some sample_verify_call ∧
    sample_verify_call.rx_index_ = sample_verify_call.size ∧
    sample_verify_call.size = 3 + sample_verify_call.rx_buffer_.getD 2 0 :=
  ⟨(C22_reassembler_invariant sample_config sample_driver (stamp (sample_frame.take 13))
      ⟨0x91, 0⟩ (by decide) (by decide) (by decide) (by decide) (by decide) (by decide)
      (by decide)).1,
    by decide,
    ((C22_reassembler_invariant sample_config sample_driver (stamp (sample_frame.take 13))
      ⟨0x91, 0⟩ (by decide) (by decide) (by decide) (by decide) (by decide) (by decide)
      (by decide)).2.2.2 sample_verify_call (by decide)).1,
    ((C22_reassembler_invariant sample_config sample_driver (stamp (sample_frame.take 13))
      ⟨0x91, 0⟩ (by decide) (by decide) (by decide) (by decide) (by decide) (by decide)
      (by decide)).2.2.2 sample_verify_call (by decide)).2.1⟩

/-! ## Outgoing buffer: the length byte -/

theorem verify_packet_tx_buffer (cfg : Config) (s : GreeAC) (data : List Nat) (size : Nat) :
    (s.verify_packet_ cfg data size).2.tx_buffer_ = s.tx_buffer_ := by
  unfold GreeAC.verify_packet_
  dsimp only
  split_ifs <;> rfl

/-- The decoder does not write the length byte (index 2) of the outgoing buffer: it
stores at the indices 8, 9 and 12 only. -/
theorem parse_state_packet_length_byte (cfg : Config) (s : GreeAC) (data : List Nat)
    (size : Nat) :
    (s.parse_state_packet_ cfg data size).tx_buffer_.getD 2 0 = s.tx_buffer_.getD 2 0 := by
  unfold GreeAC.parse_state_packet_
  dsimp only
  split_ifs
  · rfl
  · rfl
  · rfl
  · rfl
  · rw [parse_swing_tx, (parse_preset_others cfg _ data size).2.2.2.2.2,
      (parse_fan_others cfg _ _).2.2.2.2.2, (parse_mode_others cfg _ _).2.2.2.2.2]
    dsimp only
    rw [(parse_current_temperature_others _ data size).2.2.2.2.2,
      (parse_target_temperature_others cfg s data).2.2.2.2.2]
    split_ifs
    · rw [getD_set_ne _ SWING_BYTE 2 _ (by decide),
        getD_set_ne _ TEMPERATURE_BYTE 2 _ (by decide), getD_set_ne _ MODE_BYTE 2 _ (by decide)]
    · rw [getD_set_ne _ TEMPERATURE_BYTE 2 _ (by decide), getD_set_ne _ MODE_BYTE 2 _ (by decide)]

theorem handle_packet_length_byte (cfg : Config) (s : GreeAC) (data : List Nat) (size : Nat) :
    (s.handle_packet_ cfg data size).tx_buffer_.getD 2 0 = s.tx_buffer_.getD 2 0 :=
  parse_state_packet_length_byte cfg
    { s with trace_ := s.trace_ ++ [Event.handle (data.take size)] } data size

/-- Processing a received byte does not write the length byte of the outgoing
buffer. -/
theorem read_uart_byte_length_byte (cfg : Config) (s : GreeAC) (byte now : Nat) :
    (s.read_uart_byte_ cfg byte now).tx_buffer_.getD 2 0 = s.tx_buffer_.getD 2 0 := by
  have hcase : s.serial_state_ = SerialState.WAIT_SYNC ∨
      s.serial_state_ = SerialState.RECEIVE ∨ s.serial_state_ = SerialState.COMPLETE := by
    cases s.serial_state_ <;> simp
  rcases hcase with hss | hss | hss
  · by_cases hb : byte = cfg.GREE_START_BYTE
    · rw [read_byte_wait_sync cfg s byte now hss hb]
    · rw [read_byte_wait_other cfg s byte now hss hb]
  · by_cases hi : s.rx_index_ < cfg.GREE_RX_BUFFER_SIZE
    · by_cases hmore : s.rx_index_ + 1 < 3 ∨
          s.rx_index_ + 1 < (3 + (s.rx_buffer_.set s.rx_index_ byte).getD 2 0) % 65536
      · rw [read_byte_receive_more cfg s byte now hss hi hmore]
      · rw [read_byte_receive_complete cfg s byte now hss hi (by omega) (by omega)]
        dsimp only
        split_ifs
        · rw [handle_packet_length_byte, verify_packet_tx_buffer]
        · rw [verify_packet_tx_buffer]
    · rw [read_byte_receive_overflow cfg s byte now hss hi]
  · rw [read_byte_complete_state cfg s byte now hss]

theorem read_uart_data_length_byte (cfg : Config) (input : List RxByte) (s : GreeAC) :
    (s.read_uart_data_ cfg input).tx_buffer_.getD 2 0 = s.tx_buffer_.getD 2 0 := by
  induction input generalizing s with
  | nil => rfl
  | cons x xs ih =>
    rw [read_uart_data_cons, ih, read_uart_byte_length_byte]

/-- The checksum store of `send_packet_` leaves the length byte of the outgoing buffer
as it is when the checksum slot is not index 2. -/
theorem send_packet_length_byte (cfg : Config) (s : GreeAC) (now : Nat)
    (hslot : tx_frame_size cfg s.tx_buffer_ - 1 ≠ 2) :
    (s.send_packet_ cfg now).tx_buffer_.getD 2 0 = s.tx_buffer_.getD 2 0 :=
  getD_set_ne _ _ _ _ hslot

/-- The stores of `control`, at the indices 7, 8, 9, 10, 12, 13 and the checksum
slot, leave the length byte of the outgoing buffer as it is when the checksum slot
is not index 2. -/
theorem control_length_byte (cfg : Config) (s : GreeAC) (call : ClimateCall) (now : Nat)
    (hslot : tx_frame_size cfg s.tx_buffer_ - 1 ≠ 2) :
    (s.control cfg call now).tx_buffer_.getD 2 0 = s.tx_buffer_.getD 2 0 := by
  by_cases h : s.state_ = ACState.READY
  · rw [getD_control_tx cfg s call now 2 h (by decide) (Ne.symm hslot),
      getD_control_buffer_other cfg call s.tx_buffer_ 2 (by decide) (by decide) (by decide)
        (by decide) (by decide) (by decide)]
  · rw [control_not_ready cfg s call now h]

theorem update_length_byte (cfg : Config) (s : GreeAC) (now : Nat)
    (hslot : tx_frame_size cfg s.tx_buffer_ - 1 ≠ 2) :
    (s.update cfg now).tx_buffer_.getD 2 0 = s.tx_buffer_.getD 2 0 := by
  unfold GreeAC.update
  split_ifs
  · exact send_packet_length_byte cfg s now hslot
  · rfl

/-- A `loop` tick leaves the length byte of the outgoing buffer as it is when the checksum
slot is not index 2; so the outgoing frame size, and with it the checksum slot,
is the same after every operation of the driver as before. -/
theorem loop_length_byte (cfg : Config) (s : GreeAC) (input : List RxByte) (now sent : Nat)
    (hslot : tx_frame_size cfg s.tx_buffer_ - 1 ≠ 2) :
    (s.loop cfg input now sent).tx_buffer_.getD 2 0 = s.tx_buffer_.getD 2 0 := by
  have h1 := read_uart_data_length_byte cfg input s
  have hslot1 : tx_frame_size cfg (s.read_uart_data_ cfg input).tx_buffer_ - 1 ≠ 2 := by
    rw [tx_frame_size_congr cfg _ _ h1]
    exact hslot
  have h2 : (GreeAC.send_packet_ cfg
      { s.read_uart_data_ cfg input with last_handshake_attempt_ := now } sent).tx_buffer_.getD 2 0
        = s.tx_buffer_.getD 2 0 := by
    rw [← h1]
    exact send_packet_length_byte cfg
      { s.read_uart_data_ cfg input with last_handshake_attempt_ := now } sent hslot1
  unfold GreeAC.loop
  dsimp only
  split_ifs <;> first | exact h1 | exact h2

end gree_ac
